import Mathlib

/-!
# liveMedia `RTSPServer.cpp`: a shallow embedding and its verified properties

C strings and buffers are lists of bytes (`List Nat`, every byte below 256).
Values of the C type `unsigned` are natural numbers reduced modulo `2^32` at
every operation that can wrap.  A read outside the bytes of the object a
pointer refers to has no defined result and is modelled as `none`.
-/

namespace RTSPServer

/-! ## Bytes and machine arithmetic -/

/-- The bytes of a string literal. -/
def bytes (s : String) : List Nat := s.toList.map Char.toNat

/-- Modulus of the C type `unsigned`. -/
def U32 : Nat := 4294967296

/-- Subtraction of two `unsigned` values. -/
def sub32 (a b : Nat) : Nat := (a + U32 - b) % U32

/-- Addition of two `unsigned` values. -/
def add32 (a b : Nat) : Nat := (a + b) % U32

/-- The constant `PARAM_STRING_MAX`. -/
def PARAM_STRING_MAX : Nat := 100

/-- The expression `reqStr[k]`: `none` when `k` lies outside the object. -/
def rd (reqStr : List Nat) (k : Nat) : Option Nat := reqStr[k]?

/-! ## `parseRequestString` -/

/-- A chain `p0(reqStr[j]) && p1(reqStr[j+1]) && ...` with C short-circuit
evaluation; the indices are `unsigned` sums. -/
def matchAt (reqStr : List Nat) : List (Nat → Bool) → Nat → Option Bool
  | [], _ => some true
  | p :: ps, j =>
    match rd reqStr (j % U32) with
    | none => none
    | some c => if p c then matchAt reqStr ps (j + 1) else some false

/-- The loop `for (j = start; j < bound; ++j) if (<chain at j>) { ...; break; }`
with `n = bound - start` iterations left: the first index at which the chain
holds, if any. -/
def findFrom (reqStr : List Nat) (pat : List (Nat → Bool)) : Nat → Nat → Option (Option Nat)
  | 0, _ => some none
  | n + 1, j =>
    match matchAt reqStr pat j with
    | none => none
    | some true => some (some j)
    | some false => findFrom reqStr pat n (j + 1)

/-- The loop `while (j < reqStrSize && p(reqStr[j])) ++j;` with
`n = reqStrSize - j`: the final `j`. -/
def skipWhile (reqStr : List Nat) (p : Nat → Bool) : Nat → Nat → Option Nat
  | 0, j => some j
  | n + 1, j =>
    match rd reqStr j with
    | none => none
    | some c => if p c then skipWhile reqStr p n (j + 1) else some j

/-- The first loop of `parseRequestString` (lines 814-822), with
`n = min (resultCmdNameMaxSize-1) reqStrSize - i` iterations left: whether a
space was found, the final `i`, and the bytes stored in `resultCmdName`. -/
def scanCmdName (reqStr : List Nat) : Nat → Nat → List Nat → Option (Bool × Nat × List Nat)
  | 0, i, acc => some (false, i, acc)
  | n + 1, i, acc =>
    match rd reqStr i with
    | none => none
    | some c => if c = 32 then some (true, i, acc) else scanCmdName reqStr n (i + 1) (acc ++ [c])

/-- The loop `while (--k >= i && reqStr[k] == ' ') {}` (line 847): the final
`k`.  `k` is `unsigned`, so `--k` wraps at zero; the loop visits at most
`2^32` indices, and running out of the first argument stands for a loop
that does not end. -/
def backSpaces (reqStr : List Nat) (i : Nat) : Nat → Nat → Option Nat
  | 0, _ => none
  | f + 1, k =>
    if i ≤ sub32 k 1 then
      match rd reqStr (sub32 k 1) with
      | none => none
      | some c => if c = 32 then backSpaces reqStr i f (sub32 k 1) else some (sub32 k 1)
    else some (sub32 k 1)

/-- The loop `while (k1 > i && reqStr[k1] != '/' && reqStr[k1] != ' ') --k1;`
(lines 849 and 860) with `n = k1 - i`: the final `k1`. -/
def backToSep (reqStr : List Nat) : Nat → Nat → Option Nat
  | 0, k1 => some k1
  | n + 1, k1 =>
    match rd reqStr k1 with
    | none => none
    | some c => if c ≠ 47 ∧ c ≠ 32 then backToSep reqStr n (k1 - 1) else some k1

/-- The bytes `reqStr[k2], ..., reqStr[k2+n-1]`. -/
def copyBytes (reqStr : List Nat) : Nat → Nat → Option (List Nat)
  | 0, _ => some []
  | n + 1, k2 =>
    match rd reqStr k2 with
    | none => none
    | some c => (copyBytes reqStr n (k2 + 1)).map (fun l => c :: l)

/-- The loop `while (k2 <= k) result[n++] = reqStr[k2++];` (lines 855 and
866): the bytes stored.  When `k` is the largest `unsigned` value the
condition never becomes false. -/
def copyRange (reqStr : List Nat) (k2 k : Nat) : Option (List Nat) :=
  if k + 1 = U32 then none else copyBytes reqStr (k + 1 - k2) k2

/-- The loop reading the `CSeq` value (lines 883-891), with
`n = min (resultCSeqMaxSize-1) (reqStrSize - j)` iterations left: whether
CR or LF was found, and the bytes stored in `resultCSeq`. -/
def scanCSeq (reqStr : List Nat) : Nat → Nat → List Nat → Option (Bool × List Nat)
  | 0, _, acc => some (false, acc)
  | n + 1, j, acc =>
    match rd reqStr j with
    | none => none
    | some c => if c = 13 ∨ c = 10 then some (true, acc) else scanCSeq reqStr n (j + 1) (acc ++ [c])

/-- The test of line 830-834: `rtsp://`, the four letters in either case. -/
def rtspUrlPat : List (Nat → Bool) :=
  [fun c => c == 114 || c == 82, fun c => c == 116 || c == 84,
   fun c => c == 115 || c == 83, fun c => c == 112 || c == 80,
   fun c => c == 58, fun c => c == 47, fun c => c == 47]

/-- The test of line 845-846: `RTSP/`. -/
def rtspVerPat : List (Nat → Bool) :=
  [fun c => c == 82, fun c => c == 84, fun c => c == 83, fun c => c == 80, fun c => c == 47]

/-- The test of line 879-880: `CSeq: `. -/
def cseqPat : List (Nat → Bool) :=
  [fun c => c == 67, fun c => c == 83, fun c => c == 101, fun c => c == 113,
   fun c => c == 58, fun c => c == 32]

/-- What a call of `parseRequestString` that returns leaves behind: the
returned Boolean and the bytes stored in each output buffer, terminating NUL
included (`[]` for a buffer that was not written). -/
structure ParseResult where
  success : Bool
  resultCmdName : List Nat
  resultURLPreSuffix : List Nat
  resultURLSuffix : List Nat
  resultCSeq : List Nat
deriving DecidableEq, Repr

/-- Lines 876-898: the search for `CSeq: ` from index `i` on. -/
def parseCSeq (reqStr : List Nat) (reqStrSize cseqMax i : Nat) : Option (Bool × List Nat) :=
  match findFrom reqStr cseqPat (sub32 reqStrSize 6 - i) i with
  | none => none
  | some none => some (false, [])
  | some (some j) =>
    match scanCSeq reqStr (min (sub32 cseqMax 1) (reqStrSize - add32 j 6)) (add32 j 6) [] with
    | none => none
    | some (ok, cseq) => some (ok, cseq ++ [0])

/-- Lines 826-840: the new value of `i` after the search for `rtsp://`. -/
def skipRtspPrefix (reqStr : List Nat) (reqStrSize i : Nat) : Option Nat :=
  match skipWhile reqStr (fun c => c == 32) (reqStrSize - add32 i 1) (add32 i 1) with
  | none => none
  | some _ =>
    match findFrom reqStr rtspUrlPat (sub32 reqStrSize 8 - add32 i 1) (add32 i 1) with
    | none => none
    | some none => some i
    | some (some j) =>
      skipWhile reqStr (fun c => c != 47 && c != 32) (reqStrSize - add32 j 7) (add32 j 7)

/-- The function `RTSPServer::RTSPClientSession::parseRequestString`
(lines 797-899).  `reqStr` holds the bytes of the object the pointer refers
to, of which the first `reqStrSize` are the request; `none` is a run that
reads outside that object or does not end. -/
def parseRequestString (reqStr : List Nat) (reqStrSize : Nat)
    (resultCmdNameMaxSize resultURLPreSuffixMaxSize resultURLSuffixMaxSize
      resultCSeqMaxSize : Nat) : Option ParseResult :=
  match scanCmdName reqStr (min (sub32 resultCmdNameMaxSize 1) reqStrSize) 0 [] with
  | none => none
  | some (false, _, cmd) => some ⟨false, cmd ++ [0], [], [], []⟩
  | some (true, i0, cmd) =>
    match skipRtspPrefix reqStr reqStrSize i0 with
    | none => none
    | some i =>
      match findFrom reqStr rtspVerPat (sub32 reqStrSize 5 - add32 i 1) (add32 i 1) with
      | none => none
      | some none => some ⟨false, cmd ++ [0], [], [], []⟩
      | some (some kf) =>
        match backSpaces reqStr i U32 kf with
        | none => none
        | some k =>
          match backToSep reqStr (k - i) k with
          | none => none
          | some k1 =>
            if resultURLSuffixMaxSize < add32 (sub32 k k1) 1 then
              some ⟨false, cmd ++ [0], [], [], []⟩
            else
              match copyRange reqStr (add32 k1 1) k with
              | none => none
              | some suf =>
                match backToSep reqStr (sub32 k1 1 - i) (sub32 k1 1) with
                | none => none
                | some k3 =>
                  if resultURLPreSuffixMaxSize < add32 (sub32 (sub32 k1 1) k3) 1 then
                    some ⟨false, cmd ++ [0], [], suf ++ [0], []⟩
                  else
                    match copyRange reqStr (add32 k3 1) (sub32 k1 1) with
                    | none => none
                    | some pre =>
                      match parseCSeq reqStr reqStrSize resultCSeqMaxSize (add32 k 7) with
                      | none => none
                      | some (ok, cseq) => some ⟨ok, cmd ++ [0], pre ++ [0], suf ++ [0], cseq⟩

/-- The bytes `/P1/P2/.../Pn` of a path with the segments `P1, ..., Pn`. -/
def pathBytes : List (List Nat) → List Nat
  | [] => []
  | P :: Ps => 47 :: (P ++ pathBytes Ps)

/-- The request `M rtsp://H/P1/.../Pn RTSP/1.0\r\nCSeq: C\r\n\r\n`. -/
def rtspRequest (M H : List Nat) (Ps : List (List Nat)) (C : List Nat) : List Nat :=
  M ++ 32 :: (bytes "rtsp://" ++ (H ++ (pathBytes Ps ++ 32 :: (bytes "RTSP/1.0\r\n" ++
    (bytes "CSeq: " ++ (C ++ bytes "\r\n\r\n"))))))

/-- An upper-case ASCII letter. -/
def isUpper (c : Nat) : Prop := 65 ≤ c ∧ c ≤ 90

/-- A lower-case ASCII letter. -/
def isLower (c : Nat) : Prop := 97 ≤ c ∧ c ≤ 122

/-- An ASCII decimal digit. -/
def isDigit (c : Nat) : Prop := 48 ≤ c ∧ c ≤ 57

instance : DecidablePred isUpper := fun c => by unfold isUpper; infer_instance

instance : DecidablePred isLower := fun c => by unfold isLower; infer_instance

instance : DecidablePred isDigit := fun c => by unfold isDigit; infer_instance

/-! ## The reader of `incomingRequestHandler1` -/

/-- The test `*tmpPtr == '\r' && *(tmpPtr+1) == '\n'` at offset `p` of the
buffer. -/
def crlfAt (buf : List Nat) (p : Nat) : Prop := buf[p]? = some 13 ∧ buf[p + 1]? = some 10

instance (buf : List Nat) (p : Nat) : Decidable (crlfAt buf p) := by
  unfold crlfAt; infer_instance

/-- The inner loop of lines 281-290, with `n = &ptr[bytesRead-1] - tmpPtr`
iterations left; pointers are offsets into `fBuffer`.  The result is the
pair of `endOfMsg` and `lastCRLF`. -/
def scanCRLF (buf : List Nat) : Nat → Nat → Int → Bool × Int
  | 0, _, lastCRLF => (false, lastCRLF)
  | n + 1, tmpPtr, lastCRLF =>
    if crlfAt buf tmpPtr then
      if (tmpPtr : Int) - lastCRLF = 2 then (true, lastCRLF)
      else scanCRLF buf n (tmpPtr + 1) tmpPtr
    else scanCRLF buf n (tmpPtr + 1) lastCRLF

/-- The local variables of the reading loop (lines 254-258): `buf` is
`fBuffer[0 .. totalBytes)`, `ptr` is `fBuffer + totalBytes`, and `numReads`
counts the calls of `readSocket` made so far. -/
structure ReadState where
  bytesLeft : Int
  totalBytes : Nat
  lastCRLF : Int
  buf : List Nat
  numReads : Nat
deriving DecidableEq, Repr

/-- The state before the first read, for a buffer of `B` bytes. -/
def ReadState.init (B : Nat) : ReadState := ⟨B, 0, -3, [], 0⟩

/-- How the reading loop ends: the session deletes itself (buffer full, or
`readSocket` returned no bytes), or the end of a message was seen. -/
inductive ReadResult
  | closed
  | endOfMsg (st : ReadState)
deriving DecidableEq, Repr

/-- Lines 278-294, after `readSocket` has stored the bytes `got` at `ptr`:
the search for the end of the message and the update of the counters.  The
result is `endOfMsg` and the new state. -/
def readBody (got : List Nat) (st : ReadState) : Bool × ReadState :=
  let buf := st.buf ++ got
  let tmpPtr := if 0 < st.totalBytes then st.totalBytes - 1 else st.totalBytes
  let r := scanCRLF buf (st.totalBytes + got.length - 1 - tmpPtr) tmpPtr st.lastCRLF
  (r.1, ⟨st.bytesLeft - got.length, st.totalBytes + got.length, r.2, buf, st.numReads + 1⟩)

/-- The loop `while (!endOfMsg)` of lines 260-295.  Each element of the
first argument is what one call of `readSocket` returns (at most
`bytesLeft` bytes are taken; no bytes, or no further element, is a result
`<= 0`). -/
def readLoop : List (List Nat) → ReadState → ReadResult
  | [], _ => ReadResult.closed
  | chunk :: rest, st =>
    if st.bytesLeft ≤ 0 then ReadResult.closed
    else if chunk.take st.bytesLeft.toNat = [] then ReadResult.closed
    else if (readBody (chunk.take st.bytesLeft.toNat) st).1 then
      ReadResult.endOfMsg (readBody (chunk.take st.bytesLeft.toNat) st).2
    else readLoop rest (readBody (chunk.take st.bytesLeft.toNat) st).2

/-- The bytes `\r\n\r\n` occur in `l`. -/
def containsEnd (l : List Nat) : Prop := ∃ u, crlfAt l u ∧ crlfAt l (u + 2)

/-! ## C strings and `sprintf` -/

/-- The C string that starts a byte array: the bytes before the first NUL. -/
def cstr (l : List Nat) : List Nat := l.takeWhile (fun c => c != 0)

/-- The conversion `%d` / `%u` / `%hu` of a nonnegative value. -/
def decimal (n : Nat) : List Nat := (Nat.toDigits 10 n).map Char.toNat

/-- The conversion `%d` of an `int`. -/
def fmtD (i : Int) : List Nat :=
  if i < 0 then 45 :: decimal (-i).toNat else decimal i.toNat

/-- An `unsigned` value read as an `int`, as `%d` does with the session id
and with `sdpDescriptionSize`. -/
def toInt32 (n : Nat) : Int :=
  if n % U32 < 2147483648 then (n % U32 : Nat) else (n % U32 : Nat) - (U32 : Int)

/-- The function `tolower` on ASCII. -/
def toLowerC (c : Nat) : Nat := if 65 ≤ c ∧ c ≤ 90 then c + 32 else c

/-- The test `_strncasecmp(s, pat, strlen(pat)) == 0` for a NUL-free `pat`. -/
def strncasecmpEq (s pat : List Nat) : Bool :=
  (s.take pat.length).map toLowerC == pat.map toLowerC

/-- The loop `while (1) { if (*buf == '\0') return; if (_strncasecmp(buf,
pat, n) == 0) break; ++buf; }` on a C string: the text after the first
occurrence of `pat`, if there is one. -/
def findHeader (pat : List Nat) : List Nat → Option (List Nat)
  | [] => none
  | c :: s => if strncasecmpEq (c :: s) pat then some ((c :: s).drop pat.length)
              else findHeader pat s

/-- The function `isspace` in the C locale. -/
def isSpaceC (c : Nat) : Bool := c == 32 || (9 ≤ c && c ≤ 13)

/-- The value of a string of decimal digits. -/
def digitsValue (ds : List Nat) : Nat := ds.foldl (fun acc d => 10 * acc + (d - 48)) 0

/-- The `sscanf` conversions `%u` (`w = 32`) and `%hu` (`w = 16`), as the
C library converts them with a 64-bit `unsigned long`: white space is
skipped, then an optional sign and one or more decimal digits are read; a
number of `2^64` or more is taken as `ULONG_MAX`, a smaller one is negated
after a `-`, and the result is stored modulo `2^w`.  `none` when no digit is
found; otherwise the stored value and the rest of the input. -/
def scanUnsigned (w : Nat) (s : List Nat) : Option (Nat × List Nat) :=
  let s1 := s.dropWhile isSpaceC
  let neg := s1.head? == some 45
  let s2 := if s1.head? == some 45 || s1.head? == some 43 then s1.tail else s1
  let ds := s2.takeWhile (fun c => 48 ≤ c && c ≤ 57)
  if ds = [] then none
  else if 2 ^ 64 ≤ digitsValue ds then some ((2 ^ 64 - 1) % 2 ^ w, s2.drop ds.length)
  else
    let v := digitsValue ds % 2 ^ w
    some (if neg then (2 ^ w - v) % 2 ^ w else v, s2.drop ds.length)

/-- The literal part of a `sscanf` format: `some rest` when `s` starts with
`lit`. -/
def scanLiteral (lit s : List Nat) : Option (List Nat) :=
  if lit.isPrefixOf s then some (s.drop lit.length) else none

/-! ## `parseTransportHeader` -/

/-- The seven results of `parseTransportHeader`. -/
structure TransportParams where
  tcpStreamingRequested : Bool
  destinationAddressStr : Option (List Nat)
  destinationTTL : Nat
  clientRTPPortNum : Nat
  clientRTCPPortNum : Nat
  rtpChannelId : Nat
  rtcpChannelId : Nat
deriving DecidableEq, Repr

/-- The default values of lines 441-446. -/
def TransportParams.default : TransportParams := ⟨false, none, 255, 0, 1, 255, 255⟩

/-- The call `sscanf(field, "ttl%u", &ttl) == 1`: the value of `ttl`. -/
def scanTTL (field : List Nat) : Option Nat :=
  match scanLiteral (bytes "ttl") field with
  | none => none
  | some r => (scanUnsigned 32 r).map (fun x => x.1)

/-- A call `sscanf(field, "<name>%u-%u", &a, &b) == 2` (`%hu` for
`w = 16`): the two values. -/
def scanPair (name : List Nat) (w : Nat) (field : List Nat) : Option (Nat × Nat) :=
  match scanLiteral name field with
  | none => none
  | some r =>
    match scanUnsigned w r with
    | none => none
    | some (a, r1) =>
      match scanLiteral [45] r1 with
      | none => none
      | some r2 => (scanUnsigned w r2).map (fun x => (a, x.1))

/-- The `if` chain of lines 462-475 for one field. -/
def transportField (p : TransportParams) (field : List Nat) : TransportParams :=
  if field = bytes "RTP/AVP/TCP" then { p with tcpStreamingRequested := true }
  else if strncasecmpEq field (bytes "destination=") then
    { p with destinationAddressStr := some (field.drop 12) }
  else
    match scanTTL field with
    | some ttl => { p with destinationTTL := ttl % 256 }
    | none =>
      match scanPair (bytes "client_port=") 16 field with
      | some (p1, p2) => { p with clientRTPPortNum := p1, clientRTCPPortNum := p2 }
      | none =>
        match scanPair (bytes "interleaved=") 32 field with
        | some (c1, c2) => { p with rtpChannelId := c1 % 256, rtcpChannelId := c2 % 256 }
        | none => p

/-- The loop of lines 461-480 over the C string `fields`; every pass
consumes at least one byte, and the first argument bounds the passes.
`sscanf(fields, "%[^;]", field)` stores the non-empty text before the next
`;` (or the end of the string). -/
def transportFields : Nat → TransportParams → List Nat → TransportParams
  | 0, p, _ => p
  | n + 1, p, fields =>
    let field := fields.takeWhile (fun c => c != 59)
    if field = [] then p
    else
      match (fields.drop field.length).dropWhile (fun c => c == 59) with
      | [] => transportField p field
      | c :: rest =>
        if c = 13 ∨ c = 10 then transportField p field
        else transportFields n (transportField p field) (c :: rest)

/-- The function `parseTransportHeader` (lines 431-482) on the C string
held in `buf`. -/
def parseTransportHeader (buf : List Nat) : TransportParams :=
  match findHeader (bytes "Transport: ") (cstr buf) with
  | none => TransportParams.default
  | some fields => transportFields fields.length TransportParams.default fields

/-! ## `parseAuthorizationHeader` -/

/-- The C string that starts at index `pos` of the memory `mem`; `none`
when it is not terminated inside `mem`. -/
def cstrAt (mem : List Nat) (pos : Nat) : Option (List Nat) :=
  if (mem.drop pos).contains 0 then some (cstr (mem.drop pos)) else none

/-- The five results of `parseAuthorizationHeader` (`none` is `NULL`). -/
structure AuthFields where
  username : Option (List Nat)
  realm : Option (List Nat)
  nonce : Option (List Nat)
  uri : Option (List Nat)
  response : Option (List Nat)
deriving DecidableEq, Repr

/-- The `if` chain of lines 718-728. -/
def authField (f : AuthFields) (parameter value : List Nat) : AuthFields :=
  if parameter = bytes "username" then { f with username := some value }
  else if parameter = bytes "realm" then { f with realm := some value }
  else if parameter = bytes "nonce" then { f with nonce := some value }
  else if parameter = bytes "uri" then { f with uri := some value }
  else if parameter = bytes "response" then { f with response := some value }
  else f

/-- The loop `while (*fields == ',' || *fields == ' ') ++fields;` of line
731 at index `q` of `mem`; the first argument bounds the passes. -/
def skipSeparators (mem : List Nat) : Nat → Nat → Option Nat
  | 0, _ => none
  | n + 1, q =>
    match mem[q]? with
    | none => none
    | some c => if c = 44 ∨ c = 32 then skipSeparators mem n (q + 1) else some q

/-- The loop of lines 712-734 with `fields` at index `q` of `mem`; `cap` is
the size of the arrays `parameter` and `value`, and the first argument
bounds the passes (every pass moves `fields` forward).  The first `sscanf`
stores the text before `=` in `parameter` and, when `="` and a non-empty
text follow, the text before the next `"` in `value`; the second one
stores `parameter` again.  `none` is a run that reads outside `mem` or
writes outside `parameter` or `value`. -/
def authFields (mem : List Nat) (cap : Nat) : Nat → Nat → AuthFields → Option AuthFields
  | 0, _, _ => none
  | n + 1, q, f =>
    match cstrAt mem q with
    | none => none
    | some str =>
      let parameter := str.takeWhile (fun c => c != 61)
      if parameter = [] then some f
      else
        let value := match scanLiteral [61, 34] (str.drop parameter.length) with
          | none => []
          | some r => r.takeWhile (fun c => c != 34)
        if cap < parameter.length + 1 ∨ cap < value.length + 1 then none
        else
          match skipSeparators mem (mem.length + 1)
              (q + (parameter.length + 2 + value.length + 1)) with
          | none => none
          | some q2 =>
            match mem[q2]? with
            | none => none
            | some c =>
              if c = 0 ∨ c = 13 ∨ c = 10 then some (authField f parameter value)
              else authFields mem cap n q2 (authField f parameter value)

/-- The function `parseAuthorizationHeader` (lines 692-737) on the memory
`mem` that `buf` points to: the returned Boolean and the five results. -/
def parseAuthorizationHeader (mem : List Nat) : Option (Bool × AuthFields) :=
  match cstrAt mem 0 with
  | none => none
  | some s =>
    match findHeader (bytes "Authorization: Digest ") s with
    | none => some (false, ⟨none, none, none, none, none⟩)
    | some rest =>
      let fields := rest.dropWhile (fun c => c == 32)
      match authFields mem (fields.length + 1) (mem.length + 1) (s.length - fields.length)
          ⟨none, none, none, none, none⟩ with
      | none => none
      | some f => some (true, f)

/-! ## The server, the client session and their collaborators -/

/-- A `ServerMediaSubsession` object: `ident` stands for its address. -/
structure ServerMediaSubsession where
  ident : Nat
  trackId : List Nat
deriving DecidableEq, Repr

/-- A `ServerMediaSession` object: its stream name, its subsessions in the
order of `ServerMediaSubsessionIterator`, and what
`generateSDPDescription()` returns. -/
structure ServerMediaSession where
  ident : Nat
  streamName : List Nat
  subsessions : List ServerMediaSubsession
  sdpDescription : Option (List Nat)
deriving DecidableEq, Repr

/-- The members of `UserAuthenticationDatabase` (lines 904-926). -/
structure UserAuthenticationDatabase where
  fRealm : List Nat
  fPasswordsAreMD5 : Bool
  fTable : List (List Nat × List Nat)
deriving DecidableEq, Repr

/-- Modelled from the spec: `HashTable::Lookup` with string keys (the class
`HashTable` is not part of the sources): the value stored under `key`. -/
def Lookup {α : Type} (table : List (List Nat × α)) (key : List Nat) : Option α :=
  (table.find? (fun e => e.1 == key)).map (fun e => e.2)

/-- Modelled from the spec: `HashTable::Add` with string keys (the class
`HashTable` is not part of the sources).  The keys of the table are unique:
the entry stored under `key` is replaced by the new one, the other entries
stay, and the value that was stored under `key` is returned (`none` is
`NULL`). -/
def Add {α : Type} (table : List (List Nat × α)) (key : List Nat) (value : α) :
    List (List Nat × α) × Option α :=
  ((key, value) :: table.filter (fun e => !(e.1 == key)), Lookup table key)

/-- The function `UserAuthenticationDatabase::lookupPassword`. -/
def UserAuthenticationDatabase.lookupPassword (db : UserAuthenticationDatabase)
    (username : List Nat) : Option (List Nat) :=
  Lookup db.fTable username

/-- Modelled from the spec: the state of an `Authenticator` (the class is
not part of the sources): realm, current nonce, bound credential. -/
structure Authenticator where
  realm : Option (List Nat)
  nonce : Option (List Nat)
  username : Option (List Nat)
  password : Option (List Nat)
  passwordIsMD5 : Bool
deriving DecidableEq, Repr

/-- One entry of `fStreamStates`. -/
structure StreamState where
  subsession : Option ServerMediaSubsession
  streamToken : Option Nat
deriving DecidableEq, Repr

/-- The arguments of one call of `getStreamParameters`, and the token it
returned. -/
structure StreamParametersCall where
  subsession : Nat
  clientSessionId : Nat
  clientAddress : Nat
  clientRTPPort : Nat
  clientRTCPPort : Nat
  tcpSocketNum : Int
  rtpChannelId : Nat
  rtcpChannelId : Nat
  destinationAddress : Nat
  destinationTTL : Nat
  streamToken : Option Nat
deriving DecidableEq, Repr

/-- The calls a client session makes to its collaborators, and the
allocation of its array of stream states. -/
inductive Event
  | lookup (name : List Nat)
  | generateSDPDescription (session : Nat)
  | newStreamStates (n : Nat)
  | getStreamParameters (call : StreamParametersCall)
  | startStream (subsession clientSessionId : Nat) (streamToken : Option Nat)
  | pauseStream (subsession clientSessionId : Nat) (streamToken : Option Nat)
  | deleteStream (subsession clientSessionId : Nat) (streamToken : Option Nat)
deriving DecidableEq, Repr

/-- The parts of the program that are outside `RTSPServer.cpp`: the digest
computation of the authenticator, the two address conversions, the size of
`fBuffer`, and whether `RTSP_ALLOW_CLIENT_DESTINATION_SETTING` is
defined. -/
structure Env where
  computeDigestResponse :
    (realm nonce username password : List Nat) → (passwordIsMD5 : Bool) →
      (cmd uri : List Nat) → List Nat
  our_inet_ntoa : Nat → List Nat
  our_inet_addr : List Nat → Nat
  bufferSize : Nat
  allowClientDestinationSetting : Bool

/-- The members of `RTSPServer` the handlers read; `ourAddress` is the
address `rtspURL` prints and `fServerPort` the port in host order. -/
structure Server where
  fAuthDB : Option UserAuthenticationDatabase
  fServerMediaSessions : List (List Nat × ServerMediaSession)
  ourAddress : Nat
  fServerPort : Nat
deriving DecidableEq, Repr

/-- What the collaborators give back during one request, when they are
called: the nonce `setRealmAndRandomNonce` generates, and what
`getStreamParameters` leaves in its output arguments and in the variables
`destinationAddress` and `destinationTTL` (its declaration is not part of
the sources; if it takes these two by value they keep the values
passed). -/
structure External where
  randomNonce : List Nat
  isMulticast : Bool
  serverRTPPort : Nat
  serverRTCPPort : Nat
  streamToken : Option Nat
  destinationAddress : Nat
  destinationTTL : Nat
deriving DecidableEq, Repr

/-- The members of `RTSPClientSession`.  `fBuffer` holds the response as a
C string, `fNumStreamStates` is the length of `fStreamStates`, and `log`
records the calls made to the collaborators. -/
structure RTSPClientSession where
  fOurSessionId : Nat
  fOurServerMediaSession : Option ServerMediaSession
  fClientSocket : Int
  fClientAddr : Nat
  fSessionIsActive : Bool
  fStreamStates : List StreamState
  fCurrentAuthenticator : Authenticator
  fBuffer : List Nat
  log : List Event
deriving DecidableEq, Repr

/-- The constructor of `RTSPClientSession` (lines 213-224). -/
def RTSPClientSession.new (sessionId : Nat) (clientSocket : Int) (clientAddr : Nat) :
    RTSPClientSession :=
  ⟨sessionId, none, clientSocket, clientAddr, true, [], ⟨none, none, none, none, false⟩, [], []⟩

/-- The calls of `deleteStream` made by the loop of lines 236-241. -/
def reclaimEvents (sessionId : Nat) : List StreamState → List Event
  | [] => []
  | st :: rest =>
    match st.subsession with
    | some sub => Event.deleteStream sub.ident sessionId st.streamToken :: reclaimEvents sessionId rest
    | none => reclaimEvents sessionId rest

/-- The function `reclaimStreamStates` (lines 235-244). -/
def reclaimStreamStates (s : RTSPClientSession) : RTSPClientSession :=
  { s with log := s.log ++ reclaimEvents s.fOurSessionId s.fStreamStates, fStreamStates := [] }

/-- The destructor `~RTSPClientSession` (lines 226-233). -/
def destroy (s : RTSPClientSession) : RTSPClientSession := reclaimStreamStates s

/-- The string `allowedCommandNames`. -/
def allowedCommandNames : List Nat := bytes "OPTIONS, DESCRIBE, SETUP, TEARDOWN, PLAY, PAUSE"

/-- The function `handleCmd_bad` (lines 345-350). -/
def handleCmd_bad (s : RTSPClientSession) : RTSPClientSession :=
  { s with
    fBuffer := bytes "RTSP/1.0 400 Bad Request\r\nAllow: " ++ allowedCommandNames
      ++ bytes "\r\n\r\n",
    fSessionIsActive := false }

/-- The function `handleCmd_notSupported` (lines 352-356). -/
def handleCmd_notSupported (s : RTSPClientSession) (cseq : List Nat) : RTSPClientSession :=
  { s with
    fBuffer := bytes "RTSP/1.0 405 Method Not Allowed\r\nCSeq: " ++ cseq ++ bytes "\r\nAllow: "
      ++ allowedCommandNames ++ bytes "\r\n\r\n",
    fSessionIsActive := false }

/-- The function `handleCmd_notFound` (lines 358-361). -/
def handleCmd_notFound (s : RTSPClientSession) (cseq : List Nat) : RTSPClientSession :=
  { s with
    fBuffer := bytes "RTSP/1.0 404 Stream Not Found\r\nCSeq: " ++ cseq ++ bytes "\r\n\r\n",
    fSessionIsActive := false }

/-- The function `handleCmd_unsupportedTransport` (lines 363-366). -/
def handleCmd_unsupportedTransport (s : RTSPClientSession) (cseq : List Nat) :
    RTSPClientSession :=
  { s with
    fBuffer := bytes "RTSP/1.0 461 Unsupported Transport\r\nCSeq: " ++ cseq ++ bytes "\r\n\r\n",
    fSessionIsActive := false }

/-- The function `handleCmd_OPTIONS` (lines 368-371). -/
def handleCmd_OPTIONS (s : RTSPClientSession) (cseq : List Nat) : RTSPClientSession :=
  { s with
    fBuffer := bytes "RTSP/1.0 200 OK\r\nCSeq: " ++ cseq ++ bytes "\r\nPublic: "
      ++ allowedCommandNames ++ bytes "\r\n\r\n" }

/-- The response written by lines 788-793. -/
def unauthorizedResponse (cseq realm nonce : List Nat) : List Nat :=
  bytes "RTSP/1.0 401 Unauthorized\r\nCSeq: " ++ cseq
    ++ bytes "\r\nWWW-Authenticate: Digest realm=\"" ++ realm ++ bytes "\", nonce=\"" ++ nonce
    ++ bytes "\"\r\n\r\n"

/-- Modelled from the spec: `Authenticator::setRealmAndRandomNonce` (the
class `Authenticator` is not part of the sources) "generates a fresh random
nonce" and makes it, with the given realm, the state of the authenticator;
`nonce` is the value generated. -/
def Authenticator.setRealmAndRandomNonce (a : Authenticator) (realm nonce : List Nat) :
    Authenticator :=
  { a with realm := some realm, nonce := some nonce }

/-- Modelled from the spec: `Authenticator::setUsernameAndPassword` (the
class `Authenticator` is not part of the sources) binds a credential. -/
def Authenticator.setUsernameAndPassword (a : Authenticator) (username password : List Nat)
    (passwordIsMD5 : Bool) : Authenticator :=
  { a with username := some username, password := some password, passwordIsMD5 := passwordIsMD5 }

/-- Lines 785-794 of `authenticationOK`: the authenticator is given the
realm of the database and a new nonce, then the 401 response is written
with the realm and the nonce of the authenticator. -/
def authenticationFailed (db : UserAuthenticationDatabase) (x : External)
    (s : RTSPClientSession) (cseq : List Nat) : RTSPClientSession :=
  { s with
    fCurrentAuthenticator :=
      s.fCurrentAuthenticator.setRealmAndRandomNonce db.fRealm x.randomNonce,
    fBuffer := unauthorizedResponse cseq
      ((s.fCurrentAuthenticator.setRealmAndRandomNonce db.fRealm x.randomNonce).realm.getD [])
      ((s.fCurrentAuthenticator.setRealmAndRandomNonce db.fRealm x.randomNonce).nonce.getD []) }

/-- The call `fCurrentAuthenticator.setUsernameAndPassword(username,
password, fAuthDB->passwordsAreMD5())` of lines 769-771. -/
def setUsernameAndPassword (db : UserAuthenticationDatabase) (s : RTSPClientSession)
    (username password : List Nat) : RTSPClientSession :=
  { s with
    fCurrentAuthenticator :=
      s.fCurrentAuthenticator.setUsernameAndPassword username password db.fPasswordsAreMD5 }

/-- The function `authenticationOK` (lines 739-795): the returned Boolean
and the session afterwards.  `mem` is the memory `fullRequestStr` points
to; `none` is a run without a defined result (the header parser leaves
`mem`, or `strcmp` is given a `NULL` realm). -/
def authenticationOK (env : Env) (srv : Server) (x : External) (s : RTSPClientSession)
    (cmdName cseq mem : List Nat) : Option (Bool × RTSPClientSession) :=
  match srv.fAuthDB with
  | none => some (true, s)
  | some db =>
    match s.fCurrentAuthenticator.nonce with
    | none => some (false, authenticationFailed db x s cseq)
    | some ourNonce =>
      match parseAuthorizationHeader mem with
      | none => none
      | some (false, _) => some (false, authenticationFailed db x s cseq)
      | some (true, f) =>
        match f.username with
        | none => some (false, authenticationFailed db x s cseq)
        | some username =>
          match f.realm with
          | none => some (false, authenticationFailed db x s cseq)
          | some realm =>
            match s.fCurrentAuthenticator.realm with
            | none => none
            | some ourRealm =>
              if realm ≠ ourRealm then some (false, authenticationFailed db x s cseq)
              else
                match f.nonce with
                | none => some (false, authenticationFailed db x s cseq)
                | some nonce =>
                  if nonce ≠ ourNonce then some (false, authenticationFailed db x s cseq)
                  else
                    match f.uri, f.response with
                    | some uri, some response =>
                      match db.lookupPassword username with
                      | none => some (false, authenticationFailed db x s cseq)
                      | some password =>
                        if env.computeDigestResponse ourRealm ourNonce username password
                            db.fPasswordsAreMD5 cmdName uri = response then
                          some (true, setUsernameAndPassword db s username password)
                        else
                          some (false, authenticationFailed db x
                            (setUsernameAndPassword db s username password) cseq)
                    | _, _ => some (false, authenticationFailed db x s cseq)

/-- The function `RTSPServer::addServerMediaSession` (lines 69-78): the
server afterwards, and the media session objects deleted.  `streamName` is
the pointer that `serverMediaSession->streamName()` returns (`none` is
`NULL`). -/
def addServerMediaSession (srv : Server) (serverMediaSession : ServerMediaSession)
    (streamName : Option (List Nat)) : Server × List ServerMediaSession :=
  let sessionName := match streamName with
    | none => []
    | some name => cstr name
  ({ srv with fServerMediaSessions := (Add srv.fServerMediaSessions sessionName
      serverMediaSession).1 },
    (Add srv.fServerMediaSessions sessionName serverMediaSession).2.toList)

/-- The function `RTSPServer::rtspURL` (lines 80-106). -/
def rtspURL (env : Env) (srv : Server) (session : ServerMediaSession) : List Nat :=
  if srv.fServerPort = 554 then
    bytes "rtsp://" ++ env.our_inet_ntoa srv.ourAddress ++ bytes "/" ++ cstr session.streamName
  else
    bytes "rtsp://" ++ env.our_inet_ntoa srv.ourAddress ++ bytes ":"
      ++ decimal (srv.fServerPort % 65536) ++ bytes "/" ++ cstr session.streamName

/-- The function `handleCmd_DESCRIBE` (lines 373-429). -/
def handleCmd_DESCRIBE (env : Env) (srv : Server) (x : External) (s : RTSPClientSession)
    (cseq urlSuffix mem : List Nat) : Option RTSPClientSession :=
  match authenticationOK env srv x s (bytes "DESCRIBE") cseq mem with
  | none => none
  | some (false, s1) => some s1
  | some (true, s1) =>
    let s2 := { s1 with log := s1.log ++ [Event.lookup urlSuffix] }
    match Lookup srv.fServerMediaSessions urlSuffix with
    | none => some (handleCmd_notFound s2 cseq)
    | some session =>
      let s3 := { s2 with log := s2.log ++ [Event.generateSDPDescription session.ident] }
      match session.sdpDescription with
      | none =>
        some { s3 with
          fBuffer := bytes "RTSP/1.0 404 File Not Found, Or In Incorrect Format\r\nCSeq: "
            ++ cseq ++ bytes "\r\n\r\n" }
      | some sdp =>
        let sdpDescription := cstr sdp
        if (env.bufferSize + 2 ^ 64 - 200) % 2 ^ 64
            < add32 (sdpDescription.length % U32) ((rtspURL env srv session).length % U32) then
          some { s3 with
            fBuffer := bytes "RTSP/1.0 500 Internal Server Error\r\nCSeq: " ++ cseq
              ++ bytes "\r\n\r\n" }
        else
          some { s3 with
            fBuffer := bytes "RTSP/1.0 200 OK\r\nCSeq: " ++ cseq
              ++ bytes "\r\nContent-Base: " ++ rtspURL env srv session
              ++ bytes "/\r\nContent-Type: application/sdp\r\nContent-Length: "
              ++ fmtD (toInt32 sdpDescription.length) ++ bytes "\r\n\r\n" ++ sdpDescription }

/-- The loop of lines 526-529, counted from index `i`: the index
`streamNum` of the first stream state whose subsession is not `NULL` and
has the track id `urlSuffix`, with that subsession. -/
def findStreamNum (urlSuffix : List Nat) :
    List StreamState → Nat → Option (Nat × ServerMediaSubsession)
  | [], _ => none
  | st :: rest, i =>
    match st.subsession with
    | some sub => if urlSuffix = cstr sub.trackId then some (i, sub)
                  else findStreamNum urlSuffix rest (i + 1)
    | none => findStreamNum urlSuffix rest (i + 1)

/-- The assignment to `fStreamStates[streamNum].streamToken`. -/
def setToken : List StreamState → Nat → Option Nat → List StreamState
  | [], _, _ => []
  | st :: rest, 0, token => { st with streamToken := token } :: rest
  | st :: rest, n + 1, token => st :: setToken rest n token

/-- The session keeps its media session in lines 494-497: one is bound and
its stream name is `urlPreSuffix`. -/
def stillBound (s : RTSPClientSession) (urlPreSuffix : List Nat) : Bool :=
  match s.fOurServerMediaSession with
  | some ms => urlPreSuffix == cstr ms.streamName
  | none => false

/-- Lines 494-521 of `handleCmd_SETUP`: the session with a media session
bound and its stream states set up, and `true`; or, when the registry has
no session of that name, the session with no media session bound (its
stream states are kept), and `false`. -/
def bindSession (srv : Server) (s : RTSPClientSession) (urlPreSuffix : List Nat) :
    RTSPClientSession × Bool :=
  if stillBound s urlPreSuffix then (s, true)
  else
    match Lookup srv.fServerMediaSessions urlPreSuffix with
    | none =>
      ({ s with log := s.log ++ [Event.lookup urlPreSuffix], fOurServerMediaSession := none },
        false)
    | some ms =>
      ({ s with
          fOurServerMediaSession := some ms,
          fStreamStates := ms.subsessions.map (fun sub => ⟨some sub, none⟩),
          log := s.log ++ [Event.lookup urlPreSuffix]
            ++ reclaimEvents s.fOurSessionId s.fStreamStates
            ++ [Event.newStreamStates ms.subsessions.length] }, true)

/-- The response of lines 583-590 (multicast). -/
def setupResponseMulticast (env : Env) (s : RTSPClientSession) (x : External)
    (cseq : List Nat) : List Nat :=
  bytes "RTSP/1.0 200 OK\r\nCSeq: " ++ cseq
    ++ bytes "\r\nTransport: RTP/AVP;multicast;destination="
    ++ env.our_inet_ntoa x.destinationAddress ++ bytes ";port=" ++ decimal (x.serverRTPPort % 65536)
    ++ bytes ";ttl=" ++ decimal (x.destinationTTL % 256)
    ++ bytes "\r\nSession: " ++ fmtD (toInt32 s.fOurSessionId) ++ bytes "\r\n\r\n"

/-- The response of lines 593-600 (unicast, RTP over TCP). -/
def setupResponseTCP (env : Env) (s : RTSPClientSession) (x : External)
    (p : TransportParams) (cseq : List Nat) : List Nat :=
  bytes "RTSP/1.0 200 OK\r\nCSeq: " ++ cseq
    ++ bytes "\r\nTransport: RTP/AVP/TCP;unicast;destination="
    ++ env.our_inet_ntoa x.destinationAddress ++ bytes ";interleaved=" ++ decimal p.rtpChannelId
    ++ bytes "-" ++ decimal p.rtcpChannelId
    ++ bytes "\r\nSession: " ++ fmtD (toInt32 s.fOurSessionId) ++ bytes "\r\n\r\n"

/-- The response of lines 602-609 (unicast, RTP over UDP). -/
def setupResponseUDP (env : Env) (s : RTSPClientSession) (x : External)
    (p : TransportParams) (cseq : List Nat) : List Nat :=
  bytes "RTSP/1.0 200 OK\r\nCSeq: " ++ cseq
    ++ bytes "\r\nTransport: RTP/AVP;unicast;destination="
    ++ env.our_inet_ntoa x.destinationAddress ++ bytes ";client_port="
    ++ decimal p.clientRTPPortNum ++ bytes "-" ++ decimal p.clientRTCPPortNum
    ++ bytes ";server_port=" ++ decimal (x.serverRTPPort % 65536) ++ bytes "-"
    ++ decimal (x.serverRTCPPort % 65536)
    ++ bytes "\r\nSession: " ++ fmtD (toInt32 s.fOurSessionId) ++ bytes "\r\n\r\n"

/-- The arguments of the call of `getStreamParameters` in lines 552-575
for the subsession `sub`. -/
def streamParametersCall (env : Env) (s : RTSPClientSession) (x : External)
    (p : TransportParams) (sub : ServerMediaSubsession) : StreamParametersCall :=
  { subsession := sub.ident
    clientSessionId := s.fOurSessionId
    clientAddress := s.fClientAddr
    clientRTPPort := p.clientRTPPortNum
    clientRTCPPort := p.clientRTCPPortNum
    tcpSocketNum := if p.tcpStreamingRequested then s.fClientSocket else -1
    rtpChannelId := p.rtpChannelId
    rtcpChannelId := p.rtcpChannelId
    destinationAddress :=
      if env.allowClientDestinationSetting then
        match p.destinationAddressStr with
        | some str => env.our_inet_addr str
        | none => 0
      else 0
    destinationTTL := if env.allowClientDestinationSetting then p.destinationTTL else 255
    streamToken := x.streamToken }

/-- The function `handleCmd_SETUP` (lines 484-612); `mem` is the memory
`fullRequestStr` points to. -/
def handleCmd_SETUP (env : Env) (srv : Server) (x : External) (s : RTSPClientSession)
    (cseq urlPreSuffix urlSuffix mem : List Nat) : RTSPClientSession :=
  match bindSession srv s urlPreSuffix with
  | (s1, false) => handleCmd_notFound s1 cseq
  | (s1, true) =>
    match findStreamNum urlSuffix s1.fStreamStates 0 with
    | none => handleCmd_notFound s1 cseq
    | some (streamNum, sub) =>
      let p := parseTransportHeader mem
      let s2 := { s1 with
        log := s1.log ++ [Event.getStreamParameters (streamParametersCall env s1 x p sub)],
        fStreamStates := setToken s1.fStreamStates streamNum x.streamToken }
      if x.isMulticast then
        if p.tcpStreamingRequested then handleCmd_unsupportedTransport s2 cseq
        else { s2 with fBuffer := setupResponseMulticast env s2 x cseq }
      else if p.tcpStreamingRequested then
        { s2 with fBuffer := setupResponseTCP env s2 x p cseq }
      else { s2 with fBuffer := setupResponseUDP env s2 x p cseq }

/-- The function `handleCmd_TEARDOWN` (lines 660-664). -/
def handleCmd_TEARDOWN (s : RTSPClientSession) (cseq : List Nat) : RTSPClientSession :=
  { s with
    fBuffer := bytes "RTSP/1.0 200 OK\r\nCSeq: " ++ cseq ++ bytes "\r\n\r\n",
    fSessionIsActive := false }

/-- The calls made by the loops of lines 668-674 and 681-687: `mk` builds
the call for one stream state; `subsession = none` is the aggregated
operation.  `none` is a call through a `NULL` subsession pointer. -/
def streamCalls (mk : Nat → Nat → Option Nat → Event) (sessionId : Nat)
    (subsession : Option ServerMediaSubsession) : List StreamState → Option (List Event)
  | [] => some []
  | st :: rest =>
    if subsession = none ∨ subsession = st.subsession then
      match st.subsession with
      | some sub =>
        (streamCalls mk sessionId subsession rest).map
          (fun evs => mk sub.ident sessionId st.streamToken :: evs)
      | none => none
    else streamCalls mk sessionId subsession rest

/-- The response of lines 675-676 and 688-689. -/
def sessionResponse (s : RTSPClientSession) (cseq : List Nat) : List Nat :=
  bytes "RTSP/1.0 200 OK\r\nCSeq: " ++ cseq ++ bytes "\r\nSession: "
    ++ fmtD (toInt32 s.fOurSessionId) ++ bytes "\r\n\r\n"

/-- The function `handleCmd_PLAY` (lines 666-677). -/
def handleCmd_PLAY (s : RTSPClientSession) (subsession : Option ServerMediaSubsession)
    (cseq : List Nat) : Option RTSPClientSession :=
  (streamCalls Event.startStream s.fOurSessionId subsession s.fStreamStates).map
    (fun evs => { s with log := s.log ++ evs, fBuffer := sessionResponse s cseq })

/-- The function `handleCmd_PAUSE` (lines 679-690). -/
def handleCmd_PAUSE (s : RTSPClientSession) (subsession : Option ServerMediaSubsession)
    (cseq : List Nat) : Option RTSPClientSession :=
  (streamCalls Event.pauseStream s.fOurSessionId subsession s.fStreamStates).map
    (fun evs => { s with log := s.log ++ evs, fBuffer := sessionResponse s cseq })

/-- Lines 651-657: the dispatch on the command name. -/
def withinSessionCmd (s : RTSPClientSession) (cmdName : List Nat)
    (subsession : Option ServerMediaSubsession) (cseq : List Nat) : Option RTSPClientSession :=
  if cmdName = bytes "TEARDOWN" then some (handleCmd_TEARDOWN s cseq)
  else if cmdName = bytes "PLAY" then handleCmd_PLAY s subsession cseq
  else if cmdName = bytes "PAUSE" then handleCmd_PAUSE s subsession cseq
  else some s

/-- The function `handleCmd_withinSession` (lines 614-658). -/
def handleCmd_withinSession (s : RTSPClientSession)
    (cmdName urlPreSuffix urlSuffix cseq : List Nat) : Option RTSPClientSession :=
  match s.fOurServerMediaSession with
  | none => some (handleCmd_notSupported s cseq)
  | some ms =>
    if urlSuffix ≠ [] ∧ cstr ms.streamName = urlPreSuffix then
      match ms.subsessions.find? (fun sub => cstr sub.trackId == urlSuffix) with
      | none => some (handleCmd_notFound s cseq)
      | some sub => withinSessionCmd s cmdName (some sub) cseq
    else if cstr ms.streamName = urlSuffix ∨ cstr ms.streamName = urlPreSuffix then
      withinSessionCmd s cmdName none cseq
    else some (handleCmd_notFound s cseq)

/-- Lines 296-330 of `incomingRequestHandler1`: the request in `mem`, of
`totalBytes` bytes and followed by a NUL, is parsed and handled. -/
def handleRequest (env : Env) (srv : Server) (x : External) (s : RTSPClientSession)
    (mem : List Nat) (totalBytes : Nat) : Option RTSPClientSession :=
  match parseRequestString mem totalBytes PARAM_STRING_MAX PARAM_STRING_MAX PARAM_STRING_MAX
      PARAM_STRING_MAX with
  | none => none
  | some r =>
    if r.success = false then some (handleCmd_bad s)
    else
      let cmdName := cstr r.resultCmdName
      let urlPreSuffix := cstr r.resultURLPreSuffix
      let urlSuffix := cstr r.resultURLSuffix
      let cseq := cstr r.resultCSeq
      if cmdName = bytes "OPTIONS" then some (handleCmd_OPTIONS s cseq)
      else if cmdName = bytes "DESCRIBE" then handleCmd_DESCRIBE env srv x s cseq urlSuffix mem
      else if cmdName = bytes "SETUP" then
        some (handleCmd_SETUP env srv x s cseq urlPreSuffix urlSuffix mem)
      else if cmdName = bytes "TEARDOWN" ∨ cmdName = bytes "PLAY" ∨ cmdName = bytes "PAUSE" then
        handleCmd_withinSession s cmdName urlPreSuffix urlSuffix cseq
      else some (handleCmd_notSupported s cseq)

/-- One request as the session receives it: the contents of `fBuffer`
after the reader has stored the terminating NUL, the number of bytes read,
and what the collaborators give back while it is handled. -/
structure Request where
  mem : List Nat
  totalBytes : Nat
  x : External
deriving DecidableEq, Repr

/-- The life of a client session from the state `s` on: the requests are
handled in order (lines 296-337); the session is destroyed after the first
response that leaves it inactive, and when the socket has nothing more to
deliver (lines 269-273).  The result is the destroyed session, whose log
holds every call made; `none` is a run without a defined result. -/
def runSession (env : Env) (srv : Server) : List Request → RTSPClientSession →
    Option RTSPClientSession
  | [], s => some (destroy s)
  | r :: rest, s =>
    match handleRequest env srv r.x s r.mem r.totalBytes with
    | none => none
    | some s1 => if s1.fSessionIsActive then runSession env srv rest s1 else some (destroy s1)

/-! ## The classification of the specification -/

/-- The four outcomes of the classification of a TEARDOWN, PLAY or PAUSE
request. -/
inductive Classification
  | methodNotAllowed
  | notFound
  | nonAggregated (subsession : ServerMediaSubsession)
  | aggregated
deriving DecidableEq, Repr

/-- The classification in the words of the specification, for the bound
media session `bound` (`none` when no media session is bound): no media
session bound gives `405`; a non-empty `url-suffix` with `url-pre-suffix`
equal to the bound stream name gives a non-aggregated operation on the
subsession whose track id is `url-suffix`, or `404` when there is none;
otherwise `url-suffix` equal to the stream name, or `url-pre-suffix` equal
to it with an empty `url-suffix`, gives an aggregated operation; everything
else gives `404`. -/
def classifySpec (bound : Option ServerMediaSession) (urlPreSuffix urlSuffix : List Nat) :
    Classification :=
  match bound with
  | none => Classification.methodNotAllowed
  | some ms =>
    if urlSuffix ≠ [] ∧ urlPreSuffix = cstr ms.streamName then
      match ms.subsessions.find? (fun sub => decide (cstr sub.trackId = urlSuffix)) with
      | some sub => Classification.nonAggregated sub
      | none => Classification.notFound
    else if urlSuffix = cstr ms.streamName
        ∨ (urlPreSuffix = cstr ms.streamName ∧ urlSuffix = []) then
      Classification.aggregated
    else Classification.notFound


/-! ## Predicates used in the proofs -/

/-- The bytes `S` stand in `reqStr` from index `off` on. -/
def At (reqStr : List Nat) (off : Nat) (S : List Nat) : Prop :=
  ∀ t, t < S.length → rd reqStr (off + t) = S[t]?

/-- What the inner loop has established when it stands at offset `tmp`:
no `\r\n\r\n` ends before `tmp + 2`, and `last` is the offset of the last
`\r\n` that starts before `tmp` (the initial `-3` when there is none). -/
def ScanInv (l : List Nat) (tmp : Nat) (last : Int) : Prop :=
  (∀ u, u + 2 < tmp → ¬ (crlfAt l u ∧ crlfAt l (u + 2))) ∧
  ((last = -3 ∧ ∀ p, p < tmp → ¬ crlfAt l p) ∨
   (∃ p : Nat, last = p ∧ p < tmp ∧ crlfAt l p ∧ ∀ q, p < q → q < tmp → ¬ crlfAt l q))

/-- The first two lines of the response with the status line
`RTSP/1.0 <status>` to a request with the sequence number `cseq`. -/
def responseHead (status cseq : List Nat) : List Nat :=
  bytes "RTSP/1.0 " ++ status ++ bytes "\r\nCSeq: " ++ cseq ++ bytes "\r\n"

/-- The status code and reason phrase of the responses the handlers write
for a parsed request. -/
def statusLines : List (List Nat) :=
  [bytes "200 OK", bytes "401 Unauthorized", bytes "404 Stream Not Found",
   bytes "404 File Not Found, Or In Incorrect Format", bytes "405 Method Not Allowed",
   bytes "461 Unsupported Transport", bytes "500 Internal Server Error"]

/-- The response in `fBuffer` of `s1` answers a request with the sequence
number `cseq` that the session received in the state `s`: it starts with a
status line of `statusLines` and the `CSeq` header; after
`404 Stream Not Found`, `405` and `461` the session is inactive, after
`401`, `404 File Not Found` and `500` its active flag is as before. -/
def Answers (cseq : List Nat) (s s1 : RTSPClientSession) : Prop :=
  ∃ status rest, s1.fBuffer = responseHead status cseq ++ rest
    ∧ status ∈ statusLines
    ∧ (status ∈ [bytes "404 Stream Not Found", bytes "405 Method Not Allowed",
          bytes "461 Unsupported Transport"] → s1.fSessionIsActive = false)
    ∧ (status ∈ [bytes "401 Unauthorized", bytes "404 File Not Found, Or In Incorrect Format",
          bytes "500 Internal Server Error"] → s1.fSessionIsActive = s.fSessionIsActive)

/-! ## Counting the calls of a session -/

/-- The number of calls of `deleteStream` in a log. -/
def deleteStreamCalls (log : List Event) : Nat :=
  log.countP (fun e => match e with
    | Event.deleteStream _ _ _ => true
    | _ => false)

/-- The number of stream states allocated in a log. -/
def statesAllocated : List Event → Nat
  | [] => 0
  | Event.newStreamStates n :: l => n + statesAllocated l
  | _ :: l => statesAllocated l

/-- The number of stream states whose subsession is not `NULL`. -/
def liveStates (l : List StreamState) : Nat := l.countP (fun st => st.subsession.isSome)

/-- The states a client session of the server goes through: the state
its constructor leaves, and the state after each request it handles while
it is active. -/
inductive Reachable (env : Env) (srv : Server) : RTSPClientSession → Prop
  | new (sessionId : Nat) (clientSocket : Int) (clientAddr : Nat) :
      Reachable env srv (RTSPClientSession.new sessionId clientSocket clientAddr)
  | step (s s1 : RTSPClientSession) (r : Request) :
      Reachable env srv s → s.fSessionIsActive = true →
      handleRequest env srv r.x s r.mem r.totalBytes = some s1 → Reachable env srv s1

/-- What every state of a client session satisfies: each stream state
allocated so far is either still held or was passed to `deleteStream`, and
the stream states held are those of the subsessions of the bound media
session, in order. -/
def SessionInv (s : RTSPClientSession) : Prop :=
  deleteStreamCalls s.log + liveStates s.fStreamStates = statesAllocated s.log
  ∧ ∀ ms, s.fOurServerMediaSession = some ms →
      s.fStreamStates.map (fun st => st.subsession) = ms.subsessions.map some

/-- A step that keeps the binding and the stream states and makes no call
of `deleteStream` and no allocation. -/
def Quiet (s s1 : RTSPClientSession) : Prop :=
  s1.fStreamStates = s.fStreamStates
  ∧ s1.fOurServerMediaSession = s.fOurServerMediaSession
  ∧ s1.fOurSessionId = s.fOurSessionId
  ∧ ∃ evs, s1.log = s.log ++ evs ∧ deleteStreamCalls evs = 0 ∧ statesAllocated evs = 0

/-! ## Examples of servers and requests -/

/-- An environment with a stand-in for the digest function. -/
def demoEnv : Env :=
  ⟨fun realm nonce username password _ cmd uri =>
      username ++ realm ++ password ++ nonce ++ cmd ++ uri,
    fun _ => bytes "10.0.0.1", fun _ => 0, 10000, false⟩

/-- A user database with the user `alice`. -/
def demoDB : UserAuthenticationDatabase := ⟨bytes "R", false, [(bytes "alice", bytes "pw")]⟩

/-- A media session `s` with the two tracks `t0` and `t1`. -/
def demoSession : ServerMediaSession :=
  ⟨1, bytes "s", [⟨10, bytes "t0"⟩, ⟨11, bytes "t1"⟩], some (bytes "v=0\r\n")⟩

/-- A server without user database that serves `demoSession`. -/
def demoServer : Server := ⟨none, [(bytes "s", demoSession)], 0, 554⟩

/-- A server with user database that serves `demoSession`. -/
def demoAuthServer : Server := ⟨some demoDB, [(bytes "s", demoSession)], 0, 554⟩

/-- Collaborators that generate the nonce `N2` and set up a unicast stream
with the token 77. -/
def demoExternal : External := ⟨bytes "N2", false, 6970, 6971, some 77, 0, 255⟩

/-- The request whose text is `text`, in a buffer that holds nothing
else. -/
def demoRequest (text : String) (x : External) : Request :=
  ⟨bytes text ++ [0], (bytes text).length, x⟩

/-- A DESCRIBE request without credentials. -/
def demoDescribe : List Nat := bytes "DESCRIBE rtsp://host/s RTSP/1.0\r\nCSeq: 2\r\n\r\n" ++ [0]

/-- A DESCRIBE request with the credentials of `alice` for the nonce `N`. -/
def demoDescribeAuth (response : String) : List Nat :=
  bytes "DESCRIBE rtsp://host/s RTSP/1.0\r\nCSeq: 2\r\nauthorization: digest username=\"alice\", realm=\"R\", nonce=\"N\", uri=\"rtsp://host/s\", response=\""
    ++ bytes response ++ bytes "\"\r\n\r\n" ++ [0]

/-- A session of `demoAuthServer` that has been sent the nonce `N`. -/
def demoChallenged : RTSPClientSession :=
  { RTSPClientSession.new 1 5 99 with
    fCurrentAuthenticator := ⟨some (bytes "R"), some (bytes "N"), none, none, false⟩ }

/-- A SETUP request for RTP over UDP that also names a destination and a
TTL. -/
def demoSetupUDP : List Nat :=
  bytes "SETUP rtsp://host/s/t0 RTSP/1.0\r\nCSeq: 3\r\nTransport: RTP/AVP;unicast;destination=1.2.3.4;ttl5;client_port=6000-6001\r\n\r\n"
    ++ [0]

/-- A SETUP request for RTP over TCP. -/
def demoSetupTCP : List Nat :=
  bytes "SETUP rtsp://host/s/t0 RTSP/1.0\r\nCSeq: 3\r\nTransport: RTP/AVP/TCP;unicast;interleaved=0-1\r\n\r\n"
    ++ [0]

/-- The request line and the `CSeq` line of a SETUP request. -/
def demoSetupHead : List Nat := bytes "SETUP rtsp://host/s/t0 RTSP/1.0\r\nCSeq: 3\r\n"

/-- A SETUP request up to the end of its `Transport` line. -/
def demoTransportLine : List Nat :=
  demoSetupHead ++ bytes "Transport: RTP/AVP;unicast;client_port=6000-6001\r\n"

/-- The request that ends after the `Transport` line. -/
def demoSetupPlain : List Nat := demoTransportLine ++ bytes "\r\n" ++ [0]

/-- The request with another header line after the `Transport` line. -/
def demoSetupLater : List Nat :=
  demoTransportLine ++ bytes "X: a;RTP/AVP/TCP;client_port=1-2\r\n\r\n" ++ [0]

/-- The SETUP request of `demoRun`. -/
def demoSetupRequest : Request :=
  demoRequest "SETUP rtsp://host/s/t0 RTSP/1.0\r\nCSeq: 3\r\nTransport: RTP/AVP;unicast;client_port=6000-6001\r\n\r\n" demoExternal

/-- A session of `demoServer` after the SETUP of `demoRun`. -/
def demoBound : RTSPClientSession :=
  (handleRequest demoEnv demoServer demoSetupRequest.x (RTSPClientSession.new 1 5 99)
    demoSetupRequest.mem demoSetupRequest.totalBytes).getD (RTSPClientSession.new 1 5 99)

/-- The TEARDOWN request of `demoRun`. -/
def demoTeardownRequest : Request :=
  demoRequest "TEARDOWN rtsp://host/s RTSP/1.0\r\nCSeq: 4\r\n\r\n" demoExternal

/-- A multicast stream: what `getStreamParameters` gives back for it. -/
def demoMulticast : External := { demoExternal with isMulticast := true }

/-- A request that is not an RTSP request. -/
def demoBadRequest : Request := demoRequest "GET / HTTP/1.0\r\n\r\n" demoExternal

/-- A DESCRIBE request for a stream that `demoServer` does not have. -/
def demoDescribeNone : Request :=
  demoRequest "DESCRIBE rtsp://host/none RTSP/1.0\r\nCSeq: 2\r\n\r\n" demoExternal

/-- The session after the request `demoDescribeNone`. -/
def demoNotFound : RTSPClientSession :=
  (handleRequest demoEnv demoServer demoDescribeNone.x (RTSPClientSession.new 1 5 99)
    demoDescribeNone.mem demoDescribeNone.totalBytes).getD (RTSPClientSession.new 1 5 99)

/-- An environment in which `fBuffer` has `10^9` bytes. -/
def bigEnv : Env := { demoEnv with bufferSize := 1000000000 }

/-- A media session `s` whose SDP description has 999999783 bytes. -/
def bigSession : ServerMediaSession :=
  ⟨1, bytes "s", [⟨10, bytes "t0"⟩], some (List.replicate 999999783 97)⟩

/-- A server without user database that serves `bigSession`. -/
def bigServer : Server := ⟨none, [(bytes "s", bigSession)], 0, 554⟩

/-- A media session `s` whose SDP description has `2^32` bytes. -/
def hugeSession : ServerMediaSession :=
  ⟨1, bytes "s", [⟨10, bytes "t0"⟩], some (List.replicate 4294967296 97)⟩

/-- A server without user database that serves `hugeSession`. -/
def hugeServer : Server := ⟨none, [(bytes "s", hugeSession)], 0, 554⟩

/-- A second media session with the stream name `s`. -/
def demoSessionB : ServerMediaSession :=
  ⟨2, bytes "s", [⟨20, bytes "t0"⟩], some (bytes "v=0\r\n")⟩

/-- A media session with the stream name `o`. -/
def demoOther : ServerMediaSession := ⟨3, bytes "o", [], none⟩

/-- A server whose registry holds `demoOther`. -/
def demoRegistry : Server := ⟨none, [(bytes "o", demoOther)], 0, 554⟩

/-- A request with the method `RECORD`. -/
def demoRecord : Request := demoRequest "RECORD rtsp://host/s RTSP/1.0\r\nCSeq: 7\r\n\r\n" demoExternal

/-- A request with the method `options` in lower case. -/
def demoLowerOptions : Request := demoRequest "options * RTSP/1.0\r\nCSeq: 7\r\n\r\n" demoExternal

/-- A request with the empty method. -/
def demoNoMethod : Request := demoRequest " rtsp://host/s RTSP/1.0\r\nCSeq: 7\r\n\r\n" demoExternal

/-! ## Incoming connections -/

/-- The function `incomingConnectionHandler1` (lines 187-208) on the member
`fSessionIdCounter`, for the socket and the address `accept` gave: the new
value of the counter, and the session that is created, if one is.  The
counter is an `unsigned` (its declaration is in the header, which is not
part of the sources; the constructor of `RTSPClientSession` takes the
value as `unsigned sessionId`), so `++fSessionIdCounter` is taken modulo
`2^32`. -/
def incomingConnectionHandler1 (fSessionIdCounter : Nat) (clientSocket : Int) (clientAddr : Nat) :
    Nat × Option RTSPClientSession :=
  if clientSocket < 0 then (fSessionIdCounter, none)
  else
    let counter := add32 fSessionIdCounter 1
    (counter, some (RTSPClientSession.new counter clientSocket clientAddr))

/-- The calls of `incomingConnectionHandler1` for the results of `accept`
in `conns`, in this order: the last value of the counter and the sessions
created, in the order of their creation. -/
def incomingConnections (fSessionIdCounter : Nat) :
    List (Int × Nat) → Nat × List RTSPClientSession
  | [] => (fSessionIdCounter, [])
  | conn :: rest =>
    let r := incomingConnectionHandler1 fSessionIdCounter conn.1 conn.2
    let rs := incomingConnections r.1 rest
    (rs.1, r.2.toList ++ rs.2)

/-- The results of `accept` that are a connection. -/
def accepted (conns : List (Int × Nat)) : List (Int × Nat) :=
  conns.filter (fun conn => decide (0 ≤ conn.1))

/-- A SETUP request for the track `t1`, answered with the token 78. -/
def demoSetupT1 : Request :=
  demoRequest "SETUP rtsp://host/s/t1 RTSP/1.0\r\nCSeq: 4\r\nTransport: RTP/AVP;unicast;client_port=6002-6003\r\n\r\n"
    { demoExternal with streamToken := some 78 }

/-- A session of `demoServer` after the SETUP of both tracks. -/
def demoBoth : RTSPClientSession :=
  (handleRequest demoEnv demoServer demoSetupT1.x demoBound demoSetupT1.mem
    demoSetupT1.totalBytes).getD demoBound

/-- A TEARDOWN request for the track `t0`. -/
def demoTeardownT0 : Request :=
  demoRequest "TEARDOWN rtsp://host/s/t0 RTSP/1.0\r\nCSeq: 5\r\n\r\n" demoExternal

/-- A request for the track `t0` of the stream `RTSP`. -/
def demoStreamRTSP : List Nat := bytes "DESCRIBE rtsp://host/RTSP/t0 RTSP/1.0\r\nCSeq: 1\r\n\r\n"

/-- A request for the track `t0` of the stream `myRTSP`. -/
def demoStreamMyRTSP : List Nat :=
  bytes "DESCRIBE rtsp://host/myRTSP/t0 RTSP/1.0\r\nCSeq: 1\r\n\r\n"

/-- A request for the track `RTSP` of the stream `s`. -/
def demoTrackRTSP : List Nat := bytes "DESCRIBE rtsp://host/s/RTSP RTSP/1.0\r\nCSeq: 1\r\n\r\n"

/-- A request whose path segments have letters of both cases. -/
def demoMixedCase : List Nat := bytes "SETUP rtsp://host/Movie/Track1 RTSP/1.0\r\nCSeq: 1\r\n\r\n"

/-- Line 296, `fBuffer[totalBytes] = '\0'`, for a buffer of `B` bytes: the
request with its NUL; `none` is a store outside the buffer. -/
def terminateRequest (B : Nat) (st : ReadState) : Option (List Nat) :=
  if st.totalBytes < B then some (st.buf ++ [0]) else none

/-- A read of 10000 bytes that ends with `\r\n\r\n`. -/
def demoFullRead : List Nat := List.replicate 9996 97 ++ bytes "\r\n\r\n"

/-- The request line and the `CSeq` line of a DESCRIBE request. -/
def demoDescribeHead : List Nat := bytes "DESCRIBE rtsp://host/s RTSP/1.0\r\nCSeq: 2\r\n"

/-- A DESCRIBE request whose `Authorization` header supplies a username
and a parameter without value, and nothing else. -/
def demoUsernameOnly : List Nat :=
  bytes "DESCRIBE rtsp://host/s RTSP/1.0\r\nCSeq: 2\r\nAuthorization: Digest username=\"alice\", algorithm-MD5\r\n\r\n"

/-- The buffer that holds `demoUsernameOnly` and its NUL, followed by bytes
an earlier, longer request has left there. -/
def demoStaleMemory : List Nat :=
  demoUsernameOnly ++ [0] ++ bytes "xx"
    ++ bytes "realm=\"R\", nonce=\"N\", uri=\"rtsp://host/s\", response=\"aliceRpwNDESCRIBErtsp://host/s\""
    ++ [0]

/-- The buffer that holds `demoUsernameOnly` and its NUL, followed by zero
bytes. -/
def demoZeroMemory : List Nat := demoUsernameOnly ++ [0] ++ List.replicate 90 0

/-- Modelled from the spec: what `Authenticator::setRealmAndRandomNonce`
(the class `Authenticator` is not part of the sources) promises of the
nonce it generates, "a fresh random nonce" that is "never reused after a
failed verification": it is not the nonce `outstanding` that the
authenticator holds when it is called. -/
def FreshNonce (outstanding : Option (List Nat)) (nonce : List Nat) : Prop :=
  outstanding ≠ some nonce

instance (outstanding : Option (List Nat)) (nonce : List Nat) :
    Decidable (FreshNonce outstanding nonce) := by
  unfold FreshNonce; infer_instance

theorem At_nil (r : List Nat) (off : Nat) : At r off [] := by
  intro t h; simp at h

theorem At_cons (r : List Nat) (off c : Nat) (S : List Nat) :
    At r off (c :: S) ↔ rd r off = some c ∧ At r (off + 1) S := by
  constructor
  · intro h
    refine ⟨by simpa using h 0 (by simp), ?_⟩
    intro t ht
    have := h (t + 1) (by simpa using ht)
    simpa [Nat.add_assoc, Nat.add_comm 1 t] using this
  · rintro ⟨h0, h1⟩ t ht
    cases t with
    | zero => simpa using h0
    | succ t =>
      have := h1 t (by simpa using ht)
      simpa [Nat.add_assoc, Nat.add_comm 1 t] using this

theorem At_append (r : List Nat) (off : Nat) (S T : List Nat) :
    At r off (S ++ T) ↔ At r off S ∧ At r (off + S.length) T := by
  induction S generalizing off with
  | nil => simp [At_nil]
  | cons c S ih =>
    simp only [List.cons_append, At_cons, ih, List.length_cons]
    have : off + 1 + S.length = off + (S.length + 1) := by omega
    rw [this]; tauto

theorem At_prefix (S rest : List Nat) : At (S ++ rest) 0 S := by
  intro t ht
  simp [rd, List.getElem?_append_left ht]

/-! ## The loops of `parseRequestString` on a known layout -/

theorem add32_of_lt {a b : Nat} (h : a + b < U32) : add32 a b = a + b := by
  unfold add32; exact Nat.mod_eq_of_lt h

theorem sub32_of_le {a b : Nat} (h : b ≤ a) (ha : a < U32) : sub32 a b = a - b := by
  unfold sub32
  have : a + U32 - b = (a - b) + U32 := by omega
  rw [this, Nat.add_mod_right]
  exact Nat.mod_eq_of_lt (by omega)

theorem scanCmdName_at (r M : List Nat) (hM : ∀ c ∈ M, c ≠ 32) :
    ∀ (n i : Nat) (acc : List Nat), At r i M → rd r (i + M.length) = some 32 →
      M.length < n → scanCmdName r n i acc = some (true, i + M.length, acc ++ M) := by
  induction M with
  | nil =>
    intro n i acc _ h32 hn
    obtain ⟨n, rfl⟩ : ∃ m, n = m + 1 := ⟨n - 1, by simp at hn; omega⟩
    simp at h32
    simp [scanCmdName, h32]
  | cons c M ih =>
    intro n i acc hat h32 hn
    obtain ⟨n, rfl⟩ : ∃ m, n = m + 1 := ⟨n - 1, by simp at hn; omega⟩
    rw [At_cons] at hat
    have hc : c ≠ 32 := hM c (by simp)
    have h32b : rd r (i + 1 + M.length) = some 32 := by
      rw [← h32]; congr 1; simp; omega
    have := ih (fun c hc => hM c (by simp [hc])) n (i + 1) (acc ++ [c]) hat.2 h32b
      (by simp at hn; omega)
    simp only [scanCmdName, hat.1, hc, if_false, this]
    simp; omega

theorem skipWhile_at (r S : List Nat) (p : Nat → Bool) (hS : ∀ c ∈ S, p c = true) :
    ∀ (n j : Nat) (x : Nat), At r j S → rd r (j + S.length) = some x → p x = false →
      S.length < n → skipWhile r p n j = some (j + S.length) := by
  induction S with
  | nil =>
    intro n j x _ hx hpx hn
    obtain ⟨n, rfl⟩ : ∃ m, n = m + 1 := ⟨n - 1, by simp at hn; omega⟩
    simp at hx
    simp [skipWhile, hx, hpx]
  | cons c S ih =>
    intro n j x hat hx hpx hn
    obtain ⟨n, rfl⟩ : ∃ m, n = m + 1 := ⟨n - 1, by simp at hn; omega⟩
    rw [At_cons] at hat
    have hc : p c = true := hS c (by simp)
    have hxb : rd r (j + 1 + S.length) = some x := by
      rw [← hx]; congr 1; simp; omega
    have := ih (fun c hc => hS c (by simp [hc])) n (j + 1) x hat.2 hxb hpx
      (by simp at hn; omega)
    simp only [skipWhile, hat.1, hc, if_true, this]
    simp; omega

theorem findFrom_at (r S : List Nat) (p : Nat → Bool) (ps : List (Nat → Bool))
    (hS : ∀ c ∈ S, p c = false) :
    ∀ (n j : Nat), At r j S → matchAt r (p :: ps) (j + S.length) = some true →
      S.length < n → j + S.length < U32 →
      findFrom r (p :: ps) n j = some (some (j + S.length)) := by
  induction S with
  | nil =>
    intro n j _ hm hn _
    obtain ⟨n, rfl⟩ : ∃ m, n = m + 1 := ⟨n - 1, by simp at hn; omega⟩
    simp at hm
    simp [findFrom, hm]
  | cons c S ih =>
    intro n j hat hm hn hlt
    obtain ⟨n, rfl⟩ : ∃ m, n = m + 1 := ⟨n - 1, by simp at hn; omega⟩
    rw [At_cons] at hat
    have hc : p c = false := hS c (by simp)
    have hj : j % U32 = j := Nat.mod_eq_of_lt (by simp at hlt; omega)
    have hmb : matchAt r (p :: ps) (j + 1 + S.length) = some true := by
      rw [← hm]; congr 1; simp; omega
    have := ih (fun c hc => hS c (by simp [hc])) n (j + 1) hat.2 hmb
      (by simp at hn; omega) (by simp at hlt; omega)
    have hno : matchAt r (p :: ps) j = some false := by
      simp [matchAt, hj, hat.1, hc]
    simp only [findFrom, hno, this]
    simp; omega

theorem backToSep_at (r S : List Nat) (hS : ∀ c ∈ S, c ≠ 47 ∧ c ≠ 32) :
    ∀ (n b : Nat), At r (b + 1) S →
      (n = S.length ∨ (S.length < n ∧ ∃ x, rd r b = some x ∧ (x = 47 ∨ x = 32))) →
      backToSep r n (b + S.length) = some b := by
  induction S using List.reverseRecOn with
  | nil =>
    intro n b _ h
    rcases h with h | ⟨hn, x, hx, hsep⟩
    · subst h; simp [backToSep]
    · obtain ⟨n, rfl⟩ : ∃ m, n = m + 1 := ⟨n - 1, by simp at hn; omega⟩
      have : ¬ (x ≠ 47 ∧ x ≠ 32) := by omega
      simp only [List.length_nil, Nat.add_zero, backToSep, hx, this, if_false]
  | append_singleton S c ih =>
    intro n b hat h
    rw [At_append, At_cons] at hat
    have hc : c ≠ 47 ∧ c ≠ 32 := hS c (by simp)
    have hn : ∃ m, n = m + 1 := by
      rcases h with h | ⟨hn, _⟩
      · exact ⟨S.length, by simp [h]⟩
      · exact ⟨n - 1, by simp at hn; omega⟩
    obtain ⟨n, rfl⟩ := hn
    have hrd : rd r (b + (S ++ [c]).length) = some c := by
      rw [← hat.2.1]; congr 1; simp; omega
    have ih2 := ih (fun c hc => hS c (by simp [hc])) n b hat.1
      (by
        rcases h with h | ⟨hn, hx⟩
        · left; simp at h; omega
        · right; exact ⟨by simp at hn; omega, hx⟩)
    have : b + (S ++ [c]).length - 1 = b + S.length := by simp
    simp only [backToSep, hrd]
    rw [if_pos hc, this, ih2]

theorem copyBytes_at (r S : List Nat) :
    ∀ (k2 : Nat), At r k2 S → copyBytes r S.length k2 = some S := by
  induction S with
  | nil => intro k2 _; simp [copyBytes]
  | cons c S ih =>
    intro k2 hat
    rw [At_cons] at hat
    simp [copyBytes, hat.1, ih (k2 + 1) hat.2]

theorem scanCSeq_at (r C : List Nat) (hC : ∀ c ∈ C, c ≠ 13 ∧ c ≠ 10) :
    ∀ (n j : Nat) (acc : List Nat) (x : Nat), At r j C → rd r (j + C.length) = some x →
      (x = 13 ∨ x = 10) → C.length < n → scanCSeq r n j acc = some (true, acc ++ C) := by
  induction C with
  | nil =>
    intro n j acc x _ hx hsep hn
    obtain ⟨n, rfl⟩ : ∃ m, n = m + 1 := ⟨n - 1, by simp at hn; omega⟩
    simp at hx
    simp [scanCSeq, hx, hsep]
  | cons c C ih =>
    intro n j acc x hat hx hsep hn
    obtain ⟨n, rfl⟩ : ∃ m, n = m + 1 := ⟨n - 1, by simp at hn; omega⟩
    rw [At_cons] at hat
    have hc : ¬ (c = 13 ∨ c = 10) := by have := hC c (by simp); omega
    have hxb : rd r (j + 1 + C.length) = some x := by
      rw [← hx]; congr 1; simp; omega
    have := ih (fun c hc => hC c (by simp [hc])) n (j + 1) (acc ++ [c]) x hat.2 hxb hsep
      (by simp at hn; omega)
    simp only [scanCSeq, hat.1, hc, if_false, this]
    simp

theorem matchAt_at (r : List Nat) (ps : List (Nat → Bool)) :
    ∀ (S : List Nat) (j : Nat), At r j S → List.Forall₂ (fun p c => p c = true) ps S →
      j + S.length ≤ U32 → matchAt r ps j = some true := by
  induction ps with
  | nil => intro S j _ _ _; simp [matchAt]
  | cons p ps ih =>
    intro S j hat hf hlt
    cases hf with
    | cons hpc hrest =>
      rename_i c S
      rw [At_cons] at hat
      have hj : j % U32 = j := Nat.mod_eq_of_lt (by simp at hlt; omega)
      simp only [matchAt, hj, hat.1, hpc, if_true]
      exact ih S (j + 1) hat.2 hrest (by simp at hlt; omega)

theorem backSpaces_two (r : List Nat) (i f k c : Nat) (hk : 2 ≤ k) (hk32 : k < U32)
    (h1 : rd r (k - 1) = some 32) (h2 : rd r (k - 2) = some c) (hc : c ≠ 32)
    (hi : i ≤ k - 2) : backSpaces r i (f + 2) k = some (k - 2) := by
  have e1 : sub32 k 1 = k - 1 := sub32_of_le (by omega) hk32
  have e2 : sub32 (k - 1) 1 = k - 2 := by
    rw [sub32_of_le (by omega) (by omega)]; omega
  have i1 : i ≤ k - 1 := by omega
  simp only [backSpaces, e1, e2, i1, hi, if_true, h1, h2, hc, if_false]

/-- The run of `parseRequestString` on a buffer whose layout is known:
method, `rtsp://`, host, a path whose last two segments are `Pp`
(possibly absent) and `Pn`, the protocol version and the `CSeq` header. -/
theorem parseRequestString_core (r M H T Pp Pn C : List Nat) (size s q : Nat)
    (hsize : size < U32)
    (hM1 : M.length ≤ 98) (hMc : ∀ c ∈ M, c ≠ 32)
    (aM : At r 0 M) (aSp : rd r M.length = some 32)
    (aScheme : At r (M.length + 1) [114, 116, 115, 112, 58, 47, 47])
    (hHc : ∀ c ∈ H, c ≠ 47 ∧ c ≠ 32) (aH : At r (M.length + 8) H)
    (hs : s = M.length + 8 + H.length) (aSlash : rd r s = some 47)
    (hTc : ∀ c ∈ T, c ≠ 82) (aT : At r (s + 1) T)
    (aSp2 : rd r (s + 1 + T.length) = some 32)
    (aVer : At r (s + 2 + T.length) [82, 84, 83, 80, 47])
    (aVer2 : At r (s + 7 + T.length) [49, 46, 48, 13, 10])
    (aHdr : At r (s + 12 + T.length) [67, 83, 101, 113, 58, 32])
    (hCc : ∀ c ∈ C, c ≠ 13 ∧ c ≠ 10) (hC1 : C.length ≤ 98)
    (aC : At r (s + 18 + T.length) C)
    (aEnd : rd r (s + 18 + T.length + C.length) = some 13)
    (hsz : size = s + 22 + T.length + C.length)
    (hPn : Pn ≠ []) (hPn1 : Pn.length ≤ 99) (hPnc : ∀ c ∈ Pn, c ≠ 47 ∧ c ≠ 32)
    (hq : s ≤ q) (hqT : q + Pn.length = s + T.length)
    (aq : rd r q = some 47) (aPn : At r (q + 1) Pn)
    (hPp1 : Pp.length ≤ 99) (hPpc : ∀ c ∈ Pp, c ≠ 47 ∧ c ≠ 32)
    (hpre : (q = s ∧ Pp = []) ∨
      (s + 1 + Pp.length ≤ q ∧ rd r (q - 1 - Pp.length) = some 47 ∧ At r (q - Pp.length) Pp)) :
    parseRequestString r size 100 100 100 100
      = some ⟨true, M ++ [0], Pp ++ [0], Pn ++ [0], C ++ [0]⟩ := by
  have hU : U32 = 4294967296 := rfl
  have e99 : sub32 100 1 = 99 := by decide
  -- the method
  have ph1 : scanCmdName r (min (sub32 100 1) size) 0 [] = some (true, M.length, M) := by
    have := scanCmdName_at r M hMc (min (sub32 100 1) size) 0 [] aM (by simpa using aSp)
      (by rw [e99]; omega)
    simpa using this
  -- the scheme and the host
  have ph2 : skipRtspPrefix r size M.length = some s := by
    have ea : add32 M.length 1 = M.length + 1 := add32_of_lt (by omega)
    have e8 : sub32 size 8 = size - 8 := sub32_of_le (by omega) hsize
    have ea7 : add32 (M.length + 1) 7 = M.length + 8 := by
      rw [add32_of_lt (by omega)]
    have hr : rd r (M.length + 1) = some 114 := ((At_cons _ _ _ _).1 aScheme).1
    have w1 : skipWhile r (fun c => c == 32) (size - (M.length + 1)) (M.length + 1)
        = some (M.length + 1) := by
      have := skipWhile_at r [] (fun c => c == 32) (by simp) (size - (M.length + 1))
        (M.length + 1) 114 (At_nil _ _) (by simpa using hr) (by decide) (by simp; omega)
      simpa using this
    have m1 : matchAt r rtspUrlPat (M.length + 1) = some true :=
      matchAt_at r rtspUrlPat _ _ aScheme (by simp [rtspUrlPat]) (by simp; omega)
    have f1 : findFrom r rtspUrlPat (size - 8 - (M.length + 1)) (M.length + 1)
        = some (some (M.length + 1)) := by
      have := findFrom_at r [] (fun c => c == 114 || c == 82) rtspUrlPat.tail (by simp)
        (size - 8 - (M.length + 1)) (M.length + 1) (At_nil _ _) (by simpa using m1)
        (by simp; omega) (by simp; omega)
      simpa using this
    have w2 : skipWhile r (fun c => c != 47 && c != 32) (size - (M.length + 8)) (M.length + 8)
        = some s := by
      have := skipWhile_at r H (fun c => c != 47 && c != 32)
        (fun c hc => by have := hHc c hc; simp [this.1, this.2])
        (size - (M.length + 8)) (M.length + 8) 47 aH (by rw [← hs]; exact aSlash) (by decide)
        (by omega)
      rw [this, hs]
    simp only [skipRtspPrefix, ea, e8, ea7, w1, f1, w2]
  -- the protocol version
  have ph3 : findFrom r rtspVerPat (sub32 size 5 - add32 s 1) (add32 s 1)
      = some (some (s + 2 + T.length)) := by
    have ea : add32 s 1 = s + 1 := add32_of_lt (by omega)
    have e5 : sub32 size 5 = size - 5 := sub32_of_le (by omega) hsize
    have aT2 : At r (s + 1) (T ++ [32]) := by
      rw [At_append, At_cons]; exact ⟨aT, aSp2, At_nil _ _⟩
    have m1 : matchAt r rtspVerPat (s + 2 + T.length) = some true :=
      matchAt_at r rtspVerPat _ _ aVer (by simp [rtspVerPat]) (by simp; omega)
    have := findFrom_at r (T ++ [32]) (fun c => c == 82) rtspVerPat.tail
      (by
        intro c hc
        rcases List.mem_append.1 hc with h | h
        · simpa using hTc c h
        · simp at h; subst h; decide)
      (size - 5 - (s + 1)) (s + 1) aT2
      (by
        have e : s + 1 + (T ++ [32]).length = s + 2 + T.length := by simp; omega
        rw [e]; exact m1)
      (by simp; omega) (by simp; omega)
    rw [ea, e5]
    have e : s + 1 + (T ++ [32]).length = s + 2 + T.length := by simp; omega
    rw [e] at this
    exact this
  -- back over the space before `RTSP/`
  have hk : s + T.length = q + Pn.length := hqT.symm
  have ph4 : backSpaces r s U32 (s + 2 + T.length) = some (s + T.length) := by
    rcases List.eq_nil_or_concat Pn with h | ⟨Pn', c, h⟩
    · exact absurd h hPn
    · rw [List.concat_eq_append] at h
      subst h
      have hc : c ≠ 32 := (hPnc c (by simp)).2
      have hrc : rd r (s + T.length) = some c := by
        have := ((At_cons _ _ _ _).1 ((At_append _ _ _ _).1 aPn).2).1
        rw [← this]; congr 1; simp at hk; omega
      have := backSpaces_two r s 4294967294 (s + 2 + T.length) c (by omega) (by omega)
        (by
          have e : s + 2 + T.length - 1 = s + 1 + T.length := by omega
          rw [e]; exact aSp2)
        (by
          have e : s + 2 + T.length - 2 = s + T.length := by omega
          rw [e]; exact hrc)
        hc (by omega)
      have e : s + 2 + T.length - 2 = s + T.length := by omega
      rw [e] at this
      have hU2 : U32 = 4294967294 + 2 := rfl
      rw [hU2]
      exact this
  -- the URL suffix
  have ph5 : backToSep r (s + T.length - s) (s + T.length) = some q := by
    have := backToSep_at r Pn hPnc (s + T.length - s) q aPn
      (by
        rcases Nat.eq_or_lt_of_le hq with h | h
        · left; omega
        · right; exact ⟨by omega, 47, aq, Or.inl rfl⟩)
    rw [hk]; rw [hk] at this; exact this
  have c5 : ¬ (100 < add32 (sub32 (s + T.length) q) 1) := by
    rw [sub32_of_le (by omega) (by omega), add32_of_lt (by omega)]; omega
  have cp5 : copyRange r (add32 q 1) (s + T.length) = some Pn := by
    have e1 : add32 q 1 = q + 1 := add32_of_lt (by omega)
    have e2 : s + T.length + 1 - (q + 1) = Pn.length := by omega
    have e3 : ¬ (s + T.length + 1 = U32) := by omega
    simp only [copyRange, e1, e2, e3, if_false]
    exact copyBytes_at r Pn (q + 1) aPn
  -- the URL pre-suffix
  have eq1 : sub32 q 1 = q - 1 := sub32_of_le (by omega) (by omega)
  have ph6 : backToSep r (q - 1 - s) (q - 1) = some (q - 1 - Pp.length) := by
    rcases hpre with ⟨h1, h2⟩ | ⟨h1, h2, h3⟩
    · subst h2
      have : q - 1 - s = 0 := by omega
      rw [this]; simp [backToSep]
    · have e : q - 1 - Pp.length + 1 = q - Pp.length := by omega
      have := backToSep_at r Pp hPpc (q - 1 - s) (q - 1 - Pp.length) (by rw [e]; exact h3)
        (by
          rcases Nat.eq_or_lt_of_le h1 with h | h
          · left; omega
          · right; exact ⟨by omega, 47, h2, Or.inl rfl⟩)
      have e2 : q - 1 - Pp.length + Pp.length = q - 1 := by omega
      rw [e2] at this; exact this
  have hPq : Pp.length + 1 ≤ q := by
    rcases hpre with ⟨h1, h2⟩ | ⟨h1, _, _⟩
    · subst h2; simp; omega
    · omega
  have c6 : ¬ (100 < add32 (sub32 (q - 1) (q - 1 - Pp.length)) 1) := by
    rw [sub32_of_le (by omega) (by omega), add32_of_lt (by omega)]; omega
  have cp6 : copyRange r (add32 (q - 1 - Pp.length) 1) (q - 1) = some Pp := by
    have e1 : add32 (q - 1 - Pp.length) 1 = q - Pp.length := by
      rw [add32_of_lt (by omega)]; omega
    have e2 : q - 1 + 1 - (q - Pp.length) = Pp.length := by omega
    have e3 : ¬ (q - 1 + 1 = U32) := by omega
    simp only [copyRange, e1, e2, e3, if_false]
    rcases hpre with ⟨_, h2⟩ | ⟨_, _, h3⟩
    · subst h2; simp [copyBytes]
    · exact copyBytes_at r Pp _ h3
  -- the CSeq header
  have ph7 : parseCSeq r size 100 (add32 (s + T.length) 7) = some (true, C ++ [0]) := by
    have e1 : add32 (s + T.length) 7 = s + 7 + T.length := by
      rw [add32_of_lt (by omega)]; omega
    have e6 : sub32 size 6 = size - 6 := sub32_of_le (by omega) hsize
    have m1 : matchAt r cseqPat (s + 12 + T.length) = some true :=
      matchAt_at r cseqPat _ _ aHdr (by simp [cseqPat]) (by simp; omega)
    have f1 : findFrom r cseqPat (size - 6 - (s + 7 + T.length)) (s + 7 + T.length)
        = some (some (s + 12 + T.length)) := by
      have := findFrom_at r [49, 46, 48, 13, 10] (fun c => c == 67) cseqPat.tail
        (by decide) (size - 6 - (s + 7 + T.length)) (s + 7 + T.length) aVer2
        (by
          have e : s + 7 + T.length + [49, 46, 48, 13, 10].length = s + 12 + T.length := by
            simp; omega
          rw [e]; exact m1)
        (by simp; omega) (by simp; omega)
      have e : s + 7 + T.length + [49, 46, 48, 13, 10].length = s + 12 + T.length := by
        simp; omega
      rw [e] at this; exact this
    have e2 : add32 (s + 12 + T.length) 6 = s + 18 + T.length := by
      rw [add32_of_lt (by omega)]; omega
    have sc : scanCSeq r (min (sub32 100 1) (size - (s + 18 + T.length))) (s + 18 + T.length) []
        = some (true, C) := by
      have := scanCSeq_at r C hCc (min (sub32 100 1) (size - (s + 18 + T.length)))
        (s + 18 + T.length) [] 13 aC aEnd (Or.inl rfl) (by rw [e99]; omega)
      simpa using this
    simp only [parseCSeq, e1, e6, f1, e2, sc]
  unfold parseRequestString
  rw [ph1]
  simp only []
  rw [ph2]
  simp only []
  rw [ph3]
  simp only []
  rw [ph4]
  simp only []
  rw [ph5]
  simp only []
  rw [if_neg c5, cp5]
  simp only []
  rw [eq1, ph6]
  simp only []
  rw [if_neg c6, cp6]
  simp only []
  rw [ph7]

theorem pathBytes_concat (Ps : List (List Nat)) (P : List Nat) :
    pathBytes (Ps ++ [P]) = pathBytes Ps ++ 47 :: P := by
  induction Ps with
  | nil => simp [pathBytes]
  | cons Q Ps ih => simp [pathBytes, ih]

theorem pathBytes_mem (Ps : List (List Nat)) (c : Nat) (h : c ∈ pathBytes Ps) :
    c = 47 ∨ ∃ P ∈ Ps, c ∈ P := by
  induction Ps with
  | nil => simp [pathBytes] at h
  | cons Q Ps ih =>
    simp only [pathBytes, List.mem_cons, List.mem_append] at h
    rcases h with h | h | h
    · exact Or.inl h
    · exact Or.inr ⟨Q, by simp, h⟩
    · rcases ih h with h | ⟨P, hP, hc⟩
      · exact Or.inl h
      · exact Or.inr ⟨P, by simp [hP], hc⟩

theorem pathBytes_head (Ps : List (List Nat)) (h : Ps ≠ []) :
    ∃ T, pathBytes Ps = 47 :: T := by
  cases Ps with
  | nil => exact absurd rfl h
  | cons Q Ps => exact ⟨Q ++ pathBytes Ps, rfl⟩

theorem bytes_scheme : bytes "rtsp://" = [114, 116, 115, 112, 58, 47, 47] := by decide

theorem bytes_version :
    bytes "RTSP/1.0\r\n" = [82, 84, 83, 80, 47] ++ [49, 46, 48, 13, 10] := by decide

theorem bytes_cseq : bytes "CSeq: " = [67, 83, 101, 113, 58, 32] := by decide

theorem bytes_end : bytes "\r\n\r\n" = [13, 10, 13, 10] := by decide

theorem rtspRequest_length (M H : List Nat) (Ps : List (List Nat)) (C : List Nat) :
    (rtspRequest M H Ps C).length
      = M.length + H.length + (pathBytes Ps).length + C.length + 29 := by
  simp only [rtspRequest, bytes_scheme, bytes_version, bytes_cseq, bytes_end,
    List.length_append, List.length_cons, List.length_nil]
  omega

theorem At_congr {r : List Nat} {a b : Nat} {S : List Nat} (h : At r a S) (e : a = b) :
    At r b S := e ▸ h

theorem rd_congr {r : List Nat} {a b x : Nat} (h : rd r a = some x) (e : a = b) :
    rd r b = some x := e ▸ h

theorem rtspRequest_layout (M H C rest : List Nat) (Ps : List (List Nat)) :
    At (rtspRequest M H Ps C ++ rest) 0 M
    ∧ rd (rtspRequest M H Ps C ++ rest) M.length = some 32
    ∧ At (rtspRequest M H Ps C ++ rest) (M.length + 1) [114, 116, 115, 112, 58, 47, 47]
    ∧ At (rtspRequest M H Ps C ++ rest) (M.length + 8) H
    ∧ At (rtspRequest M H Ps C ++ rest) (M.length + 8 + H.length) (pathBytes Ps)
    ∧ rd (rtspRequest M H Ps C ++ rest)
        (M.length + 8 + H.length + (pathBytes Ps).length) = some 32
    ∧ At (rtspRequest M H Ps C ++ rest)
        (M.length + 8 + H.length + (pathBytes Ps).length + 1) [82, 84, 83, 80, 47]
    ∧ At (rtspRequest M H Ps C ++ rest)
        (M.length + 8 + H.length + (pathBytes Ps).length + 6) [49, 46, 48, 13, 10]
    ∧ At (rtspRequest M H Ps C ++ rest)
        (M.length + 8 + H.length + (pathBytes Ps).length + 11) [67, 83, 101, 113, 58, 32]
    ∧ At (rtspRequest M H Ps C ++ rest)
        (M.length + 8 + H.length + (pathBytes Ps).length + 17) C
    ∧ rd (rtspRequest M H Ps C ++ rest)
        (M.length + 8 + H.length + (pathBytes Ps).length + 17 + C.length) = some 13 := by
  have h0 := At_prefix (rtspRequest M H Ps C) rest
  generalize rtspRequest M H Ps C ++ rest = r at h0 ⊢
  simp only [rtspRequest, bytes_scheme, bytes_version, bytes_cseq, bytes_end] at h0
  obtain ⟨aM, h0⟩ := (At_append _ _ _ _).1 h0
  obtain ⟨aSp, h0⟩ := (At_cons _ _ _ _).1 h0
  obtain ⟨aScheme, h0⟩ := (At_append _ _ _ _).1 h0
  obtain ⟨aH, h0⟩ := (At_append _ _ _ _).1 h0
  obtain ⟨aPath, h0⟩ := (At_append _ _ _ _).1 h0
  obtain ⟨aSp2, h0⟩ := (At_cons _ _ _ _).1 h0
  obtain ⟨aVer0, h0⟩ := (At_append _ _ _ _).1 h0
  obtain ⟨aVer, aVer2⟩ := (At_append _ _ _ _).1 aVer0
  obtain ⟨aHdr, h0⟩ := (At_append _ _ _ _).1 h0
  obtain ⟨aC, h0⟩ := (At_append _ _ _ _).1 h0
  obtain ⟨aEnd, _⟩ := (At_cons _ _ _ _).1 h0
  simp only [List.length_append, List.length_cons, List.length_nil]
    at aH aPath aSp2 aVer aVer2 aHdr aC aEnd
  refine ⟨aM, rd_congr aSp (by omega), At_congr aScheme (by omega), At_congr aH (by omega),
    At_congr aPath (by omega), rd_congr aSp2 (by omega), At_congr aVer (by omega),
    At_congr aVer2 (by omega), At_congr aHdr (by omega), At_congr aC (by omega),
    rd_congr aEnd (by omega)⟩

/-- C1. For every request `M rtsp://H/P1/.../Pn RTSP/1.0\r\nCSeq: C\r\n\r\n`
with at least one path segment, `M` of 1-98 upper-case letters, `H` a
non-empty string of lower-case letters, digits and dots, every `Pi` of 1-99
lower-case letters or digits and `C` of 1-98 decimal digits, whatever
follows the request in the buffer, `parseRequestString` succeeds and stores
`M` as the method, the last segment as the URL suffix, the segment before it
(the empty string when there is none) as the URL pre-suffix, and `C` as the
CSeq. -/
theorem parseRequestString_wellFormed (M H C Pn rest : List Nat) (Ps : List (List Nat))
    (hM : 1 ≤ M.length ∧ M.length ≤ 98) (hMc : ∀ c ∈ M, isUpper c)
    (hH : 1 ≤ H.length) (hHc : ∀ c ∈ H, isLower c ∨ isDigit c ∨ c = 46)
    (hP : ∀ P ∈ Ps ++ [Pn], 1 ≤ P.length ∧ P.length ≤ 99 ∧ ∀ c ∈ P, isLower c ∨ isDigit c)
    (hC : 1 ≤ C.length ∧ C.length ≤ 98) (hCc : ∀ c ∈ C, isDigit c)
    (hlen : (rtspRequest M H (Ps ++ [Pn]) C).length < U32) :
    parseRequestString (rtspRequest M H (Ps ++ [Pn]) C ++ rest)
        (rtspRequest M H (Ps ++ [Pn]) C).length
        PARAM_STRING_MAX PARAM_STRING_MAX PARAM_STRING_MAX PARAM_STRING_MAX
      = some ⟨true, M ++ [0], Ps.getLast?.getD [] ++ [0], Pn ++ [0], C ++ [0]⟩ := by
  obtain ⟨aM, aSp, aScheme, aH, aPath, aSp2, aVer, aVer2, aHdr, aC, aEnd⟩ :=
    rtspRequest_layout M H C rest (Ps ++ [Pn])
  rw [rtspRequest_length] at hlen ⊢
  generalize rtspRequest M H (Ps ++ [Pn]) C ++ rest = r at *
  obtain ⟨T, hT⟩ := pathBytes_head (Ps ++ [Pn]) (by simp)
  have hseg : ∀ c ∈ pathBytes (Ps ++ [Pn]), c = 47 ∨ isLower c ∨ isDigit c := by
    intro c hc
    rcases pathBytes_mem _ c hc with h | ⟨P, hP1, hP2⟩
    · exact Or.inl h
    · exact Or.inr ((hP P hP1).2.2 c hP2)
  have hTc : ∀ c ∈ T, c ≠ 82 := by
    intro c hc
    have := hseg c (by rw [hT]; simp [hc])
    unfold isLower isDigit at this
    omega
  have hPn := hP Pn (by simp)
  have hsegc : ∀ P ∈ Ps ++ [Pn], ∀ c ∈ P, c ≠ 47 ∧ c ≠ 32 := by
    intro P hPm c hc
    have := (hP P hPm).2.2 c hc
    unfold isLower isDigit at this
    omega
  have hlenT : (pathBytes (Ps ++ [Pn])).length = T.length + 1 := by rw [hT]; simp
  have hlenP : (pathBytes (Ps ++ [Pn])).length = (pathBytes Ps).length + 1 + Pn.length := by
    rw [pathBytes_concat]; simp; omega
  have aPath1 := aPath
  rw [hT, At_cons] at aPath1
  have aPath2 := aPath
  rw [pathBytes_concat, At_append, At_cons] at aPath2
  have key := parseRequestString_core r M H T (Ps.getLast?.getD []) Pn C
    (M.length + H.length + (pathBytes (Ps ++ [Pn])).length + C.length + 29)
    (M.length + 8 + H.length) (M.length + 8 + H.length + (pathBytes Ps).length)
    hlen hM.2
    (fun c hc => by have := hMc c hc; unfold isUpper at this; omega)
    aM aSp aScheme
    (fun c hc => by have := hHc c hc; unfold isLower isDigit at this; omega)
    aH rfl aPath1.1 hTc aPath1.2
    (rd_congr aSp2 (by omega)) (At_congr aVer (by omega)) (At_congr aVer2 (by omega))
    (At_congr aHdr (by omega))
    (fun c hc => by have := hCc c hc; unfold isDigit at this; omega)
    hC.2 (At_congr aC (by omega)) (rd_congr aEnd (by omega)) (by omega)
    (by intro h; rw [h] at hPn; simp at hPn) hPn.2.1 (hsegc Pn (by simp))
    (by omega) (by omega) aPath2.2.1 aPath2.2.2
  have hgoal : ∀ Pp, Ps.getLast?.getD [] = Pp → Pp.length ≤ 99 →
      (∀ c ∈ Pp, c ≠ 47 ∧ c ≠ 32) →
      ((M.length + 8 + H.length + (pathBytes Ps).length = M.length + 8 + H.length ∧ Pp = []) ∨
        (M.length + 8 + H.length + 1 + Pp.length
            ≤ M.length + 8 + H.length + (pathBytes Ps).length
          ∧ rd r (M.length + 8 + H.length + (pathBytes Ps).length - 1 - Pp.length) = some 47
          ∧ At r (M.length + 8 + H.length + (pathBytes Ps).length - Pp.length) Pp)) →
      parseRequestString r
        (M.length + H.length + (pathBytes (Ps ++ [Pn])).length + C.length + 29)
        PARAM_STRING_MAX PARAM_STRING_MAX PARAM_STRING_MAX PARAM_STRING_MAX
      = some ⟨true, M ++ [0], Ps.getLast?.getD [] ++ [0], Pn ++ [0], C ++ [0]⟩ := by
    intro Pp hPp h1 h2 h3
    rw [hPp] at key ⊢
    exact key h1 h2 h3
  rcases List.eq_nil_or_concat Ps with h | ⟨Qs, Pp, h⟩
  · subst h
    exact hgoal [] (by simp) (by simp) (by simp) (Or.inl ⟨by simp [pathBytes], rfl⟩)
  · rw [List.concat_eq_append] at h
    subst h
    have hPp := hP Pp (by simp)
    have aPath3 := aPath2.1
    rw [pathBytes_concat, At_append, At_cons] at aPath3
    have hl : (pathBytes (Qs ++ [Pp])).length = (pathBytes Qs).length + 1 + Pp.length := by
      rw [pathBytes_concat]; simp; omega
    exact hgoal Pp (by simp) hPp.2.1 (hsegc Pp (by simp))
      (Or.inr ⟨by omega, rd_congr aPath3.2.1 (by omega), At_congr aPath3.2.2 (by omega)⟩)

/-- The two requests of C1, parsed by `parseRequestString_wellFormed`. -/
theorem parseRequestString_wellFormed_witness :
    parseRequestString (bytes "SETUP rtsp://host/s/t0 RTSP/1.0\r\nCSeq: 3\r\n\r\n" ++ [0]) 44
        100 100 100 100
      = some ⟨true, bytes "SETUP" ++ [0], bytes "s" ++ [0], bytes "t0" ++ [0], bytes "3" ++ [0]⟩
    ∧ parseRequestString (bytes "DESCRIBE rtsp://host/none RTSP/1.0\r\nCSeq: 2\r\n\r\n" ++ [0]) 47
        100 100 100 100
      = some ⟨true, bytes "DESCRIBE" ++ [0], [0], bytes "none" ++ [0], bytes "2" ++ [0]⟩ :=
  ⟨parseRequestString_wellFormed (bytes "SETUP") (bytes "host") (bytes "3") (bytes "t0") [0]
      [bytes "s"] (by decide) (by decide) (by decide) (by decide) (by decide) (by decide)
      (by decide) (by decide),
   parseRequestString_wellFormed (bytes "DESCRIBE") (bytes "host") (bytes "2") (bytes "none") [0]
      [] (by decide) (by decide) (by decide) (by decide) (by decide) (by decide)
      (by decide) (by decide)⟩

theorem At_self (r : List Nat) : At r 0 r := by
  have := At_prefix r []
  simpa using this

theorem findFrom_runs_off (r S : List Nat) (p : Nat → Bool) (ps : List (Nat → Bool))
    (hS : ∀ c ∈ S, p c = false) :
    ∀ (n j : Nat), At r j S → r.length = j + S.length → S.length < n → j + S.length < U32 →
      findFrom r (p :: ps) n j = none := by
  induction S with
  | nil =>
    intro n j _ hlen hn hlt
    obtain ⟨n, rfl⟩ : ∃ m, n = m + 1 := ⟨n - 1, by simp at hn; omega⟩
    have hj : j % U32 = j := Nat.mod_eq_of_lt (by simpa using hlt)
    have hrd : rd r j = none := by
      unfold rd; simp at hlen; simp [hlen]
    simp [findFrom, matchAt, hj, hrd]
  | cons c S ih =>
    intro n j hat hlen hn hlt
    obtain ⟨n, rfl⟩ : ∃ m, n = m + 1 := ⟨n - 1, by simp at hn; omega⟩
    rw [At_cons] at hat
    have hc : p c = false := hS c (by simp)
    have hj : j % U32 = j := Nat.mod_eq_of_lt (by simp at hlt; omega)
    have := ih (fun c hc => hS c (by simp [hc])) n (j + 1) hat.2
      (by simp at hlen; omega) (by simp at hn; omega) (by simp at hlt; omega)
    have hno : matchAt r (p :: ps) j = some false := by
      simp [matchAt, hj, hat.1, hc]
    simp only [findFrom, hno, this]

theorem bytes_short : bytes "A \r\n\r\n" = [65, 32] ++ [13, 10, 13, 10] := by decide

/-- C2, the failing run.  The six-byte request `A \r\n\r\n` is shorter than
eight bytes, so the bound `reqStrSize-8` of the `rtsp://` search wraps to
`4294967294`: whatever buffer holds the request, if the bytes after it
contain no `r` and no `R`, the search leaves the buffer and the call has no
defined result. -/
theorem parseRequestString_short_request (tail : List Nat)
    (h1 : ∀ c ∈ tail, c ≠ 114 ∧ c ≠ 82) (h2 : 6 + tail.length < 4294967294) :
    parseRequestString (bytes "A \r\n\r\n" ++ tail) 6 PARAM_STRING_MAX PARAM_STRING_MAX
      PARAM_STRING_MAX PARAM_STRING_MAX = none := by
  have hb : bytes "A \r\n\r\n" ++ tail = [65, 32] ++ ([13, 10, 13, 10] ++ tail) := by
    rw [bytes_short]; simp
  rw [hb]
  obtain ⟨r, hrdef⟩ : ∃ r, r = [65, 32] ++ ([13, 10, 13, 10] ++ tail) := ⟨_, rfl⟩
  have hr : At r 0 ([65, 32] ++ ([13, 10, 13, 10] ++ tail)) := by rw [hrdef]; exact At_self _
  have hlen : r.length = 2 + ([13, 10, 13, 10] ++ tail).length := by
    rw [hrdef]; simp; omega
  rw [← hrdef]; clear hrdef hb
  obtain ⟨hA, hS⟩ := (At_append _ _ _ _).1 hr
  obtain ⟨r0, hA⟩ := (At_cons _ _ _ _).1 hA
  obtain ⟨r1, _⟩ := (At_cons _ _ _ _).1 hA
  have r2 : rd r 2 = some 13 := ((At_cons _ _ _ _).1 ((At_append _ _ _ _).1 hS).1).1
  have ph1 : scanCmdName r (min (sub32 100 1) 6) 0 [] = some (true, 1, [65]) := by
    have := scanCmdName_at r [65] (by decide) (min (sub32 100 1) 6) 0 []
      ((At_cons _ _ _ _).2 ⟨r0, At_nil _ _⟩) r1 (by decide)
    simpa using this
  have ph2 : skipRtspPrefix r 6 1 = none := by
    have w1 : skipWhile r (fun c => c == 32) (6 - add32 1 1) (add32 1 1) = some 2 := by
      have := skipWhile_at r [] (fun c => c == 32) (by simp) (6 - add32 1 1) 2 13
        (At_nil _ _) r2 (by decide) (by decide)
      simpa using this
    have f1 : findFrom r rtspUrlPat (sub32 6 8 - add32 1 1) (add32 1 1) = none := by
      have e : sub32 6 8 - add32 1 1 = 4294967292 := by decide
      have e2 : add32 1 1 = 2 := by decide
      have hp : rtspUrlPat = (fun c => c == 114 || c == 82) :: rtspUrlPat.tail := rfl
      rw [e, e2, hp]
      exact findFrom_runs_off r ([13, 10, 13, 10] ++ tail) (fun c => c == 114 || c == 82)
        rtspUrlPat.tail
        (by
          intro c hc
          rcases List.mem_append.1 hc with h | h
          · simp at h; rcases h with rfl | rfl | rfl | rfl <;> decide
          · have := h1 c h; simp [this.1, this.2])
        4294967292 2 hS hlen (by simp; omega) (by simp [U32]; omega)
    simp only [skipRtspPrefix, w1, f1]
  show parseRequestString r _ 100 100 100 100 = none
  unfold parseRequestString
  rw [ph1]
  simp only []
  rw [ph2]

/-- A session buffer of 10000 bytes that holds `A \r\n\r\n` followed by
zero bytes: an input of `parseRequestString_short_request`. -/
theorem parseRequestString_short_request_witness :
    parseRequestString (bytes "A \r\n\r\n" ++ List.replicate 9994 0) 6 PARAM_STRING_MAX
      PARAM_STRING_MAX PARAM_STRING_MAX PARAM_STRING_MAX = none :=
  parseRequestString_short_request (List.replicate 9994 0)
    (fun c hc => by rw [List.eq_of_mem_replicate hc]; decide)
    (by rw [List.length_replicate]; decide)

theorem bytes_noCSeq :
    bytes "A RTSP/1.0\r\n\r\n" = [65, 32, 82, 84, 83, 80, 47, 49, 46, 48, 13, 10, 13, 10] := by
  decide

/-- C3, a failing run.  The request `A RTSP/1.0\r\n\r\n` has no `CSeq: `
header.  `RTSP/` is found at index 2 with `i = 1`; the backward scans stop
at `k = 0` and `k1 = 0`, `k3 = --k1` wraps to `4294967295`, and
`reqStr[4294967295]` is read: whatever buffer of less than 4 GiB holds the
request, the call has no defined result instead of reporting failure. -/
theorem parseRequestString_noCSeq_request (tail : List Nat)
    (h : 14 + tail.length < 4294967296) :
    parseRequestString (bytes "A RTSP/1.0\r\n\r\n" ++ tail) 14 PARAM_STRING_MAX PARAM_STRING_MAX
      PARAM_STRING_MAX PARAM_STRING_MAX = none := by
  rw [bytes_noCSeq]
  obtain ⟨r, hrdef⟩ : ∃ r, r = [65, 32, 82, 84, 83, 80, 47, 49, 46, 48, 13, 10, 13, 10] ++ tail :=
    ⟨_, rfl⟩
  have hr : At r 0 ([65, 32, 82, 84, 83, 80, 47, 49, 46, 48, 13, 10, 13, 10] ++ tail) := by
    rw [hrdef]; exact At_self _
  have hlen : r.length = 14 + tail.length := by rw [hrdef]; simp; omega
  rw [← hrdef]; clear hrdef
  have hA := ((At_append _ _ _ _).1 hr).1
  simp only [At_cons] at hA
  obtain ⟨r0, r1, r2, r3, r4, r5, r6, r7, r8, -⟩ := hA
  simp only [Nat.zero_add, Nat.reduceAdd] at r0 r1 r2 r3 r4 r5 r6 r7 r8
  have rtop : rd r 4294967295 = none := by
    unfold rd; simp; omega
  have ph1 : scanCmdName r (min (sub32 100 1) 14) 0 [] = some (true, 1, [65]) := by
    have e : min (sub32 100 1) 14 = 12 + 1 + 1 := by decide
    rw [e]; simp [scanCmdName, r0, r1]
  have ph2 : skipRtspPrefix r 14 1 = some 1 := by
    have e1 : add32 1 1 = 2 := by decide
    have e2 : 14 - 2 = 11 + 1 := by decide
    have e3 : sub32 14 8 - 2 = 0 + 1 + 1 + 1 + 1 := by decide
    have m : ∀ k, k % U32 = k → k % U32 = k := fun _ h => h
    simp only [skipRtspPrefix, e1, e2, e3, skipWhile, findFrom, matchAt, rtspUrlPat, r2, r3, r4,
      r5, r6, Nat.reduceAdd, Nat.reduceMod, U32]
    simp
  have ph3 : findFrom r rtspVerPat (sub32 14 5 - add32 1 1) (add32 1 1) = some (some 2) := by
    have e1 : add32 1 1 = 2 := by decide
    have e3 : sub32 14 5 - 2 = 6 + 1 := by decide
    simp only [e1, e3, findFrom, matchAt, rtspVerPat, r2, r3, r4, r5, r6, Nat.reduceAdd,
      Nat.reduceMod, U32]
    simp
  have ph4 : backSpaces r 1 U32 2 = some 0 := by
    have hU2 : U32 = 4294967294 + 1 + 1 := rfl
    have e1 : sub32 2 1 = 1 := by decide
    have e2 : sub32 1 1 = 0 := by decide
    rw [hU2]
    simp [backSpaces, e1, e2, r1]
  have ph5 : backToSep r (0 - 1) 0 = some 0 := by simp [backToSep]
  have cp5 : copyRange r (add32 0 1) 0 = some [] := by
    have e1 : add32 0 1 = 1 := by decide
    simp [copyRange, e1, U32, copyBytes]
  have ph6 : backToSep r (sub32 0 1 - 1) (sub32 0 1) = none := by
    have e1 : sub32 0 1 = 4294967295 := by decide
    have e2 : 4294967295 - 1 = 4294967293 + 1 := by decide
    rw [e1, e2]
    simp only [backToSep, rtop]
  show parseRequestString r _ 100 100 100 100 = none
  unfold parseRequestString
  rw [ph1]
  simp only []
  rw [ph2]
  simp only []
  rw [ph3]
  simp only []
  rw [ph4]
  simp only []
  rw [ph5]
  simp only []
  have c5 : ¬ (100 < add32 (sub32 0 0) 1) := by decide
  rw [if_neg c5, cp5]
  simp only []
  rw [ph6]

/-- A session buffer of 10000 bytes that holds `A RTSP/1.0\r\n\r\n`
followed by zero bytes: an input of `parseRequestString_noCSeq_request`. -/
theorem parseRequestString_noCSeq_request_witness :
    parseRequestString (bytes "A RTSP/1.0\r\n\r\n" ++ List.replicate 9986 0) 14 PARAM_STRING_MAX
      PARAM_STRING_MAX PARAM_STRING_MAX PARAM_STRING_MAX = none :=
  parseRequestString_noCSeq_request (List.replicate 9986 0)
    (by rw [List.length_replicate]; decide)

/-! ## The reader: end-of-message detection -/

theorem crlfAt_succ_absurd {l : List Nat} {p : Nat} (h1 : crlfAt l p) (h2 : crlfAt l (p + 1)) :
    False := by
  have a := h1.2
  have b := h2.1
  rw [a] at b
  simp at b

theorem scanCRLF_spec (l : List Nat) :
    ∀ (n tmp : Nat) (last : Int), ScanInv l tmp last →
      ((scanCRLF l n tmp last).1 = true →
        ∃ u, u + 2 < tmp + n ∧ crlfAt l u ∧ crlfAt l (u + 2)) ∧
      ((scanCRLF l n tmp last).1 = false →
        ScanInv l (tmp + n) (scanCRLF l n tmp last).2) := by
  intro n
  induction n with
  | zero =>
    intro tmp last h
    simp [scanCRLF, h]
  | succ n ih =>
    intro tmp last h
    obtain ⟨hno, hlast⟩ := h
    by_cases hc : crlfAt l tmp
    · by_cases h2 : (tmp : Int) - last = 2
      · simp only [scanCRLF, hc, h2, if_true]
        refine ⟨fun _ => ?_, fun hf => by simp at hf⟩
        rcases hlast with ⟨h3, _⟩ | ⟨p, hp, _, hcp, _⟩
        · omega
        · have : tmp = p + 2 := by omega
          subst this
          exact ⟨p, by omega, hcp, hc⟩
      · have hinv : ScanInv l (tmp + 1) tmp := by
          refine ⟨?_, Or.inr ⟨tmp, rfl, by omega, hc, fun q h1 h2 => by omega⟩⟩
          intro u hu ⟨hu1, hu2⟩
          by_cases hut : u + 2 < tmp
          · exact hno u hut ⟨hu1, hu2⟩
          · have hu3 : u + 2 = tmp := by omega
            rcases hlast with ⟨_, hnone⟩ | ⟨p, hp, hpt, hcp, hq⟩
            · exact hnone u (by omega) hu1
            · by_cases hpu : p = u
              · subst hpu; omega
              · by_cases hlt : p < u
                · exact hq u hlt (by omega) hu1
                · have hp1 : p = u + 1 := by omega
                  subst hp1
                  exact crlfAt_succ_absurd hu1 hcp
        have := ih (tmp + 1) tmp hinv
        simp only [scanCRLF, hc, h2, if_true, if_false]
        have e : tmp + (n + 1) = tmp + 1 + n := by omega
        rw [e]
        exact this
    · have hinv : ScanInv l (tmp + 1) last := by
        refine ⟨?_, ?_⟩
        · intro u hu ⟨hu1, hu2⟩
          by_cases hut : u + 2 < tmp
          · exact hno u hut ⟨hu1, hu2⟩
          · have hu3 : u + 2 = tmp := by omega
            rw [hu3] at hu2
            exact hc hu2
        · rcases hlast with ⟨h3, hnone⟩ | ⟨p, hp, hpt, hcp, hq⟩
          · refine Or.inl ⟨h3, fun q hq1 => ?_⟩
            by_cases hqt : q < tmp
            · exact hnone q hqt
            · have : q = tmp := by omega
              subst this; exact hc
          · refine Or.inr ⟨p, hp, by omega, hcp, fun q h1 h2 => ?_⟩
            by_cases hqt : q < tmp
            · exact hq q h1 hqt
            · have : q = tmp := by omega
              subst this; exact hc
      have := ih (tmp + 1) last hinv
      simp only [scanCRLF, hc, if_false]
      have e : tmp + (n + 1) = tmp + 1 + n := by omega
      rw [e]
      exact this

theorem crlfAt_append {l : List Nat} (t : List Nat) {p : Nat} (hp : p + 1 < l.length) :
    crlfAt (l ++ t) p ↔ crlfAt l p := by
  unfold crlfAt
  rw [List.getElem?_append_left (by omega), List.getElem?_append_left hp]

theorem crlfAt_lt {l : List Nat} {p : Nat} (h : crlfAt l p) : p + 1 < l.length := by
  have := h.2
  by_contra hc
  rw [List.getElem?_eq_none (by omega)] at this
  simp at this

theorem containsEnd_append {l : List Nat} (t : List Nat) (h : containsEnd l) :
    containsEnd (l ++ t) := by
  obtain ⟨u, h1, h2⟩ := h
  exact ⟨u, (crlfAt_append t (crlfAt_lt h1)).2 h1, (crlfAt_append t (crlfAt_lt h2)).2 h2⟩

theorem ScanInv_append {l : List Nat} (t : List Nat) {last : Int}
    (h : ScanInv l (l.length - 1) last) : ScanInv (l ++ t) (l.length - 1) last := by
  obtain ⟨hno, hlast⟩ := h
  refine ⟨?_, ?_⟩
  · intro u hu ⟨h1, h2⟩
    exact hno u hu ⟨(crlfAt_append t (by omega)).1 h1, (crlfAt_append t (by omega)).1 h2⟩
  · rcases hlast with ⟨h3, hnone⟩ | ⟨p, hp, hpt, hcp, hq⟩
    · exact Or.inl ⟨h3, fun q hq1 hq2 => hnone q hq1 ((crlfAt_append t (by omega)).1 hq2)⟩
    · exact Or.inr ⟨p, hp, hpt, (crlfAt_append t (by omega)).2 hcp,
        fun q h1 h2 h3 => hq q h1 h2 ((crlfAt_append t (by omega)).1 h3)⟩

theorem ScanInv_not_containsEnd {l : List Nat} {last : Int}
    (h : ScanInv l (l.length - 1) last) : ¬ containsEnd l := by
  rintro ⟨u, h1, h2⟩
  have := crlfAt_lt h2
  exact h.1 u (by omega) ⟨h1, h2⟩

theorem readBody_numReads (got : List Nat) (st : ReadState) :
    (readBody got st).2.numReads = st.numReads + 1 := rfl

theorem readBody_buf (got : List Nat) (st : ReadState) :
    (readBody got st).2.buf = st.buf ++ got := rfl

theorem readBody_totalBytes (got : List Nat) (st : ReadState) :
    (readBody got st).2.totalBytes = st.totalBytes + got.length := rfl

theorem readBody_bytesLeft (got : List Nat) (st : ReadState) :
    (readBody got st).2.bytesLeft = st.bytesLeft - got.length := rfl

/-- One pass of the loop body from a state in which no end of message has
been seen: `endOfMsg` is set exactly when the bytes read so far contain
`\r\n\r\n`, and otherwise the invariant of the search is kept. -/
theorem readBody_spec (got : List Nat) (st : ReadState) (hgot : got ≠ [])
    (htot : st.totalBytes = st.buf.length)
    (hinv : ScanInv st.buf (st.buf.length - 1) st.lastCRLF) :
    ((readBody got st).1 = true → containsEnd (st.buf ++ got)) ∧
    ((readBody got st).1 = false →
      ScanInv (st.buf ++ got) ((st.buf ++ got).length - 1) (readBody got st).2.lastCRLF) := by
  have hlen : 1 ≤ got.length := by
    cases got with
    | nil => exact absurd rfl hgot
    | cons a t => simp
  have htmp : (if 0 < st.totalBytes then st.totalBytes - 1 else st.totalBytes)
      = st.buf.length - 1 := by
    split <;> omega
  have hspec := scanCRLF_spec (st.buf ++ got)
    (st.totalBytes + got.length - 1 - (st.buf.length - 1)) (st.buf.length - 1) st.lastCRLF
    (ScanInv_append got hinv)
  have hend : st.buf.length - 1 + (st.totalBytes + got.length - 1 - (st.buf.length - 1))
      = (st.buf ++ got).length - 1 := by
    simp; omega
  rw [hend] at hspec
  simp only [readBody, htmp]
  refine ⟨fun h => ?_, hspec.2⟩
  obtain ⟨u, _, h3, h4⟩ := hspec.1 h
  exact ⟨u, h3, h4⟩

theorem readLoop_numReads :
    ∀ (chunks : List (List Nat)) (st res : ReadState),
      readLoop chunks st = ReadResult.endOfMsg res → st.numReads < res.numReads := by
  intro chunks
  induction chunks with
  | nil => intro st res h; simp [readLoop] at h
  | cons c cs ih =>
    intro st res h
    unfold readLoop at h
    by_cases h1 : st.bytesLeft ≤ 0
    · simp [h1] at h
    · by_cases h2 : c.take st.bytesLeft.toNat = []
      · simp [h1, h2] at h
      · by_cases h3 : (readBody (c.take st.bytesLeft.toNat) st).1 = true
        · simp only [h1, h2, h3, if_true, if_false, ReadResult.endOfMsg.injEq] at h
          rw [← h, readBody_numReads]; omega
        · simp only [h1, h2, h3, if_false] at h
          have := ih _ _ h
          rw [readBody_numReads] at this
          omega

/-- The reading loop from a state in which no end of message has been
seen: it ends after exactly `m` further reads, with the bytes read so far
in the buffer, exactly when the `m`-th read is the first to complete a
`\r\n\r\n`. -/
theorem readLoop_spec (B : Nat) :
    ∀ (chunks : List (List Nat)) (st : ReadState) (m : Nat),
      (∀ c ∈ chunks, c ≠ []) → st.totalBytes = st.buf.length →
      st.bytesLeft = (B : Int) - st.buf.length → st.buf.length + chunks.flatten.length ≤ B →
      ScanInv st.buf (st.buf.length - 1) st.lastCRLF →
      ((∃ res, readLoop chunks st = ReadResult.endOfMsg res ∧ res.numReads = st.numReads + m
          ∧ res.buf = st.buf ++ (chunks.take m).flatten ∧ res.totalBytes = res.buf.length)
        ↔ (1 ≤ m ∧ m ≤ chunks.length ∧ containsEnd (st.buf ++ (chunks.take m).flatten)
          ∧ ¬ containsEnd (st.buf ++ (chunks.take (m - 1)).flatten))) := by
  intro chunks
  induction chunks with
  | nil =>
    intro st m _ _ _ _ _
    simp [readLoop]
  | cons c cs ih =>
    intro st m hne htot hleft hfit hinv
    have hc : c ≠ [] := hne c (by simp)
    have hclen : 1 ≤ c.length := by
      cases c with
      | nil => exact absurd rfl hc
      | cons a t => simp
    simp only [List.flatten_cons, List.length_append] at hfit
    have h1 : ¬ (st.bytesLeft ≤ 0) := by omega
    have h2 : c.take st.bytesLeft.toNat = c := List.take_of_length_le (by omega)
    have hspec := readBody_spec c st hc htot hinv
    have hnobuf : ¬ containsEnd st.buf := ScanInv_not_containsEnd hinv
    unfold readLoop
    simp only [h1, if_false, h2, hc]
    by_cases hr : (readBody c st).1 = true
    · have hcont : containsEnd (st.buf ++ c) := hspec.1 hr
      simp only [hr, if_true]
      constructor
      · rintro ⟨res, hres, hnum, hbuf, _⟩
        simp only [ReadResult.endOfMsg.injEq] at hres
        rw [← hres, readBody_numReads] at hnum
        have hm : m = 1 := by omega
        subst hm
        simp
        exact ⟨hcont, hnobuf⟩
      · rintro ⟨hm1, hm2, hce, hnce⟩
        have hm : m = 1 := by
          by_contra hne1
          obtain ⟨k, rfl⟩ : ∃ k, m = k + 2 := ⟨m - 2, by omega⟩
          apply hnce
          have e : k + 2 - 1 = k + 1 := by omega
          rw [e, List.take_succ_cons, List.flatten_cons, ← List.append_assoc]
          exact containsEnd_append _ hcont
        subst hm
        exact ⟨_, rfl, rfl, by simp [readBody_buf],
          by rw [readBody_totalBytes, readBody_buf, htot]; simp⟩
    · have hrf : (readBody c st).1 = false := by simpa using hr
      have hinv3 := hspec.2 hrf
      have hnocont : ¬ containsEnd (st.buf ++ c) := ScanInv_not_containsEnd hinv3
      simp only [hrf]
      have hih := fun k => ih (readBody c st).2 k
        (fun c hc => hne c (by simp [hc]))
        (by rw [readBody_totalBytes, readBody_buf, htot]; simp)
        (by rw [readBody_bytesLeft, readBody_buf, hleft, List.length_append]; push_cast; omega)
        (by rw [readBody_buf, List.length_append]; omega)
        (by rw [readBody_buf]; exact hinv3)
      simp only [readBody_numReads, readBody_buf] at hih
      cases m with
      | zero =>
        constructor
        · rintro ⟨res, hres, hnum, _⟩
          have := readLoop_numReads _ _ _ hres
          rw [readBody_numReads] at this
          omega
        · rintro ⟨hm1, _⟩
          omega
      | succ k =>
        have e1 : st.buf ++ (List.take (k + 1) (c :: cs)).flatten
            = st.buf ++ c ++ (List.take k cs).flatten := by
          simp
        have e2 : st.numReads + (k + 1) = st.numReads + 1 + k := by omega
        rw [e1, e2]
        simp only [Bool.false_eq_true, if_false]
        rw [hih k]
        cases k with
        | zero =>
          simp
          intro h
          exact absurd h hnocont
        | succ j =>
          simp only [Nat.add_sub_cancel, List.take_succ_cons, List.flatten_cons,
            List.length_cons, List.append_assoc]
          constructor
          · rintro ⟨_, h2, h3, h4⟩
            exact ⟨by omega, by omega, h3, h4⟩
          · rintro ⟨_, h2, h3, h4⟩
            exact ⟨by omega, by omega, h3, h4⟩

/-- C4. For every sequence of non-empty socket reads that fit in a buffer
of `B` bytes, the reader of `incomingRequestHandler1` declares the end of
the message after exactly `m` reads, with exactly the bytes of these reads
accumulated, if and only if the bytes of the first `m` reads contain
`\r\n\r\n` and those of the first `m - 1` reads do not; the reads may split
the four bytes anywhere. -/
theorem incomingRequestHandler1_endOfMsg (B : Nat) (chunks : List (List Nat)) (m : Nat)
    (hne : ∀ c ∈ chunks, c ≠ []) (hfit : chunks.flatten.length ≤ B) :
    (∃ st, readLoop chunks (ReadState.init B) = ReadResult.endOfMsg st ∧ st.numReads = m
        ∧ st.buf = (chunks.take m).flatten ∧ st.totalBytes = st.buf.length)
      ↔ (1 ≤ m ∧ m ≤ chunks.length ∧ containsEnd (chunks.take m).flatten
        ∧ ¬ containsEnd (chunks.take (m - 1)).flatten) := by
  have h := readLoop_spec B chunks (ReadState.init B) m hne rfl (by simp [ReadState.init])
    (by simpa [ReadState.init] using hfit)
    (by
      refine ⟨fun u hu => ?_, Or.inl ⟨rfl, fun p hp => ?_⟩⟩
      · simp [ReadState.init] at hu
      · simp [ReadState.init] at hp)
  simpa [ReadState.init] using h

/-- The message `OPTIONS * RTSP/1.0\r\n\r\n` delivered in four reads that
split both `\r\n` pairs: the reader stops after the fourth read, not
before. -/
theorem incomingRequestHandler1_endOfMsg_witness :
    (∃ st, readLoop [bytes "OPTIONS * RTSP/1.0\r", bytes "\n", bytes "\r", bytes "\nxx"]
          (ReadState.init 10000) = ReadResult.endOfMsg st ∧ st.numReads = 4
        ∧ st.buf
          = (List.take 4 [bytes "OPTIONS * RTSP/1.0\r", bytes "\n", bytes "\r", bytes "\nxx"]).flatten
        ∧ st.totalBytes = st.buf.length)
      ∧ (1 ≤ 4 ∧ 4 ≤ [bytes "OPTIONS * RTSP/1.0\r", bytes "\n", bytes "\r", bytes "\nxx"].length
        ∧ containsEnd
          (List.take 4 [bytes "OPTIONS * RTSP/1.0\r", bytes "\n", bytes "\r", bytes "\nxx"]).flatten
        ∧ ¬ containsEnd
          (List.take (4 - 1)
            [bytes "OPTIONS * RTSP/1.0\r", bytes "\n", bytes "\r", bytes "\nxx"]).flatten) :=
  have hl : (∃ st, readLoop [bytes "OPTIONS * RTSP/1.0\r", bytes "\n", bytes "\r", bytes "\nxx"]
          (ReadState.init 10000) = ReadResult.endOfMsg st ∧ st.numReads = 4
        ∧ st.buf
          = (List.take 4 [bytes "OPTIONS * RTSP/1.0\r", bytes "\n", bytes "\r", bytes "\nxx"]).flatten
        ∧ st.totalBytes = st.buf.length) :=
    ⟨⟨9976, 24, 18, bytes "OPTIONS * RTSP/1.0\r\n\r\nxx", 4⟩, by decide, by decide, by decide,
      by decide⟩
  ⟨hl, (incomingRequestHandler1_endOfMsg 10000
    [bytes "OPTIONS * RTSP/1.0\r", bytes "\n", bytes "\r", bytes "\nxx"] 4
    (by decide) (by decide)).1 hl⟩

/-! ## Authentication -/

/-- The calls of `authenticationOK` that return true, in terms of what
`parseAuthorizationHeader` takes from the memory: the server has no user
database, or a nonce is outstanding, the parser returns a username, a
realm, a nonce, a uri and a response, the realm and the nonce are those of
the authenticator, the database has a password for the username, and the
response is equal, byte for byte, to the digest computed for the command
and the uri from that password, realm and nonce. -/
theorem authenticationOK_iff (env : Env) (srv : Server) (x : External) (s : RTSPClientSession)
    (cmdName cseq mem : List Nat) :
    (∃ s1, authenticationOK env srv x s cmdName cseq mem = some (true, s1)) ↔
      (srv.fAuthDB = none ∨
        ∃ db ourNonce ourRealm f username uri password,
          srv.fAuthDB = some db ∧ s.fCurrentAuthenticator.nonce = some ourNonce ∧
          s.fCurrentAuthenticator.realm = some ourRealm ∧
          parseAuthorizationHeader mem = some (true, f) ∧
          f.username = some username ∧ f.realm = some ourRealm ∧ f.nonce = some ourNonce ∧
          f.uri = some uri ∧ db.lookupPassword username = some password ∧
          f.response = some (env.computeDigestResponse ourRealm ourNonce username password
            db.fPasswordsAreMD5 cmdName uri)) := by
  unfold authenticationOK
  cases h1 : srv.fAuthDB with
  | none => simp
  | some db =>
    cases h2 : s.fCurrentAuthenticator.nonce with
    | none => simp
    | some ourNonce =>
      cases h3 : parseAuthorizationHeader mem with
      | none => simp
      | some r =>
        obtain ⟨found, f⟩ := r
        cases found with
        | false => simp
        | true =>
          cases h4 : f.username with
          | none => simp [h4]
          | some username =>
            cases h5 : f.realm with
            | none => simp [h4, h5]
            | some realm =>
              cases h6 : s.fCurrentAuthenticator.realm with
              | none => simp [h4, h5, h6]
              | some ourRealm =>
                by_cases h7 : realm = ourRealm
                · subst h7
                  cases h8 : f.nonce with
                  | none => simp [h4, h5, h6, h8]
                  | some nonce =>
                    by_cases h9 : nonce = ourNonce
                    · subst h9
                      cases h10 : f.uri with
                      | none => simp [h4, h5, h6, h8, h10]
                      | some uri =>
                        cases h11 : f.response with
                        | none => simp [h4, h5, h6, h8, h10, h11]
                        | some response =>
                          cases h12 : db.lookupPassword username with
                          | none => simp [h4, h5, h6, h8, h10, h11, h12]
                          | some password =>
                            by_cases h13 : env.computeDigestResponse realm nonce username
                                password db.fPasswordsAreMD5 cmdName uri = response
                            · simp [h4, h5, h6, h8, h10, h11, h12, h13]
                            · simp [h4, h5, h6, h8, h10, h11, h12, h13]
                              intro h; exact h13 h.symm
                    · simp [h4, h5, h6, h8, h9]
                · simp [h4, h5, h6, h7]


/-- A failed call of `authenticationOK` has gone through lines 785-794:
the session it leaves is `authenticationFailed` applied to a session that
differs from the one before the call in the bound credential at most. -/
theorem authenticationOK_failed_form (env : Env) (srv : Server) (x : External)
    (s : RTSPClientSession) (cmdName cseq mem : List Nat) (s1 : RTSPClientSession)
    (h : authenticationOK env srv x s cmdName cseq mem = some (false, s1)) :
    ∃ db s0, srv.fAuthDB = some db ∧ s1 = authenticationFailed db x s0 cseq
      ∧ s0.log = s.log ∧ s0.fSessionIsActive = s.fSessionIsActive := by
  unfold authenticationOK at h
  cases h1 : srv.fAuthDB with
  | none => simp [h1] at h
  | some db =>
    have hs : ∀ r : Bool × RTSPClientSession,
        r = (false, authenticationFailed db x s cseq) → r = (false, s1) →
        ∃ db' s0, some db = some db' ∧ s1 = authenticationFailed db' x s0 cseq
          ∧ s0.log = s.log ∧ s0.fSessionIsActive = s.fSessionIsActive := by
      intro r hr1 hr2
      rw [hr1] at hr2
      exact ⟨db, s, rfl, (Prod.mk.inj hr2).2.symm, rfl, rfl⟩
    simp only [h1] at h
    cases h2 : s.fCurrentAuthenticator.nonce with
    | none => simp only [h2] at h; exact hs _ rfl (Option.some.inj h)
    | some ourNonce =>
      simp only [h2] at h
      cases h3 : parseAuthorizationHeader mem with
      | none => simp [h3] at h
      | some r =>
        obtain ⟨found, f⟩ := r
        simp only [h3] at h
        cases found with
        | false => exact hs _ rfl (Option.some.inj h)
        | true =>
          simp only at h
          cases h4 : f.username with
          | none => simp only [h4] at h; exact hs _ rfl (Option.some.inj h)
          | some username =>
            simp only [h4] at h
            cases h5 : f.realm with
            | none => simp only [h5] at h; exact hs _ rfl (Option.some.inj h)
            | some realm =>
              simp only [h5] at h
              cases h6 : s.fCurrentAuthenticator.realm with
              | none => simp [h6] at h
              | some ourRealm =>
                simp only [h6] at h
                split at h
                · exact hs _ rfl (Option.some.inj h)
                · cases h8 : f.nonce with
                  | none => simp only [h8] at h; exact hs _ rfl (Option.some.inj h)
                  | some nonce =>
                    simp only [h8] at h
                    split at h
                    · exact hs _ rfl (Option.some.inj h)
                    · split at h
                      · split at h
                        · exact hs _ rfl (Option.some.inj h)
                        · split at h
                          · simp at h
                          · have := (Prod.mk.inj (Option.some.inj h)).2
                            exact ⟨db, _, rfl, this.symm, rfl, rfl⟩
                      · exact hs _ rfl (Option.some.inj h)

/-! ## The SETUP handler -/

theorem reclaimEvents_mem (id : Nat) (l : List StreamState) (e : Event)
    (h : e ∈ reclaimEvents id l) : ∃ sub tok, e = Event.deleteStream sub id tok := by
  induction l with
  | nil => simp [reclaimEvents] at h
  | cons st rest ih =>
    unfold reclaimEvents at h
    cases hs : st.subsession with
    | none => simp only [hs] at h; exact ih h
    | some sub =>
      simp only [hs, List.mem_cons] at h
      rcases h with h | h
      · exact ⟨_, _, h⟩
      · exact ih h

/-- What lines 494-521 of `handleCmd_SETUP` leave unchanged, and the calls
they make: a registry lookup, `deleteStream` for the stream states given up,
and the allocation of the new array. -/
theorem bindSession_frame (srv : Server) (s : RTSPClientSession) (pre : List Nat) :
    (bindSession srv s pre).1.fOurSessionId = s.fOurSessionId
    ∧ (bindSession srv s pre).1.fClientSocket = s.fClientSocket
    ∧ (bindSession srv s pre).1.fClientAddr = s.fClientAddr
    ∧ (bindSession srv s pre).1.fSessionIsActive = s.fSessionIsActive
    ∧ ∃ evs, (bindSession srv s pre).1.log = s.log ++ evs
        ∧ ∀ c, Event.getStreamParameters c ∉ evs := by
  unfold bindSession
  by_cases hsb : stillBound s pre = true
  · rw [if_pos hsb]
    exact ⟨rfl, rfl, rfl, rfl, [], by simp, by simp⟩
  · rw [if_neg hsb]
    cases hl : Lookup srv.fServerMediaSessions pre with
    | none =>
      exact ⟨rfl, rfl, rfl, rfl, [Event.lookup pre], by simp, by simp⟩
    | some ms =>
      refine ⟨rfl, rfl, rfl, rfl,
        [Event.lookup pre] ++ reclaimEvents s.fOurSessionId s.fStreamStates
          ++ [Event.newStreamStates ms.subsessions.length], by simp, ?_⟩
      intro c hc
      simp only [List.mem_append, List.mem_singleton, List.mem_cons] at hc
      rcases hc with (hc | hc) | hc
      · simp at hc
      · obtain ⟨_, _, h⟩ := reclaimEvents_mem _ _ _ hc
        simp at h
      · simp at hc

/-- C10. In a build without `RTSP_ALLOW_CLIENT_DESTINATION_SETTING`, every
call of `getStreamParameters` made by `handleCmd_SETUP` passes the
destination address 0 and the destination TTL 255, whatever the request
says, and passes the client socket as `tcpSocketNum` when the Transport
header asks for RTP over TCP and -1 otherwise. -/
theorem handleCmd_SETUP_destination (env : Env) (srv : Server) (x : External)
    (s : RTSPClientSession) (cseq urlPreSuffix urlSuffix mem : List Nat)
    (hflag : env.allowClientDestinationSetting = false) :
    ∃ evs, (handleCmd_SETUP env srv x s cseq urlPreSuffix urlSuffix mem).log = s.log ++ evs
      ∧ ∀ c, Event.getStreamParameters c ∈ evs →
          c.destinationAddress = 0 ∧ c.destinationTTL = 255
          ∧ c.tcpSocketNum
            = if (parseTransportHeader mem).tcpStreamingRequested then s.fClientSocket else -1 := by
  obtain ⟨_, hsock, _, _, evs, hlog, hno⟩ := bindSession_frame srv s urlPreSuffix
  unfold handleCmd_SETUP
  rcases hb : bindSession srv s urlPreSuffix with ⟨s1, ok⟩
  rw [hb] at hsock hlog
  simp only at hsock hlog
  cases ok with
  | false =>
    exact ⟨evs, by simp [handleCmd_notFound, hlog], fun c hc => absurd hc (hno c)⟩
  | true =>
    simp only
    cases hf : findStreamNum urlSuffix s1.fStreamStates 0 with
    | none =>
      exact ⟨evs, by simp [handleCmd_notFound, hlog], fun c hc => absurd hc (hno c)⟩
    | some r =>
      obtain ⟨streamNum, sub⟩ := r
      refine ⟨evs ++ [Event.getStreamParameters
        (streamParametersCall env s1 x (parseTransportHeader mem) sub)], ?_, ?_⟩
      · simp only
        split
        · split
          · simp [handleCmd_unsupportedTransport, hlog]
          · simp [hlog]
        · split
          · simp [hlog]
          · simp [hlog]
      · intro c hc
        simp only [List.mem_append, List.mem_singleton] at hc
        rcases hc with hc | hc
        · exact absurd hc (hno c)
        · have hc2 : c = streamParametersCall env s1 x (parseTransportHeader mem) sub := by
            simpa using hc
          subst hc2
          simp [streamParametersCall, hflag, hsock]

theorem bindSession_true_id (srv : Server) (s s1 : RTSPClientSession) (pre : List Nat) (ok : Bool)
    (h : bindSession srv s pre = (s1, ok)) : s1.fOurSessionId = s.fOurSessionId := by
  have := (bindSession_frame srv s pre).1
  rw [h] at this
  exact this

/-- C9. Once `handleCmd_SETUP` has found the track and `getStreamParameters`
has returned, the response depends on `isMulticast` and on whether the
Transport header asked for RTP over TCP: `461 Unsupported Transport` for
multicast with TCP, and otherwise `200 OK` with `CSeq`, a `Transport` line
of the multicast, TCP-interleaved or UDP form, and `Session`; the client
ports and channel ids are those parsed from the request, the server ports
those returned by the subsession. -/
theorem handleCmd_SETUP_response (env : Env) (srv : Server) (x : External)
    (s s1 : RTSPClientSession) (cseq urlPreSuffix urlSuffix mem : List Nat)
    (streamNum : Nat) (sub : ServerMediaSubsession)
    (hb : bindSession srv s urlPreSuffix = (s1, true))
    (hf : findStreamNum urlSuffix s1.fStreamStates 0 = some (streamNum, sub)) :
    (handleCmd_SETUP env srv x s cseq urlPreSuffix urlSuffix mem).fBuffer
      = if x.isMulticast then
          if (parseTransportHeader mem).tcpStreamingRequested then
            bytes "RTSP/1.0 461 Unsupported Transport\r\nCSeq: " ++ cseq ++ bytes "\r\n\r\n"
          else
            bytes "RTSP/1.0 200 OK\r\nCSeq: " ++ cseq
              ++ bytes "\r\nTransport: RTP/AVP;multicast;destination="
              ++ env.our_inet_ntoa x.destinationAddress
              ++ bytes ";port=" ++ decimal (x.serverRTPPort % 65536)
              ++ bytes ";ttl=" ++ decimal (x.destinationTTL % 256)
              ++ bytes "\r\nSession: " ++ fmtD (toInt32 s.fOurSessionId) ++ bytes "\r\n\r\n"
        else if (parseTransportHeader mem).tcpStreamingRequested then
          bytes "RTSP/1.0 200 OK\r\nCSeq: " ++ cseq
            ++ bytes "\r\nTransport: RTP/AVP/TCP;unicast;destination="
            ++ env.our_inet_ntoa x.destinationAddress
            ++ bytes ";interleaved=" ++ decimal (parseTransportHeader mem).rtpChannelId
            ++ bytes "-" ++ decimal (parseTransportHeader mem).rtcpChannelId
            ++ bytes "\r\nSession: " ++ fmtD (toInt32 s.fOurSessionId) ++ bytes "\r\n\r\n"
        else
          bytes "RTSP/1.0 200 OK\r\nCSeq: " ++ cseq
            ++ bytes "\r\nTransport: RTP/AVP;unicast;destination="
            ++ env.our_inet_ntoa x.destinationAddress
            ++ bytes ";client_port=" ++ decimal (parseTransportHeader mem).clientRTPPortNum
            ++ bytes "-" ++ decimal (parseTransportHeader mem).clientRTCPPortNum
            ++ bytes ";server_port=" ++ decimal (x.serverRTPPort % 65536)
            ++ bytes "-" ++ decimal (x.serverRTCPPort % 65536)
            ++ bytes "\r\nSession: " ++ fmtD (toInt32 s.fOurSessionId) ++ bytes "\r\n\r\n" := by
  have hid := bindSession_true_id srv s s1 urlPreSuffix true hb
  unfold handleCmd_SETUP
  rw [hb]
  simp only [hf]
  split
  · split
    · rfl
    · simp only [setupResponseMulticast, hid]
  · split
    · simp only [setupResponseTCP, hid]
    · simp only [setupResponseUDP, hid]

/-! ## Stream states over the life of a session -/

theorem deleteStreamCalls_append (a b : List Event) :
    deleteStreamCalls (a ++ b) = deleteStreamCalls a + deleteStreamCalls b := by
  simp [deleteStreamCalls, List.countP_append]

theorem statesAllocated_append (a b : List Event) :
    statesAllocated (a ++ b) = statesAllocated a + statesAllocated b := by
  induction a with
  | nil => simp [statesAllocated]
  | cons e a ih =>
    cases e <;> simp [statesAllocated, ih]
    omega

theorem reclaimEvents_counts (id : Nat) (l : List StreamState) :
    deleteStreamCalls (reclaimEvents id l) = liveStates l
    ∧ statesAllocated (reclaimEvents id l) = 0 := by
  induction l with
  | nil => simp [reclaimEvents, deleteStreamCalls, liveStates, statesAllocated]
  | cons st rest ih =>
    unfold reclaimEvents
    cases hs : st.subsession with
    | none =>
      simp only [hs]
      refine ⟨?_, ih.2⟩
      rw [ih.1]
      simp [liveStates, hs]
    | some sub =>
      simp only [hs]
      refine ⟨?_, ?_⟩
      · have := ih.1
        simp only [deleteStreamCalls, liveStates] at this ⊢
        simp [List.countP_cons, hs, this]
      · simp [statesAllocated, ih.2]

theorem Quiet.refl (s : RTSPClientSession) : Quiet s s :=
  ⟨rfl, rfl, rfl, [], by simp, by simp [deleteStreamCalls], by simp [statesAllocated]⟩

theorem Quiet.trans {a b c : RTSPClientSession} (h1 : Quiet a b) (h2 : Quiet b c) : Quiet a c := by
  obtain ⟨h1a, h1b, h1c, e1, h1d, h1e, h1f⟩ := h1
  obtain ⟨h2a, h2b, h2c, e2, h2d, h2e, h2f⟩ := h2
  refine ⟨h2a.trans h1a, h2b.trans h1b, h2c.trans h1c, e1 ++ e2, ?_, ?_, ?_⟩
  · rw [h2d, h1d, List.append_assoc]
  · rw [deleteStreamCalls_append, h1e, h2e]
  · rw [statesAllocated_append, h1f, h2f]

theorem Quiet.preserves {s s1 : RTSPClientSession} (h : Quiet s s1) (hi : SessionInv s) :
    SessionInv s1 := by
  obtain ⟨ha, hb, _, evs, hd, he, hf⟩ := h
  refine ⟨?_, ?_⟩
  · rw [hd, ha, deleteStreamCalls_append, statesAllocated_append, he, hf]
    have := hi.1
    omega
  · intro ms hms
    rw [ha]
    exact hi.2 ms (hb ▸ hms)

/-- A step that only writes the response and the active flag. -/
theorem Quiet.of_fields {s s1 : RTSPClientSession} (h1 : s1.fStreamStates = s.fStreamStates)
    (h2 : s1.fOurServerMediaSession = s.fOurServerMediaSession)
    (h3 : s1.fOurSessionId = s.fOurSessionId) (h4 : s1.log = s.log) : Quiet s s1 :=
  ⟨h1, h2, h3, [], by simp [h4], by simp [deleteStreamCalls], by simp [statesAllocated]⟩

theorem authenticationOK_quiet (env : Env) (srv : Server) (x : External)
    (s : RTSPClientSession) (cmdName cseq mem : List Nat) (b : Bool) (s1 : RTSPClientSession)
    (h : authenticationOK env srv x s cmdName cseq mem = some (b, s1)) :
    Quiet s s1 ∧ s1.fSessionIsActive = s.fSessionIsActive := by
  unfold authenticationOK at h
  have hs : ∀ (db : UserAuthenticationDatabase) (s0 : RTSPClientSession) (b0 : Bool),
      Quiet s s0 ∧ s0.fSessionIsActive = s.fSessionIsActive →
      some (b0, authenticationFailed db x s0 cseq) = some (b, s1) →
      Quiet s s1 ∧ s1.fSessionIsActive = s.fSessionIsActive := by
    intro db s0 b0 h0 he
    have := (Prod.mk.inj (Option.some.inj he)).2
    rw [← this]
    exact ⟨h0.1.trans (Quiet.of_fields rfl rfl rfl rfl), h0.2⟩
  have hq0 : Quiet s s ∧ s.fSessionIsActive = s.fSessionIsActive := ⟨Quiet.refl s, rfl⟩
  have hqu : ∀ (db : UserAuthenticationDatabase) (u p : List Nat),
      Quiet s (setUsernameAndPassword db s u p)
      ∧ (setUsernameAndPassword db s u p).fSessionIsActive = s.fSessionIsActive :=
    fun db u p => ⟨Quiet.of_fields rfl rfl rfl rfl, rfl⟩
  cases h1 : srv.fAuthDB with
  | none =>
    simp only [h1] at h
    have := (Prod.mk.inj (Option.some.inj h)).2
    rw [← this]; exact hq0
  | some db =>
    simp only [h1] at h
    cases h2 : s.fCurrentAuthenticator.nonce with
    | none => simp only [h2] at h; exact hs _ _ _ hq0 h
    | some ourNonce =>
      simp only [h2] at h
      cases h3 : parseAuthorizationHeader mem with
      | none => simp [h3] at h
      | some r =>
        obtain ⟨found, f⟩ := r
        simp only [h3] at h
        cases found with
        | false => exact hs _ _ _ hq0 h
        | true =>
          simp only at h
          cases h4 : f.username with
          | none => simp only [h4] at h; exact hs _ _ _ hq0 h
          | some username =>
            simp only [h4] at h
            cases h5 : f.realm with
            | none => simp only [h5] at h; exact hs _ _ _ hq0 h
            | some realm =>
              simp only [h5] at h
              cases h6 : s.fCurrentAuthenticator.realm with
              | none => simp [h6] at h
              | some ourRealm =>
                simp only [h6] at h
                split at h
                · exact hs _ _ _ hq0 h
                · cases h8 : f.nonce with
                  | none => simp only [h8] at h; exact hs _ _ _ hq0 h
                  | some nonce =>
                    simp only [h8] at h
                    split at h
                    · exact hs _ _ _ hq0 h
                    · split at h
                      · split at h
                        · exact hs _ _ _ hq0 h
                        · split at h
                          · have := (Prod.mk.inj (Option.some.inj h)).2
                            rw [← this]; exact hqu _ _ _
                          · exact hs _ _ _ (hqu _ _ _) h
                      · exact hs _ _ _ hq0 h

theorem handleCmd_DESCRIBE_quiet (env : Env) (srv : Server) (x : External)
    (s : RTSPClientSession) (cseq urlSuffix mem : List Nat) (s1 : RTSPClientSession)
    (h : handleCmd_DESCRIBE env srv x s cseq urlSuffix mem = some s1) : Quiet s s1 := by
  unfold handleCmd_DESCRIBE at h
  cases ha : authenticationOK env srv x s (bytes "DESCRIBE") cseq mem with
  | none => simp [ha] at h
  | some r =>
    obtain ⟨b, s0⟩ := r
    have hq := (authenticationOK_quiet env srv x s _ cseq mem b s0 ha).1
    simp only [ha] at h
    have step : ∀ (evs : List Event) (t : RTSPClientSession), some t = some s1 →
        t.fStreamStates = s0.fStreamStates →
        t.fOurServerMediaSession = s0.fOurServerMediaSession →
        t.fOurSessionId = s0.fOurSessionId → t.log = s0.log ++ evs →
        deleteStreamCalls evs = 0 → statesAllocated evs = 0 → Quiet s s1 := by
      intro evs t h7 h1 h2 h3 h4 h5 h6
      rw [← Option.some.inj h7]
      exact hq.trans ⟨h1, h2, h3, evs, h4, h5, h6⟩
    cases b with
    | false =>
      simp only at h
      rw [← Option.some.inj h]; exact hq
    | true =>
      simp only at h
      cases hl : Lookup srv.fServerMediaSessions urlSuffix with
      | none =>
        simp only [hl] at h
        exact step [Event.lookup urlSuffix] _ h rfl rfl rfl rfl rfl rfl
      | some session =>
        simp only [hl] at h
        cases hsdp : session.sdpDescription with
        | none =>
          simp only [hsdp] at h
          exact step [Event.lookup urlSuffix, Event.generateSDPDescription session.ident] _ h
            rfl rfl rfl (by simp) rfl rfl
        | some sdp =>
          simp only [hsdp] at h
          split at h
          · exact step [Event.lookup urlSuffix, Event.generateSDPDescription session.ident] _ h
              rfl rfl rfl (by simp) rfl rfl
          · exact step [Event.lookup urlSuffix, Event.generateSDPDescription session.ident] _ h
              rfl rfl rfl (by simp) rfl rfl

theorem streamCalls_counts (mk : Nat → Nat → Option Nat → Event)
    (hmk : ∀ a b c, deleteStreamCalls [mk a b c] = 0 ∧ statesAllocated [mk a b c] = 0)
    (id : Nat) (subsession : Option ServerMediaSubsession) :
    ∀ (l : List StreamState) (evs : List Event), streamCalls mk id subsession l = some evs →
      deleteStreamCalls evs = 0 ∧ statesAllocated evs = 0 := by
  intro l
  induction l with
  | nil =>
    intro evs h
    simp [streamCalls] at h
    subst h
    exact ⟨rfl, rfl⟩
  | cons st rest ih =>
    intro evs h
    unfold streamCalls at h
    split at h
    · cases hs : st.subsession with
      | none => simp [hs] at h
      | some sub =>
        simp only [hs, Option.map_eq_some'] at h
        obtain ⟨evs0, h0, h1⟩ := h
        have := ih evs0 h0
        have hm := hmk sub.ident id st.streamToken
        rw [← h1]
        have e : mk sub.ident id st.streamToken :: evs0
            = [mk sub.ident id st.streamToken] ++ evs0 := rfl
        rw [e, deleteStreamCalls_append, statesAllocated_append, hm.1, hm.2, this.1, this.2]
        exact ⟨rfl, rfl⟩
    · exact ih evs h

theorem withinSessionCmd_quiet (s : RTSPClientSession) (cmdName : List Nat)
    (subsession : Option ServerMediaSubsession) (cseq : List Nat) (s1 : RTSPClientSession)
    (h : withinSessionCmd s cmdName subsession cseq = some s1) : Quiet s s1 := by
  unfold withinSessionCmd at h
  split at h
  · rw [← Option.some.inj h]; exact Quiet.of_fields rfl rfl rfl rfl
  · split at h
    · unfold handleCmd_PLAY at h
      simp only [Option.map_eq_some'] at h
      obtain ⟨evs, h0, h1⟩ := h
      have := streamCalls_counts Event.startStream (fun _ _ _ => ⟨rfl, rfl⟩) _ _ _ _ h0
      rw [← h1]
      exact ⟨rfl, rfl, rfl, evs, rfl, this.1, this.2⟩
    · split at h
      · unfold handleCmd_PAUSE at h
        simp only [Option.map_eq_some'] at h
        obtain ⟨evs, h0, h1⟩ := h
        have := streamCalls_counts Event.pauseStream (fun _ _ _ => ⟨rfl, rfl⟩) _ _ _ _ h0
        rw [← h1]
        exact ⟨rfl, rfl, rfl, evs, rfl, this.1, this.2⟩
      · rw [← Option.some.inj h]; exact Quiet.refl s

theorem handleCmd_withinSession_quiet (s : RTSPClientSession)
    (cmdName urlPreSuffix urlSuffix cseq : List Nat) (s1 : RTSPClientSession)
    (h : handleCmd_withinSession s cmdName urlPreSuffix urlSuffix cseq = some s1) :
    Quiet s s1 := by
  unfold handleCmd_withinSession at h
  cases hm : s.fOurServerMediaSession with
  | none =>
    simp only [hm] at h
    rw [← Option.some.inj h]; exact Quiet.of_fields rfl rfl rfl rfl
  | some ms =>
    simp only [hm] at h
    split at h
    · split at h
      · rw [← Option.some.inj h]; exact Quiet.of_fields rfl rfl rfl rfl
      · exact withinSessionCmd_quiet _ _ _ _ _ h
    · split at h
      · exact withinSessionCmd_quiet _ _ _ _ _ h
      · rw [← Option.some.inj h]; exact Quiet.of_fields rfl rfl rfl rfl

theorem setToken_subsession (l : List StreamState) (n : Nat) (tok : Option Nat) :
    (setToken l n tok).map (fun st => st.subsession) = l.map (fun st => st.subsession) := by
  induction l generalizing n with
  | nil => simp [setToken]
  | cons st rest ih =>
    cases n with
    | zero => simp [setToken]
    | succ n => simp [setToken, ih]

theorem liveStates_eq_map (l : List StreamState) :
    liveStates l = (l.map (fun st => st.subsession)).countP (fun o => o.isSome) := by
  simp [liveStates, List.countP_map, Function.comp_def]

theorem liveStates_setToken (l : List StreamState) (n : Nat) (tok : Option Nat) :
    liveStates (setToken l n tok) = liveStates l := by
  rw [liveStates_eq_map, liveStates_eq_map, setToken_subsession]

theorem liveStates_fresh (subs : List ServerMediaSubsession) :
    liveStates (subs.map (fun sub => (⟨some sub, none⟩ : StreamState))) = subs.length := by
  induction subs with
  | nil => simp [liveStates]
  | cons a l ih =>
    simp only [liveStates] at ih ⊢
    simp [ih]

theorem bindSession_inv (srv : Server) (s : RTSPClientSession) (pre : List Nat)
    (hi : SessionInv s) : SessionInv (bindSession srv s pre).1 := by
  unfold bindSession
  by_cases hsb : stillBound s pre = true
  · rw [if_pos hsb]; exact hi
  · rw [if_neg hsb]
    cases hl : Lookup srv.fServerMediaSessions pre with
    | none =>
      refine ⟨?_, ?_⟩
      · simp only [deleteStreamCalls_append, statesAllocated_append]
        have := hi.1
        simp [deleteStreamCalls, statesAllocated] at this ⊢
        exact this
      · intro ms hms; simp at hms
    | some ms =>
      refine ⟨?_, ?_⟩
      · simp only [deleteStreamCalls_append, statesAllocated_append, liveStates_fresh,
          (reclaimEvents_counts _ _).1, (reclaimEvents_counts _ _).2]
        have := hi.1
        simp [deleteStreamCalls, statesAllocated] at this ⊢
        omega
      · intro mt hmt
        simp only [Option.some.injEq] at hmt
        subst hmt
        simp [Function.comp_def]

theorem handleCmd_SETUP_inv (env : Env) (srv : Server) (x : External) (s : RTSPClientSession)
    (cseq pre suf mem : List Nat) (hi : SessionInv s) :
    SessionInv (handleCmd_SETUP env srv x s cseq pre suf mem) := by
  have hb := bindSession_inv srv s pre hi
  unfold handleCmd_SETUP
  rcases hbs : bindSession srv s pre with ⟨s1, ok⟩
  rw [hbs] at hb
  simp only at hb
  cases ok with
  | false => exact (Quiet.of_fields rfl rfl rfl rfl : Quiet s1 (handleCmd_notFound s1 cseq)).preserves hb
  | true =>
    simp only
    cases hf : findStreamNum suf s1.fStreamStates 0 with
    | none =>
      exact (Quiet.of_fields rfl rfl rfl rfl : Quiet s1 (handleCmd_notFound s1 cseq)).preserves hb
    | some r =>
      obtain ⟨streamNum, sub⟩ := r
      simp only
      have h2 : SessionInv { s1 with
          log := s1.log ++ [Event.getStreamParameters
            (streamParametersCall env s1 x (parseTransportHeader mem) sub)],
          fStreamStates := setToken s1.fStreamStates streamNum x.streamToken } := by
        refine ⟨?_, ?_⟩
        · simp only [deleteStreamCalls_append, statesAllocated_append, liveStates_setToken]
          have := hb.1
          simp [deleteStreamCalls, statesAllocated] at this ⊢
          exact this
        · intro ms hms
          simp only [setToken_subsession]
          exact hb.2 ms hms
      split
      · split
        · exact (Quiet.of_fields rfl rfl rfl rfl :
            Quiet _ (handleCmd_unsupportedTransport _ cseq)).preserves h2
        · exact (Quiet.of_fields rfl rfl rfl rfl : Quiet _ _).preserves h2
      · split
        · exact (Quiet.of_fields rfl rfl rfl rfl : Quiet _ _).preserves h2
        · exact (Quiet.of_fields rfl rfl rfl rfl : Quiet _ _).preserves h2

theorem handleRequest_inv (env : Env) (srv : Server) (x : External) (s s1 : RTSPClientSession)
    (mem : List Nat) (totalBytes : Nat)
    (h : handleRequest env srv x s mem totalBytes = some s1) (hi : SessionInv s) :
    SessionInv s1 := by
  unfold handleRequest at h
  cases hp : parseRequestString mem totalBytes PARAM_STRING_MAX PARAM_STRING_MAX
      PARAM_STRING_MAX PARAM_STRING_MAX with
  | none => simp [hp] at h
  | some r =>
    simp only [hp] at h
    split at h
    · rw [← Option.some.inj h]
      exact (Quiet.of_fields rfl rfl rfl rfl : Quiet s (handleCmd_bad s)).preserves hi
    · split at h
      · rw [← Option.some.inj h]
        exact (Quiet.of_fields rfl rfl rfl rfl : Quiet s (handleCmd_OPTIONS s _)).preserves hi
      · split at h
        · exact (handleCmd_DESCRIBE_quiet _ _ _ _ _ _ _ _ h).preserves hi
        · split at h
          · rw [← Option.some.inj h]
            exact handleCmd_SETUP_inv _ _ _ _ _ _ _ _ hi
          · split at h
            · exact (handleCmd_withinSession_quiet _ _ _ _ _ _ h).preserves hi
            · rw [← Option.some.inj h]
              exact (Quiet.of_fields rfl rfl rfl rfl :
                Quiet s (handleCmd_notSupported s _)).preserves hi

theorem SessionInv_new (sessionId : Nat) (clientSocket : Int) (clientAddr : Nat) :
    SessionInv (RTSPClientSession.new sessionId clientSocket clientAddr) := by
  refine ⟨rfl, ?_⟩
  intro ms hms
  simp [RTSPClientSession.new] at hms

theorem Reachable.invariant {env : Env} {srv : Server} {s : RTSPClientSession}
    (h : Reachable env srv s) : SessionInv s := by
  induction h with
  | new a b c => exact SessionInv_new a b c
  | step s s1 r _ _ hr ih => exact handleRequest_inv _ _ _ _ _ _ _ hr ih

theorem setToken_getElem (l : List StreamState) (n : Nat) (tok : Option Nat) (i : Nat) :
    (setToken l n tok)[i]?
      = if i = n then (l[n]?).map (fun st => { st with streamToken := tok }) else l[i]? := by
  induction l generalizing n i with
  | nil => simp [setToken]
  | cons st rest ih =>
    cases n with
    | zero =>
      cases i with
      | zero => simp [setToken]
      | succ i => simp [setToken]
    | succ n =>
      cases i with
      | zero => simp [setToken]
      | succ i => simp [setToken, ih]

theorem findStreamNum_spec (suf : List Nat) :
    ∀ (l : List StreamState) (i n : Nat) (sub : ServerMediaSubsession),
      findStreamNum suf l i = some (n, sub) →
      i ≤ n ∧ ∃ st, l[n - i]? = some st ∧ st.subsession = some sub ∧ suf = cstr sub.trackId := by
  intro l
  induction l with
  | nil => intro i n sub h; simp [findStreamNum] at h
  | cons st rest ih =>
    intro i n sub h
    unfold findStreamNum at h
    cases hs : st.subsession with
    | none =>
      simp only [hs] at h
      obtain ⟨h1, st', h2, h3, h4⟩ := ih (i + 1) n sub h
      refine ⟨by omega, st', ?_, h3, h4⟩
      have e : n - i = (n - (i + 1)) + 1 := by omega
      rw [e]; simpa using h2
    | some sub0 =>
      simp only [hs] at h
      split at h
      · simp only [Option.some.injEq, Prod.mk.injEq] at h
        obtain ⟨h1, h2⟩ := h
        subst h1 h2
        exact ⟨le_refl _, st, by simp, hs, by assumption⟩
      · obtain ⟨h1, st', h2, h3, h4⟩ := ih (i + 1) n sub h
        refine ⟨by omega, st', ?_, h3, h4⟩
        have e : n - i = (n - (i + 1)) + 1 := by omega
        rw [e]; simpa using h2

/-- C8. When `handleCmd_SETUP` binds a media session (none was bound, or
the stream name of the bound one differs from `urlPreSuffix`) and the
registry holds a session `ms` of that name: `deleteStream` is called for
the stream states held before, and the new list has one entry per
subsession of `ms`, in order, with a `NULL` token; when the handler returns
`ms` is bound, and if the track `urlSuffix` exists its entry holds the
token returned by `getStreamParameters` while every other entry holds
`NULL` (all entries hold `NULL` if the track does not exist).  In every
state a session goes through with a media session bound, the subsessions of
its stream states are the subsessions of that media session, in order. -/
theorem handleCmd_SETUP_binding (env : Env) (srv : Server) (x : External)
    (s : RTSPClientSession) (cseq urlPreSuffix urlSuffix mem : List Nat)
    (ms : ServerMediaSession)
    (hb : s.fOurServerMediaSession = none
      ∨ ∃ ms0, s.fOurServerMediaSession = some ms0 ∧ urlPreSuffix ≠ cstr ms0.streamName)
    (hl : Lookup srv.fServerMediaSessions urlPreSuffix = some ms) :
    ((bindSession srv s urlPreSuffix).1.fStreamStates
        = ms.subsessions.map (fun sub => ⟨some sub, none⟩)
      ∧ (bindSession srv s urlPreSuffix).1.log
        = s.log ++ [Event.lookup urlPreSuffix] ++ reclaimEvents s.fOurSessionId s.fStreamStates
          ++ [Event.newStreamStates ms.subsessions.length])
    ∧ (handleCmd_SETUP env srv x s cseq urlPreSuffix urlSuffix mem).fOurServerMediaSession
        = some ms
    ∧ (∀ n sub,
        findStreamNum urlSuffix (ms.subsessions.map (fun sub => ⟨some sub, none⟩)) 0
          = some (n, sub) →
        ∀ i, (handleCmd_SETUP env srv x s cseq urlPreSuffix urlSuffix mem).fStreamStates[i]?
          = if i = n then some ⟨some sub, x.streamToken⟩
            else (ms.subsessions.map (fun sub => (⟨some sub, none⟩ : StreamState)))[i]?)
    ∧ (findStreamNum urlSuffix (ms.subsessions.map (fun sub => ⟨some sub, none⟩)) 0 = none →
        (handleCmd_SETUP env srv x s cseq urlPreSuffix urlSuffix mem).fStreamStates
          = ms.subsessions.map (fun sub => ⟨some sub, none⟩))
    ∧ (∀ t mt, Reachable env srv t → t.fOurServerMediaSession = some mt →
        t.fStreamStates.map (fun st => st.subsession) = mt.subsessions.map some) := by
  have hsb : ¬ (stillBound s urlPreSuffix = true) := by
    unfold stillBound
    rcases hb with h | ⟨ms0, h1, h2⟩
    · simp [h]
    · simp [h1, h2]
  have hbind : bindSession srv s urlPreSuffix
      = ({ s with
          fOurServerMediaSession := some ms,
          fStreamStates := ms.subsessions.map (fun sub => ⟨some sub, none⟩),
          log := s.log ++ [Event.lookup urlPreSuffix]
            ++ reclaimEvents s.fOurSessionId s.fStreamStates
            ++ [Event.newStreamStates ms.subsessions.length] }, true) := by
    unfold bindSession
    rw [if_neg hsb]
    simp only [hl]
  refine ⟨⟨by rw [hbind], by rw [hbind]⟩, ?_, ?_, ?_, ?_⟩
  · unfold handleCmd_SETUP
    rw [hbind]
    simp only
    cases hf : findStreamNum urlSuffix (ms.subsessions.map (fun sub => ⟨some sub, none⟩)) 0 with
    | none => rfl
    | some r =>
      obtain ⟨n, sub⟩ := r
      simp only
      split
      · split <;> rfl
      · split <;> rfl
  · intro n sub hf i
    have hspec := findStreamNum_spec urlSuffix _ 0 n sub hf
    obtain ⟨_, st, hst, hsub, _⟩ := hspec
    have hstate : (handleCmd_SETUP env srv x s cseq urlPreSuffix urlSuffix mem).fStreamStates
        = setToken (ms.subsessions.map (fun sub => ⟨some sub, none⟩)) n x.streamToken := by
      unfold handleCmd_SETUP
      rw [hbind]
      simp only [hf]
      split
      · split <;> rfl
      · split <;> rfl
    rw [hstate, setToken_getElem]
    by_cases hin : i = n
    · simp only [hin, if_true]
      simp only [Nat.sub_zero] at hst
      rw [hst]
      simp only [Option.map_some', Option.some.injEq]
      rw [List.getElem?_map] at hst
      cases hg : ms.subsessions[n]? with
      | none => simp [hg] at hst
      | some sub' =>
        simp only [hg, Option.map_some', Option.some.injEq] at hst
        rw [← hst] at hsub ⊢
        simp only [Option.some.injEq] at hsub
        rw [hsub]
    · simp only [hin, if_false]
  · intro hf
    unfold handleCmd_SETUP
    rw [hbind]
    simp only [hf]
    rfl
  · intro t mt ht hmt
    exact ht.invariant.2 mt hmt

/-! ## The fields of the `Transport` header -/

theorem bytes_transport :
    bytes "Transport: " = [84, 114, 97, 110, 115, 112, 111, 114, 116, 58, 32] := by decide

theorem bytes_tcp : bytes "RTP/AVP/TCP" = [82, 84, 80, 47, 65, 86, 80, 47, 84, 67, 80] := by
  decide

theorem cstr_append (A B : List Nat) (hA : ∀ c ∈ A, c ≠ 0) : cstr (A ++ B) = A ++ cstr B := by
  induction A with
  | nil => rfl
  | cons a A ih =>
    have ha : a ≠ 0 := hA a (List.mem_cons_self _ _)
    have := ih (fun c hc => hA c (List.mem_cons_of_mem _ hc))
    have hb : (a != 0) = true := by simp [ha]
    simp only [cstr] at this ⊢
    rw [List.cons_append, List.takeWhile_cons, hb, this]
    rfl

theorem cstr_mem (l : List Nat) (c : Nat) (h : c ∈ cstr l) : c ∈ l :=
  (List.takeWhile_sublist _).subset h

theorem findHeader_skip (pat pre s : List Nat)
    (h : ∀ i, i < pre.length → strncasecmpEq ((pre ++ s).drop i) pat = false) :
    findHeader pat (pre ++ s) = findHeader pat s := by
  induction pre with
  | nil => rfl
  | cons c p ih =>
    have h0 := h 0 (by simp)
    simp only [List.drop_zero, List.cons_append] at h0
    rw [List.cons_append, findHeader, h0]
    simp only [Bool.false_eq_true, if_false]
    exact ih (fun i hi => by simpa using h (i + 1) (by simpa using hi))

/-- The test `_strncasecmp(.., pat, n)` looks at `n` bytes only. -/
theorem strncasecmpEq_append (A B pat : List Nat) (h : pat.length ≤ A.length) :
    strncasecmpEq (A ++ B) pat = strncasecmpEq A pat := by
  unfold strncasecmpEq
  rw [List.take_append_of_le_length h]

/-- The header search passes over a text in which the header name does not
start. -/
theorem findHeader_after (pat pre rest : List Nat)
    (h : ∀ i, i < pre.length → strncasecmpEq ((pre ++ pat).drop i) pat = false) :
    findHeader pat (pre ++ (pat ++ rest)) = findHeader pat (pat ++ rest) := by
  apply findHeader_skip
  intro i hi
  have e : (pre ++ (pat ++ rest)).drop i = (pre ++ pat).drop i ++ rest := by
    rw [← List.append_assoc, List.drop_append_of_le_length (by simp; omega)]
  rw [e, strncasecmpEq_append _ _ _ (by simp; omega)]
  exact h i hi

theorem findHeader_here (pat rest : List Nat) (hp : pat ≠ []) :
    findHeader pat (pat ++ rest) = some rest := by
  cases pat with
  | nil => exact absurd rfl hp
  | cons c p =>
    rw [List.cons_append, findHeader]
    have : strncasecmpEq (c :: (p ++ rest)) (c :: p) = true := by
      rw [← List.cons_append, strncasecmpEq_append _ _ _ (le_refl _)]
      simp [strncasecmpEq]
    rw [this]
    simp

theorem bytes_destination :
    bytes "destination=" = [100, 101, 115, 116, 105, 110, 97, 116, 105, 111, 110, 61] := by
  decide

theorem bytes_ttl : bytes "ttl" = [116, 116, 108] := by decide

theorem bytes_client_port :
    bytes "client_port=" = [99, 108, 105, 101, 110, 116, 95, 112, 111, 114, 116, 61] := by
  decide

theorem bytes_interleaved :
    bytes "interleaved=" = [105, 110, 116, 101, 114, 108, 101, 97, 118, 101, 100, 61] := by
  decide

theorem scanLiteral_head (a b : Nat) (lit s : List Nat) (h : a ≠ b) :
    scanLiteral (a :: lit) (b :: s) = none := by
  simp [scanLiteral, List.isPrefixOf, h]

/-- A field `RTP/AVP/TCP` that runs on with a CR is none of the fields the
`if` chain knows. -/
theorem transportField_tcp_cr (p : TransportParams) (tail : List Nat) :
    transportField p (bytes "RTP/AVP/TCP" ++ 13 :: tail) = p := by
  have h1 : scanLiteral (bytes "ttl") (bytes "RTP/AVP/TCP" ++ 13 :: tail) = none := by
    rw [bytes_ttl, bytes_tcp]; exact scanLiteral_head _ _ _ _ (by decide)
  have h2 : scanLiteral (bytes "client_port=") (bytes "RTP/AVP/TCP" ++ 13 :: tail) = none := by
    rw [bytes_client_port, bytes_tcp]; exact scanLiteral_head _ _ _ _ (by decide)
  have h3 : scanLiteral (bytes "interleaved=") (bytes "RTP/AVP/TCP" ++ 13 :: tail) = none := by
    rw [bytes_interleaved, bytes_tcp]; exact scanLiteral_head _ _ _ _ (by decide)
  have h4 : strncasecmpEq (bytes "RTP/AVP/TCP" ++ 13 :: tail) (bytes "destination=") = false := by
    rw [bytes_destination, bytes_tcp]
    simp [strncasecmpEq, toLowerC]
  have h5 : bytes "RTP/AVP/TCP" ++ 13 :: tail ≠ bytes "RTP/AVP/TCP" := by
    intro h
    have := congrArg List.length h
    simp at this
  simp only [transportField, scanTTL, scanPair, h1, h2, h3, h4, h5, if_false,
    Bool.false_eq_true]

/-- The last pass of the loop: the text left has no `;`. -/
theorem transportFields_last (n : Nat) (p : TransportParams) (f : List Nat) (hf : f ≠ [])
    (h59 : ∀ c ∈ f, c ≠ 59) : transportFields (n + 1) p f = transportField p f := by
  have e : f.takeWhile (fun c => c != 59) = f := by
    rw [List.takeWhile_eq_self_iff]
    intro c hc
    simpa using h59 c hc
  simp only [transportFields, e, hf, if_false, List.drop_length, List.dropWhile_nil]

/-- A pass of the loop over a field that is followed by `;` and another
field. -/
theorem transportFields_next (n : Nat) (p : TransportParams) (f rest : List Nat) (c : Nat)
    (hf : f ≠ []) (h59 : ∀ x ∈ f, x ≠ 59) (hc : c ≠ 59 ∧ c ≠ 13 ∧ c ≠ 10) :
    transportFields (n + 1) p (f ++ 59 :: c :: rest)
      = transportFields n (transportField p f) (c :: rest) := by
  have e : (f ++ 59 :: c :: rest).takeWhile (fun c => c != 59) = f := by
    rw [List.takeWhile_append_of_pos (by intro x hx; simpa using h59 x hx)]
    simp
  have hc1 : (c == 59) = false := by simpa using hc.1
  simp only [transportFields, e, hf, if_false, List.drop_left, List.dropWhile_cons, hc1,
    beq_self_eq_true, if_true, hc.2.1, hc.2.2, or_self, Bool.false_eq_true]

theorem bytes_transport_tcp :
    bytes "Transport: RTP/AVP/TCP\r\n"
      = bytes "Transport: " ++ (bytes "RTP/AVP/TCP" ++ [13, 10]) := by decide

theorem bytes_transport_unicast_tcp :
    bytes "Transport: unicast;RTP/AVP/TCP\r\n"
      = bytes "Transport: " ++ (bytes "unicast" ++ 59 :: (bytes "RTP/AVP/TCP" ++ [13, 10])) := by
  decide

/-- The fields the loop of `parseTransportHeader` runs over, for a request
whose first `Transport: ` header has the value `v` and goes on with
`rest`. -/
theorem parseTransportHeader_fields (pre v rest : List Nat) (h0 : ∀ c ∈ pre, c ≠ 0)
    (hpre : ∀ i, i < pre.length →
      strncasecmpEq ((pre ++ bytes "Transport: ").drop i) (bytes "Transport: ") = false)
    (hv : ∀ c ∈ v, c ≠ 0) :
    parseTransportHeader (pre ++ (bytes "Transport: " ++ (v ++ rest)))
      = transportFields (v ++ cstr rest).length TransportParams.default (v ++ cstr rest) := by
  have hT : ∀ c ∈ bytes "Transport: ", c ≠ 0 := by decide
  rw [parseTransportHeader, cstr_append _ _ h0, cstr_append _ _ hT, cstr_append _ _ hv,
    findHeader_after _ _ _ hpre, findHeader_here _ _ (by decide)]

/-- C11, the failing runs.  When `RTP/AVP/TCP` is the last field of the
`Transport` line, the field that `%[^;]` reads runs on over the CR LF into
the following text, so `strcmp` does not find `RTP/AVP/TCP` and TCP
interleaving is not marked as requested.  Here the line is the first
`Transport: ` header of the request (`pre` holds no NUL and no earlier header
name) and no `;` follows in the request; all seven results then keep their
defaults, for `Transport: RTP/AVP/TCP` and for
`Transport: unicast;RTP/AVP/TCP`. -/
theorem parseTransportHeader_last_field (pre rest : List Nat) (h0 : ∀ c ∈ pre, c ≠ 0)
    (hpre : ∀ i, i < pre.length →
      strncasecmpEq ((pre ++ bytes "Transport: ").drop i) (bytes "Transport: ") = false)
    (hrest : ∀ c ∈ rest, c ≠ 59) :
    (parseTransportHeader (pre ++ (bytes "Transport: RTP/AVP/TCP\r\n" ++ rest))
        = TransportParams.default
      ∧ parseTransportHeader (pre ++ (bytes "Transport: unicast;RTP/AVP/TCP\r\n" ++ rest))
        = TransportParams.default)
    ∧ TransportParams.default.tcpStreamingRequested = false := by
  have hT : ∀ c ∈ bytes "Transport: ", c ≠ 0 := by decide
  have hV : ∀ c ∈ bytes "RTP/AVP/TCP" ++ [13, 10], c ≠ 0 := by decide
  have hU : ∀ c ∈ bytes "unicast" ++ 59 :: (bytes "RTP/AVP/TCP" ++ [13, 10]), c ≠ 0 := by decide
  have hr : ∀ c ∈ cstr rest, c ≠ 59 := fun c hc => hrest c (cstr_mem _ _ hc)
  have hlast : ∀ (n : Nat) (p : TransportParams),
      transportFields (n + 1) p (bytes "RTP/AVP/TCP" ++ 13 :: 10 :: cstr rest) = p := by
    intro n p
    rw [transportFields_last _ _ _ (by rw [bytes_tcp]; simp), transportField_tcp_cr]
    intro c hc
    rw [List.mem_append] at hc
    rcases hc with hc | hc
    · revert c; decide
    · simp only [List.mem_cons] at hc
      rcases hc with rfl | rfl | hc
      · decide
      · decide
      · exact hr c hc
  refine ⟨⟨?_, ?_⟩, rfl⟩
  · rw [bytes_transport_tcp, List.append_assoc,
      parseTransportHeader_fields _ _ _ h0 hpre hV]
    simp only [List.append_assoc, List.cons_append, List.nil_append]
    rw [show (bytes "RTP/AVP/TCP" ++ 13 :: 10 :: cstr rest).length
      = (12 + (cstr rest).length) + 1 by rw [bytes_tcp]; simp; omega]
    exact hlast _ _
  · rw [bytes_transport_unicast_tcp, List.append_assoc,
      parseTransportHeader_fields _ _ _ h0 hpre hU]
    simp only [List.append_assoc, List.cons_append, List.nil_append]
    rw [show (bytes "unicast" ++ 59 :: (bytes "RTP/AVP/TCP" ++ 13 :: 10 :: cstr rest)).length
      = (19 + (cstr rest).length + 1) + 1 by rw [bytes_tcp]; simp [bytes]; omega]
    have e : bytes "RTP/AVP/TCP" ++ 13 :: 10 :: cstr rest
        = 82 :: ([84, 80, 47, 65, 86, 80, 47, 84, 67, 80] ++ 13 :: 10 :: cstr rest) := by
      rw [bytes_tcp]; rfl
    rw [e, transportFields_next _ _ _ _ _ (by decide) (by decide) (by decide), ← e, hlast]
    decide
set_option maxRecDepth 100000 in
/-- C12, the failing pair.  Two requests have the same first `Transport`
line, `Transport: RTP/AVP;unicast;client_port=6000-6001`, after the same
head `pre` (which holds no NUL and no earlier header name); the first one
ends after the line, the second one goes on with the header line
`X: a;RTP/AVP/TCP;client_port=1-2`.  The field read after `unicast` runs
over the CR LF up to the `;` of the later line, and the loop goes on with
the fields of that line: the first request leaves TCP unrequested and the
ports 6000 and 6001, the second one requests TCP and has the ports 1 and
2. -/
theorem parseTransportHeader_later_lines (pre : List Nat) (h0 : ∀ c ∈ pre, c ≠ 0)
    (hpre : ∀ i, i < pre.length →
      strncasecmpEq ((pre ++ bytes "Transport: ").drop i) (bytes "Transport: ") = false) :
    parseTransportHeader (pre ++ (bytes "Transport: "
        ++ (bytes "RTP/AVP;unicast;client_port=6000-6001\r\n" ++ (bytes "\r\n" ++ [0]))))
      = ⟨false, none, 255, 6000, 6001, 255, 255⟩
    ∧ parseTransportHeader (pre ++ (bytes "Transport: "
        ++ (bytes "RTP/AVP;unicast;client_port=6000-6001\r\n"
          ++ (bytes "X: a;RTP/AVP/TCP;client_port=1-2\r\n\r\n" ++ [0]))))
      = ⟨true, none, 255, 1, 2, 255, 255⟩ := by
  constructor
  · rw [parseTransportHeader_fields _ _ _ h0 hpre (by decide)]
    decide
  · rw [parseTransportHeader_fields _ _ _ h0 hpre (by decide)]
    decide

/-! ## The commands within a session -/

/-- C13.  `handleCmd_withinSession` acts as the classification of the
specification says: with no media session bound it answers
`405 Method Not Allowed`; for a non-aggregated operation it runs the
command for the subsession found, for an aggregated operation it runs the
command for all subsessions (the subsession argument is `NULL`), and in the
remaining cases it answers `404`. -/
theorem handleCmd_withinSession_classification (s : RTSPClientSession)
    (cmdName urlPreSuffix urlSuffix cseq : List Nat) :
    handleCmd_withinSession s cmdName urlPreSuffix urlSuffix cseq
      = (match classifySpec s.fOurServerMediaSession urlPreSuffix urlSuffix with
        | Classification.methodNotAllowed => some (handleCmd_notSupported s cseq)
        | Classification.notFound => some (handleCmd_notFound s cseq)
        | Classification.nonAggregated sub => withinSessionCmd s cmdName (some sub) cseq
        | Classification.aggregated => withinSessionCmd s cmdName none cseq)
    ∧ (handleCmd_notSupported s cseq).fBuffer
      = bytes "RTSP/1.0 405 Method Not Allowed\r\nCSeq: " ++ cseq
        ++ bytes "\r\nAllow: OPTIONS, DESCRIBE, SETUP, TEARDOWN, PLAY, PAUSE\r\n\r\n"
    ∧ (handleCmd_notFound s cseq).fBuffer
      = bytes "RTSP/1.0 404 Stream Not Found\r\nCSeq: " ++ cseq ++ bytes "\r\n\r\n" := by
  refine ⟨?_, ?_, rfl⟩
  · unfold handleCmd_withinSession classifySpec
    cases hms : s.fOurServerMediaSession with
    | none => rfl
    | some ms =>
      simp only []
      by_cases h1 : urlSuffix ≠ [] ∧ cstr ms.streamName = urlPreSuffix
      · have h1b : urlSuffix ≠ [] ∧ urlPreSuffix = cstr ms.streamName := ⟨h1.1, h1.2.symm⟩
        rw [if_pos h1, if_pos h1b]
        have e : (fun sub : ServerMediaSubsession => cstr sub.trackId == urlSuffix)
            = (fun sub => decide (cstr sub.trackId = urlSuffix)) := by
          funext sub; rw [Bool.eq_iff_iff]; simp
        rw [e]
        cases ms.subsessions.find? (fun sub => decide (cstr sub.trackId = urlSuffix)) <;> rfl
      · have h1b : ¬ (urlSuffix ≠ [] ∧ urlPreSuffix = cstr ms.streamName) :=
          fun h => h1 ⟨h.1, h.2.symm⟩
        rw [if_neg h1, if_neg h1b]
        by_cases h2 : cstr ms.streamName = urlSuffix ∨ cstr ms.streamName = urlPreSuffix
        · have h2b : urlSuffix = cstr ms.streamName
              ∨ (urlPreSuffix = cstr ms.streamName ∧ urlSuffix = []) := by
            rcases h2 with h2 | h2
            · exact Or.inl h2.symm
            · by_cases h3 : urlSuffix = []
              · exact Or.inr ⟨h2.symm, h3⟩
              · exact absurd ⟨h3, h2⟩ h1
          rw [if_pos h2, if_pos h2b]
        · have h2b : ¬ (urlSuffix = cstr ms.streamName
              ∨ (urlPreSuffix = cstr ms.streamName ∧ urlSuffix = [])) := by
            intro h
            rcases h with h | h
            · exact h2 (Or.inl h.symm)
            · exact h2 (Or.inr h.1.symm)
          rw [if_neg h2, if_neg h2b]
  · simp only [handleCmd_notSupported, allowedCommandNames]
    have : bytes "\r\nAllow: OPTIONS, DESCRIBE, SETUP, TEARDOWN, PLAY, PAUSE\r\n\r\n"
        = bytes "\r\nAllow: " ++ bytes "OPTIONS, DESCRIBE, SETUP, TEARDOWN, PLAY, PAUSE"
          ++ bytes "\r\n\r\n" := by decide
    rw [this]
    simp only [List.append_assoc]

/-- The loops of `handleCmd_PLAY` and `handleCmd_PAUSE` run to their end
when no stream state has a `NULL` subsession. -/
theorem streamCalls_total (mk : Nat → Nat → Option Nat → Event) (id : Nat)
    (subsession : Option ServerMediaSubsession) (l : List StreamState)
    (h : ∀ st ∈ l, st.subsession ≠ none) :
    ∃ evs, streamCalls mk id subsession l = some evs := by
  induction l with
  | nil => exact ⟨[], rfl⟩
  | cons st rest ih =>
    obtain ⟨evs, he⟩ := ih (fun t ht => h t (List.mem_cons_of_mem _ ht))
    have hst := h st (List.mem_cons_self _ _)
    unfold streamCalls
    split
    · cases hs : st.subsession with
      | none => exact absurd hs hst
      | some sub => exact ⟨_, by simp only [he]; rfl⟩
    · exact ⟨evs, he⟩

/-- C16, as amended.  The 200 responses of PLAY and of PAUSE carry the
header `Session: ` with the id of the client session, printed by `%d` (the
decimal id when it is below `2^31`); the 200 response of TEARDOWN is
`RTSP/1.0 200 OK`, the `CSeq` header and the empty line, without a
`Session` header.  PLAY and PAUSE give their response whenever no stream
state has a `NULL` subsession. -/
theorem handleCmd_PLAY_response (s : RTSPClientSession)
    (subsession : Option ServerMediaSubsession) (cseq : List Nat)
    (h : ∀ st ∈ s.fStreamStates, st.subsession ≠ none) :
    (∃ s1, handleCmd_PLAY s subsession cseq = some s1
      ∧ s1.fBuffer = bytes "RTSP/1.0 200 OK\r\nCSeq: " ++ cseq ++ bytes "\r\nSession: "
          ++ fmtD (toInt32 s.fOurSessionId) ++ bytes "\r\n\r\n")
    ∧ (∃ s1, handleCmd_PAUSE s subsession cseq = some s1
      ∧ s1.fBuffer = bytes "RTSP/1.0 200 OK\r\nCSeq: " ++ cseq ++ bytes "\r\nSession: "
          ++ fmtD (toInt32 s.fOurSessionId) ++ bytes "\r\n\r\n")
    ∧ (handleCmd_TEARDOWN s cseq).fBuffer
      = bytes "RTSP/1.0 200 OK\r\nCSeq: " ++ cseq ++ bytes "\r\n\r\n"
    ∧ (s.fOurSessionId < 2 ^ 31 → fmtD (toInt32 s.fOurSessionId) = decimal s.fOurSessionId) := by
  refine ⟨?_, ?_, rfl, ?_⟩
  · obtain ⟨evs, he⟩ := streamCalls_total Event.startStream s.fOurSessionId subsession _ h
    exact ⟨_, by simp only [handleCmd_PLAY, he]; rfl, rfl⟩
  · obtain ⟨evs, he⟩ := streamCalls_total Event.pauseStream s.fOurSessionId subsession _ h
    exact ⟨_, by simp only [handleCmd_PAUSE, he]; rfl, rfl⟩
  · intro hid
    have hU : U32 = 4294967296 := rfl
    have e : s.fOurSessionId % U32 = s.fOurSessionId := Nat.mod_eq_of_lt (by omega)
    have h31 : s.fOurSessionId < 2147483648 := by omega
    simp only [toInt32, e, h31, if_true, fmtD]
    have : ¬ ((s.fOurSessionId : Int) < 0) := by omega
    simp only [this, if_false, Int.toNat_ofNat]

/-! ## The responses to a parsed request -/

theorem responseHead_eq (status cseq A B rest : List Nat)
    (hA : A = bytes "RTSP/1.0 " ++ status ++ bytes "\r\nCSeq: ")
    (hB : B = bytes "\r\n" ++ rest) :
    A ++ cseq ++ B = responseHead status cseq ++ rest := by
  rw [hA, hB, responseHead]
  simp only [List.append_assoc]

theorem Answers_notFound (cseq : List Nat) (s s0 : RTSPClientSession) :
    Answers cseq s (handleCmd_notFound s0 cseq) :=
  ⟨bytes "404 Stream Not Found", bytes "\r\n",
    responseHead_eq _ _ _ _ _ (by decide) (by decide), by decide, fun _ => rfl,
    fun h => absurd h (by decide)⟩

theorem Answers_notSupported (cseq : List Nat) (s s0 : RTSPClientSession) :
    Answers cseq s (handleCmd_notSupported s0 cseq) :=
  ⟨bytes "405 Method Not Allowed", bytes "Allow: " ++ allowedCommandNames ++ bytes "\r\n\r\n",
    by
      have e := responseHead_eq (bytes "405 Method Not Allowed") cseq
        (bytes "RTSP/1.0 405 Method Not Allowed\r\nCSeq: ")
        (bytes "\r\nAllow: " ++ allowedCommandNames ++ bytes "\r\n\r\n")
        (bytes "Allow: " ++ allowedCommandNames ++ bytes "\r\n\r\n") (by decide) (by decide)
      rw [← e]
      simp only [handleCmd_notSupported, List.append_assoc],
    by decide, fun _ => rfl, fun h => absurd h (by decide)⟩

theorem Answers_unsupportedTransport (cseq : List Nat) (s s0 : RTSPClientSession) :
    Answers cseq s (handleCmd_unsupportedTransport s0 cseq) :=
  ⟨bytes "461 Unsupported Transport", bytes "\r\n",
    responseHead_eq _ _ _ _ _ (by decide) (by decide), by decide, fun _ => rfl,
    fun h => absurd h (by decide)⟩

/-- A response `RTSP/1.0 200 OK`, whatever follows the `CSeq` header. -/
theorem Answers_ok (cseq : List Nat) (s s1 : RTSPClientSession)
    (h : ∃ tail,
      s1.fBuffer = bytes "RTSP/1.0 200 OK\r\nCSeq: " ++ (cseq ++ (bytes "\r\n" ++ tail))) :
    Answers cseq s s1 := by
  obtain ⟨tail, h⟩ := h
  exact ⟨bytes "200 OK", tail, by
      rw [h, ← List.append_assoc]; exact responseHead_eq _ _ _ _ _ (by decide) rfl,
    by decide, fun h => absurd h (by decide), fun h => absurd h (by decide)⟩

theorem Answers_failed (cseq : List Nat) (db : UserAuthenticationDatabase) (x : External)
    (s s0 : RTSPClientSession) (h : s0.fSessionIsActive = s.fSessionIsActive) :
    Answers cseq s (authenticationFailed db x s0 cseq) :=
  ⟨bytes "401 Unauthorized",
    bytes "WWW-Authenticate: Digest realm=\"" ++ db.fRealm ++ bytes "\", nonce=\""
      ++ x.randomNonce ++ bytes "\"\r\n\r\n",
    by
      have e := responseHead_eq (bytes "401 Unauthorized") cseq
        (bytes "RTSP/1.0 401 Unauthorized\r\nCSeq: ")
        (bytes "\r\nWWW-Authenticate: Digest realm=\"" ++ db.fRealm ++ bytes "\", nonce=\""
          ++ x.randomNonce ++ bytes "\"\r\n\r\n")
        (bytes "WWW-Authenticate: Digest realm=\"" ++ db.fRealm ++ bytes "\", nonce=\""
          ++ x.randomNonce ++ bytes "\"\r\n\r\n")
        (by decide)
        (by
          have : bytes "\r\nWWW-Authenticate: Digest realm=\""
              = bytes "\r\n" ++ bytes "WWW-Authenticate: Digest realm=\"" := by decide
          rw [this]; simp only [List.append_assoc])
      rw [← e]
      simp only [authenticationFailed, unauthorizedResponse,
        Authenticator.setRealmAndRandomNonce, Option.getD_some, List.append_assoc],
    by decide, fun h => absurd h (by decide), fun _ => h⟩

theorem Answers_DESCRIBE (env : Env) (srv : Server) (x : External) (s : RTSPClientSession)
    (cseq urlSuffix mem : List Nat) (s1 : RTSPClientSession)
    (h : handleCmd_DESCRIBE env srv x s cseq urlSuffix mem = some s1) : Answers cseq s s1 := by
  unfold handleCmd_DESCRIBE at h
  cases ha : authenticationOK env srv x s (bytes "DESCRIBE") cseq mem with
  | none => simp [ha] at h
  | some r =>
    obtain ⟨b, s0⟩ := r
    have hflag := (authenticationOK_quiet env srv x s _ cseq mem b s0 ha).2
    cases b with
    | false =>
      simp only [ha, Option.some.injEq] at h
      obtain ⟨db, t, _, ht, _, htf⟩ := authenticationOK_failed_form env srv x s _ cseq mem s0 ha
      rw [← h, ht]
      exact Answers_failed cseq db x s t htf
    | true =>
      simp only [ha] at h
      split at h
      · rw [← Option.some.inj h]; exact Answers_notFound cseq s _
      · split at h
        · rw [← Option.some.inj h]
          exact ⟨bytes "404 File Not Found, Or In Incorrect Format", bytes "\r\n",
            responseHead_eq _ _ _ _ _ (by decide) (by decide), by decide,
            fun h => absurd h (by decide), fun _ => hflag⟩
        · split at h
          · rw [← Option.some.inj h]
            exact ⟨bytes "500 Internal Server Error", bytes "\r\n",
              responseHead_eq _ _ _ _ _ (by decide) (by decide), by decide,
              fun h => absurd h (by decide), fun _ => hflag⟩
          · rw [← Option.some.inj h]
            exact Answers_ok cseq s _ ⟨_, by
              have : bytes "\r\nContent-Base: " = bytes "\r\n" ++ bytes "Content-Base: " := by
                decide
              simp only [this, List.append_assoc]
              rfl⟩

theorem Answers_SETUP (env : Env) (srv : Server) (x : External) (s : RTSPClientSession)
    (cseq urlPreSuffix urlSuffix mem : List Nat) :
    Answers cseq s (handleCmd_SETUP env srv x s cseq urlPreSuffix urlSuffix mem) := by
  unfold handleCmd_SETUP
  split
  · exact Answers_notFound cseq s _
  · split
    · exact Answers_notFound cseq s _
    · simp only []
      split
      · split
        · exact Answers_unsupportedTransport cseq s _
        · exact Answers_ok cseq s _ ⟨_, by
            have : bytes "\r\nTransport: RTP/AVP;multicast;destination="
                = bytes "\r\n" ++ bytes "Transport: RTP/AVP;multicast;destination=" := by decide
            simp only [setupResponseMulticast, this, List.append_assoc]
            rfl⟩
      · split
        · exact Answers_ok cseq s _ ⟨_, by
            have : bytes "\r\nTransport: RTP/AVP/TCP;unicast;destination="
                = bytes "\r\n" ++ bytes "Transport: RTP/AVP/TCP;unicast;destination=" := by
              decide
            simp only [setupResponseTCP, this, List.append_assoc]
            rfl⟩
        · exact Answers_ok cseq s _ ⟨_, by
            have : bytes "\r\nTransport: RTP/AVP;unicast;destination="
                = bytes "\r\n" ++ bytes "Transport: RTP/AVP;unicast;destination=" := by decide
            simp only [setupResponseUDP, this, List.append_assoc]
            rfl⟩

theorem Answers_session (cseq : List Nat) (s s1 : RTSPClientSession)
    (h : s1.fBuffer = sessionResponse s cseq) : Answers cseq s s1 := by
  exact Answers_ok cseq s _ ⟨_, by
    have : bytes "\r\nSession: " = bytes "\r\n" ++ bytes "Session: " := by decide
    rw [h]
    simp only [sessionResponse, this, List.append_assoc]
    rfl⟩

theorem Answers_withinSessionCmd (s : RTSPClientSession) (cmdName : List Nat)
    (subsession : Option ServerMediaSubsession) (cseq : List Nat) (s1 : RTSPClientSession)
    (hc : cmdName = bytes "TEARDOWN" ∨ cmdName = bytes "PLAY" ∨ cmdName = bytes "PAUSE")
    (h : withinSessionCmd s cmdName subsession cseq = some s1) : Answers cseq s s1 := by
  unfold withinSessionCmd at h
  split at h
  · rw [← Option.some.inj h]
    exact Answers_ok cseq s _ ⟨bytes "\r\n", by
      have : bytes "\r\n\r\n" = bytes "\r\n" ++ bytes "\r\n" := by decide
      simp only [handleCmd_TEARDOWN, this, List.append_assoc]⟩
  · split at h
    · unfold handleCmd_PLAY at h
      simp only [Option.map_eq_some'] at h
      obtain ⟨evs, _, h1⟩ := h
      rw [← h1]; exact Answers_session cseq s _ rfl
    · split at h
      · unfold handleCmd_PAUSE at h
        simp only [Option.map_eq_some'] at h
        obtain ⟨evs, _, h1⟩ := h
        rw [← h1]; exact Answers_session cseq s _ rfl
      · rename_i h1 h2 h3
        rcases hc with hc | hc | hc
        · exact absurd hc h1
        · exact absurd hc h2
        · exact absurd hc h3

theorem Answers_withinSession (s : RTSPClientSession)
    (cmdName urlPreSuffix urlSuffix cseq : List Nat) (s1 : RTSPClientSession)
    (hc : cmdName = bytes "TEARDOWN" ∨ cmdName = bytes "PLAY" ∨ cmdName = bytes "PAUSE")
    (h : handleCmd_withinSession s cmdName urlPreSuffix urlSuffix cseq = some s1) :
    Answers cseq s s1 := by
  unfold handleCmd_withinSession at h
  cases hm : s.fOurServerMediaSession with
  | none =>
    simp only [hm] at h
    rw [← Option.some.inj h]; exact Answers_notSupported cseq s _
  | some ms =>
    simp only [hm] at h
    split at h
    · split at h
      · rw [← Option.some.inj h]; exact Answers_notFound cseq s _
      · exact Answers_withinSessionCmd _ _ _ _ _ hc h
    · split at h
      · exact Answers_withinSessionCmd _ _ _ _ _ hc h
      · rw [← Option.some.inj h]; exact Answers_notFound cseq s _

/-- Every response to a request that `parseRequestString` accepts starts
with a status line of `statusLines` and the `CSeq` header with the parsed
value. -/
theorem handleRequest_answers (env : Env) (srv : Server) (x : External)
    (s s1 : RTSPClientSession) (mem : List Nat) (totalBytes : Nat) (r : ParseResult)
    (hp : parseRequestString mem totalBytes PARAM_STRING_MAX PARAM_STRING_MAX PARAM_STRING_MAX
      PARAM_STRING_MAX = some r)
    (hok : r.success = true)
    (h : handleRequest env srv x s mem totalBytes = some s1) :
    Answers (cstr r.resultCSeq) s s1 := by
  unfold handleRequest at h
  simp only [hp, hok, Bool.true_eq_false, if_false] at h
  split at h
  · rw [← Option.some.inj h]
    exact Answers_ok _ s _ ⟨bytes "Public: " ++ (allowedCommandNames ++ bytes "\r\n\r\n"), by
      have : bytes "\r\nPublic: " = bytes "\r\n" ++ bytes "Public: " := by decide
      simp only [handleCmd_OPTIONS, this, List.append_assoc]⟩
  · split at h
    · exact Answers_DESCRIBE _ _ _ _ _ _ _ _ h
    · split at h
      · rw [← Option.some.inj h]; exact Answers_SETUP _ _ _ _ _ _ _ _
      · split at h
        · rename_i hc
          exact Answers_withinSession _ _ _ _ _ _ hc h
        · rw [← Option.some.inj h]; exact Answers_notSupported _ s _
theorem prefix_head_ne (P H T : List Nat) (k : Nat) (hk : k ≤ H.length) (hkP : k ≤ P.length)
    (hne : P.take k ≠ H.take k) : ¬ P <+: H ++ T := by
  rintro ⟨t, ht⟩
  apply hne
  have := congrArg (List.take k) ht
  rwa [List.take_append_of_le_length hkP, List.take_append_of_le_length hk] at this

set_option maxRecDepth 100000 in
/-- C18.  When `parseRequestString` reports failure, the response is the
fixed text `RTSP/1.0 400 Bad Request`, the `Allow` header and the empty
line, whatever the request and the session; it has no `CSeq` header.  The
session is left inactive: it is destroyed once the response has been sent,
and no later request of the connection is handled. -/
theorem handleRequest_bad (env : Env) (srv : Server) (x : External) (s : RTSPClientSession)
    (mem : List Nat) (totalBytes : Nat) (r : ParseResult)
    (hp : parseRequestString mem totalBytes PARAM_STRING_MAX PARAM_STRING_MAX PARAM_STRING_MAX
      PARAM_STRING_MAX = some r)
    (hf : r.success = false) :
    ∃ s1, handleRequest env srv x s mem totalBytes = some s1
      ∧ s1.fBuffer = bytes
          "RTSP/1.0 400 Bad Request\r\nAllow: OPTIONS, DESCRIBE, SETUP, TEARDOWN, PLAY, PAUSE\r\n\r\n"
      ∧ ¬ (bytes "CSeq" <:+: s1.fBuffer)
      ∧ s1.fSessionIsActive = false
      ∧ ∀ later : List Request,
          runSession env srv (⟨mem, totalBytes, x⟩ :: later) s = some (destroy s1) := by
  have hr : handleRequest env srv x s mem totalBytes = some (handleCmd_bad s) := by
    unfold handleRequest
    simp only [hp, hf, if_true]
  have hb : (handleCmd_bad s).fBuffer = bytes
      "RTSP/1.0 400 Bad Request\r\nAllow: OPTIONS, DESCRIBE, SETUP, TEARDOWN, PLAY, PAUSE\r\n\r\n" := by
    simp only [handleCmd_bad]
    decide
  refine ⟨handleCmd_bad s, hr, hb, ?_, rfl, ?_⟩
  · rw [hb]; decide
  · intro later
    simp only [runSession, hr]
    rfl

/-- C15, as amended.  A response `404 Stream Not Found` and a response
`461 Unsupported Transport` leave the client session inactive: it is
destroyed once the response has been sent, and no later request of the
connection is handled.  The response `404 File Not Found, Or In Incorrect
Format` of DESCRIBE leaves the active flag as it was. -/
theorem handleRequest_notFound_closes (env : Env) (srv : Server) (x : External)
    (s s1 : RTSPClientSession) (mem : List Nat) (totalBytes : Nat)
    (h : handleRequest env srv x s mem totalBytes = some s1) :
    ((bytes "RTSP/1.0 404 Stream Not Found" <+: s1.fBuffer
        ∨ bytes "RTSP/1.0 461 Unsupported Transport" <+: s1.fBuffer) →
      s1.fSessionIsActive = false
      ∧ ∀ later : List Request,
          runSession env srv (⟨mem, totalBytes, x⟩ :: later) s = some (destroy s1))
    ∧ (bytes "RTSP/1.0 404 File Not Found" <+: s1.fBuffer →
      s1.fSessionIsActive = s.fSessionIsActive) := by
  have hrun : s1.fSessionIsActive = false → ∀ later : List Request,
      runSession env srv (⟨mem, totalBytes, x⟩ :: later) s = some (destroy s1) := by
    intro hf later
    simp only [runSession, h, hf, Bool.false_eq_true, if_false]
  cases hp : parseRequestString mem totalBytes PARAM_STRING_MAX PARAM_STRING_MAX
      PARAM_STRING_MAX PARAM_STRING_MAX with
  | none =>
    unfold handleRequest at h
    simp [hp] at h
  | some r =>
    cases hok : r.success with
    | false =>
      obtain ⟨t, ht, hb, _, _, _⟩ := handleRequest_bad env srv x s mem totalBytes r hp hok
      have e : t = s1 := Option.some.inj (ht.symm.trans h)
      rw [← e, hb]
      refine ⟨?_, ?_⟩
      · intro hh
        rcases hh with hh | hh
        · exact absurd hh (by decide)
        · exact absurd hh (by decide)
      · intro hh
        exact absurd hh (by decide)
    | true =>
      obtain ⟨status, rest, hb, hst, hclose, hkeep⟩ :=
        handleRequest_answers env srv x s s1 mem totalBytes r hp hok h
      have hb2 : s1.fBuffer = bytes "RTSP/1.0 " ++ status
          ++ (bytes "\r\nCSeq: " ++ cstr r.resultCSeq ++ bytes "\r\n" ++ rest) := by
        rw [hb, responseHead]; simp only [List.append_assoc]
      rw [hb2]
      simp only [statusLines, List.mem_cons, List.mem_singleton, List.not_mem_nil,
        or_false] at hst
      refine ⟨?_, ?_⟩
      · intro hh
        have hfalse : s1.fSessionIsActive = false := by
          rcases hst with e | e | e | e | e | e | e
          · subst e
            rcases hh with hh | hh
            · exact absurd hh (prefix_head_ne _ _ _ 12 (by decide) (by decide) (by decide))
            · exact absurd hh (prefix_head_ne _ _ _ 12 (by decide) (by decide) (by decide))
          · subst e
            rcases hh with hh | hh
            · exact absurd hh (prefix_head_ne _ _ _ 12 (by decide) (by decide) (by decide))
            · exact absurd hh (prefix_head_ne _ _ _ 12 (by decide) (by decide) (by decide))
          · exact hclose (by rw [e]; decide)
          · subst e
            rcases hh with hh | hh
            · exact absurd hh (prefix_head_ne _ _ _ 14 (by decide) (by decide) (by decide))
            · exact absurd hh (prefix_head_ne _ _ _ 12 (by decide) (by decide) (by decide))
          · exact hclose (by rw [e]; decide)
          · exact hclose (by rw [e]; decide)
          · subst e
            rcases hh with hh | hh
            · exact absurd hh (prefix_head_ne _ _ _ 12 (by decide) (by decide) (by decide))
            · exact absurd hh (prefix_head_ne _ _ _ 12 (by decide) (by decide) (by decide))
        exact ⟨hfalse, hrun hfalse⟩
      · intro hh
        rcases hst with e | e | e | e | e | e | e
        · subst e
          exact absurd hh (prefix_head_ne _ _ _ 12 (by decide) (by decide) (by decide))
        · exact hkeep (by rw [e]; decide)
        · subst e
          exact absurd hh (prefix_head_ne _ _ _ 14 (by decide) (by decide) (by decide))
        · exact hkeep (by rw [e]; decide)
        · subst e
          exact absurd hh (prefix_head_ne _ _ _ 12 (by decide) (by decide) (by decide))
        · subst e
          exact absurd hh (prefix_head_ne _ _ _ 12 (by decide) (by decide) (by decide))
        · exact hkeep (by rw [e]; decide)

/-! ## The response of DESCRIBE and the size of the buffer -/

/-- The loop that reads the `CSeq` value stops at a CR or LF before it has
used up its passes. -/
theorem scanCSeq_length (r : List Nat) :
    ∀ (n j : Nat) (acc cseq : List Nat),
      scanCSeq r n j acc = some (true, cseq) → cseq.length + 1 ≤ acc.length + n := by
  intro n
  induction n with
  | zero =>
    intro j acc cseq h
    simp [scanCSeq] at h
  | succ n ih =>
    intro j acc cseq h
    unfold scanCSeq at h
    cases hr : rd r j with
    | none => simp [hr] at h
    | some c =>
      simp only [hr] at h
      split at h
      · simp only [Option.some.injEq, Prod.mk.injEq, true_and] at h
        rw [← h]; omega
      · have := ih _ _ _ h
        simp only [List.length_append, List.length_singleton] at this
        omega

theorem cstr_length_le (l : List Nat) : (cstr l).length ≤ l.length :=
  (List.takeWhile_sublist _).length_le

theorem cstr_append_nul (l : List Nat) : (cstr (l ++ [0])).length ≤ l.length := by
  induction l with
  | nil => decide
  | cons a l ih =>
    simp only [cstr, List.cons_append, List.takeWhile_cons] at ih ⊢
    split
    · simp only [List.length_cons]; omega
    · simp

theorem parseCSeq_length (r : List Nat) (size i : Nat) (cseq : List Nat)
    (h : parseCSeq r size 100 i = some (true, cseq)) : (cstr cseq).length ≤ 98 := by
  unfold parseCSeq at h
  have e : sub32 100 1 = 99 := by decide
  rw [e] at h
  cases hf : findFrom r cseqPat (sub32 size 6 - i) i with
  | none => simp only [hf] at h; exact absurd h (by simp)
  | some o =>
    cases o with
    | none =>
      simp only [hf, Option.some.injEq, Prod.mk.injEq] at h
      exact absurd h.1 (by decide)
    | some j =>
      simp only [hf] at h
      have h3 : min 99 (size - add32 j 6) ≤ 99 := Nat.min_le_left _ _
      generalize min 99 (size - add32 j 6) = n at h h3
      generalize add32 j 6 = j6 at h
      cases hs : scanCSeq r n j6 [] with
      | none => simp only [hs] at h; exact absurd h (by simp)
      | some t =>
        obtain ⟨ok, c0⟩ := t
        simp only [hs, Option.some.injEq, Prod.mk.injEq] at h
        obtain ⟨h1, h2⟩ := h
        subst h1
        have h4 := scanCSeq_length _ _ _ _ _ hs
        have h5 := cstr_append_nul c0
        rw [← h2]
        simp only [List.length_nil] at h4
        omega

/-- The `CSeq` value of a request that `parseRequestString` accepts has at
most 98 bytes. -/
theorem parseRequestString_cseq_length (mem : List Nat) (totalBytes : Nat) (r : ParseResult)
    (h : parseRequestString mem totalBytes PARAM_STRING_MAX PARAM_STRING_MAX PARAM_STRING_MAX
      PARAM_STRING_MAX = some r)
    (hok : r.success = true) : (cstr r.resultCSeq).length ≤ 98 := by
  have h' : parseRequestString mem totalBytes 100 100 100 100 = some r := h
  clear h
  unfold parseRequestString at h'
  have hbad : ∀ a b c d : List Nat, some (ParseResult.mk false a b c d) = some r → False := by
    intro a b c d he
    have := Option.some.inj he
    rw [← this] at hok
    simp at hok
  split at h'
  · exact absurd h' (by simp)
  · exact (hbad _ _ _ _ h').elim
  · split at h'
    · exact absurd h' (by simp)
    · split at h'
      · exact absurd h' (by simp)
      · exact (hbad _ _ _ _ h').elim
      · split at h'
        · exact absurd h' (by simp)
        · split at h'
          · exact absurd h' (by simp)
          · split at h'
            · exact (hbad _ _ _ _ h').elim
            · split at h'
              · exact absurd h' (by simp)
              · split at h'
                · exact absurd h' (by simp)
                · split at h'
                  · exact (hbad _ _ _ _ h').elim
                  · split at h'
                    · exact absurd h' (by simp)
                    · split at h'
                      · exact absurd h' (by simp)
                      · rename_i ok cseq hcq
                        have he := Option.some.inj h'
                        rw [← he] at hok ⊢
                        simp only at hok
                        subst hok
                        exact parseCSeq_length _ _ _ _ hcq
theorem toDigitsCore_length :
    ∀ (fuel n : Nat) (ds : List Char) (k : Nat), n < 10 ^ (k + 1) →
      (Nat.toDigitsCore 10 fuel n ds).length ≤ ds.length + (k + 1) := by
  intro fuel
  induction fuel with
  | zero => intro n ds k _; simp [Nat.toDigitsCore]
  | succ fuel ih =>
    intro n ds k hn
    unfold Nat.toDigitsCore
    simp only []
    split
    · simp only [List.length_cons]; omega
    · rename_i hne
      cases k with
      | zero =>
        have : n / 10 = 0 := by
          simp only [zero_add, pow_one] at hn
          omega
        exact absurd this hne
      | succ k =>
        have h1 : n / 10 < 10 ^ (k + 1) := by
          rw [Nat.div_lt_iff_lt_mul (by decide)]
          calc n < 10 ^ (k + 1 + 1) := hn
            _ = 10 ^ (k + 1) * 10 := by rw [pow_succ]
        have := ih (n / 10) (Nat.digitChar (n % 10) :: ds) k h1
        simp only [List.length_cons] at this
        omega

/-- The conversion `%d` of a value below `10^8` gives at most 8 digits. -/
theorem decimal_length (n : Nat) (h : n < 100000000) : (decimal n).length ≤ 8 := by
  have := toDigitsCore_length (n + 1) n [] 7 (by omega)
  simpa [decimal, Nat.toDigits] using this

/-- For a session buffer of `B` bytes, `200 ≤ B ≤ 10^8`,
a `CSeq` value of at most 98 bytes, and an SDP description and a URL whose
lengths have a sum below `2^32`: a DESCRIBE that passes authentication and
finds its stream is answered either with `500 Internal Server Error`, when
the two lengths have a sum above `B - 200`, or with the 200 response, which
with its terminating NUL has at most `B` bytes; the active flag is as before
in both cases. -/
theorem handleCmd_DESCRIBE_length (env : Env) (srv : Server) (x : External)
    (s s0 : RTSPClientSession) (cseq urlSuffix mem : List Nat) (session : ServerMediaSession)
    (sdp : List Nat)
    (hB : 200 ≤ env.bufferSize) (hB2 : env.bufferSize ≤ 100000000)
    (hc : cseq.length ≤ 98)
    (ha : authenticationOK env srv x s (bytes "DESCRIBE") cseq mem = some (true, s0))
    (hl : Lookup srv.fServerMediaSessions urlSuffix = some session)
    (hsdp : session.sdpDescription = some sdp)
    (hlen : (cstr sdp).length + (rtspURL env srv session).length < U32) :
    ∃ s1, handleCmd_DESCRIBE env srv x s cseq urlSuffix mem = some s1
      ∧ s1.fSessionIsActive = s.fSessionIsActive
      ∧ ((env.bufferSize - 200 < (cstr sdp).length + (rtspURL env srv session).length
          ∧ s1.fBuffer = bytes "RTSP/1.0 500 Internal Server Error\r\nCSeq: " ++ cseq
              ++ bytes "\r\n\r\n")
        ∨ ((cstr sdp).length + (rtspURL env srv session).length ≤ env.bufferSize - 200
          ∧ s1.fBuffer = bytes "RTSP/1.0 200 OK\r\nCSeq: " ++ cseq
              ++ bytes "\r\nContent-Base: " ++ rtspURL env srv session
              ++ bytes "/\r\nContent-Type: application/sdp\r\nContent-Length: "
              ++ decimal (cstr sdp).length ++ bytes "\r\n\r\n" ++ cstr sdp
          ∧ s1.fBuffer.length + 1 ≤ env.bufferSize)) := by
  have hU : U32 = 4294967296 := rfl
  have hflag := (authenticationOK_quiet env srv x s _ cseq mem true s0 ha).2
  have e1 : (env.bufferSize + 2 ^ 64 - 200) % 2 ^ 64 = env.bufferSize - 200 := by omega
  have e2 : add32 ((cstr sdp).length % U32) ((rtspURL env srv session).length % U32)
      = (cstr sdp).length + (rtspURL env srv session).length := by
    unfold add32
    rw [Nat.mod_eq_of_lt (by omega : (cstr sdp).length < U32),
      Nat.mod_eq_of_lt (by omega : (rtspURL env srv session).length < U32),
      Nat.mod_eq_of_lt hlen]
  unfold handleCmd_DESCRIBE
  simp only [ha, hl, hsdp, e1, e2]
  by_cases hbig : env.bufferSize - 200 < (cstr sdp).length + (rtspURL env srv session).length
  · rw [if_pos hbig]
    exact ⟨_, rfl, hflag, Or.inl ⟨hbig, rfl⟩⟩
  · rw [if_neg hbig]
    have hsl : (cstr sdp).length < 100000000 := by omega
    have e3 : fmtD (toInt32 (cstr sdp).length) = decimal (cstr sdp).length := by
      have e : (cstr sdp).length % U32 = (cstr sdp).length := Nat.mod_eq_of_lt (by omega)
      have h31 : (cstr sdp).length < 2147483648 := by omega
      simp only [toInt32, e, h31, if_true, fmtD]
      have : ¬ (((cstr sdp).length : Int) < 0) := by omega
      simp only [this, if_false, Int.toNat_ofNat]
    refine ⟨_, rfl, hflag, Or.inr ⟨by omega, ?_, ?_⟩⟩
    · simp only [e3]
    · simp only [e3, List.length_append]
      have hd := decimal_length _ hsl
      have l1 : (bytes "RTSP/1.0 200 OK\r\nCSeq: ").length = 23 := by decide
      have l2 : (bytes "\r\nContent-Base: ").length = 16 := by decide
      have l3 : (bytes "/\r\nContent-Type: application/sdp\r\nContent-Length: ").length = 50 := by
        decide
      have l4 : (bytes "\r\n\r\n").length = 4 := by decide
      rw [l1, l2, l3, l4]
      omega
theorem cstr_replicate (n c : Nat) (hc : c ≠ 0) : cstr (List.replicate n c) = List.replicate n c := by
  unfold cstr
  rw [List.takeWhile_eq_self_iff]
  intro a ha
  rw [List.eq_of_mem_replicate ha]
  simpa using hc

/-- The 200 response of DESCRIBE, written when the test of line 409 lets the
SDP description pass. -/
theorem handleCmd_DESCRIBE_ok (env : Env) (srv : Server) (x : External)
    (s s0 : RTSPClientSession) (cseq urlSuffix mem : List Nat) (session : ServerMediaSession)
    (sdp : List Nat)
    (ha : authenticationOK env srv x s (bytes "DESCRIBE") cseq mem = some (true, s0))
    (hl : Lookup srv.fServerMediaSessions urlSuffix = some session)
    (hsdp : session.sdpDescription = some sdp)
    (hfit : ¬ ((env.bufferSize + 2 ^ 64 - 200) % 2 ^ 64
      < add32 ((cstr sdp).length % U32) ((rtspURL env srv session).length % U32))) :
    ∃ s1, handleCmd_DESCRIBE env srv x s cseq urlSuffix mem = some s1
      ∧ s1.fBuffer = bytes "RTSP/1.0 200 OK\r\nCSeq: " ++ cseq
          ++ bytes "\r\nContent-Base: " ++ rtspURL env srv session
          ++ bytes "/\r\nContent-Type: application/sdp\r\nContent-Length: "
          ++ fmtD (toInt32 (cstr sdp).length) ++ bytes "\r\n\r\n" ++ cstr sdp := by
  unfold handleCmd_DESCRIBE
  simp only [ha, hl, hsdp]
  rw [if_neg hfit]
  exact ⟨_, rfl, rfl⟩

/-- C14, as amended.  For a session buffer of `B` bytes, `200 ≤ B ≤ 10^8`,
and a DESCRIBE request that `parseRequestString` accepts, that passes
authentication and whose stream is found, with an SDP description and a URL
whose lengths have a sum below `2^32`: the response is either
`500 Internal Server Error`, when the two lengths have a sum above `B - 200`,
or the 200 response, which with its terminating NUL has at most `B` bytes;
the active flag is as before in both cases. -/
theorem handleRequest_DESCRIBE_fits (env : Env) (srv : Server) (x : External)
    (s s0 : RTSPClientSession) (mem : List Nat) (totalBytes : Nat) (r : ParseResult)
    (session : ServerMediaSession) (sdp : List Nat)
    (hB : 200 ≤ env.bufferSize) (hB2 : env.bufferSize ≤ 100000000)
    (hp : parseRequestString mem totalBytes PARAM_STRING_MAX PARAM_STRING_MAX PARAM_STRING_MAX
      PARAM_STRING_MAX = some r)
    (hok : r.success = true) (hcmd : cstr r.resultCmdName = bytes "DESCRIBE")
    (ha : authenticationOK env srv x s (bytes "DESCRIBE") (cstr r.resultCSeq) mem
      = some (true, s0))
    (hl : Lookup srv.fServerMediaSessions (cstr r.resultURLSuffix) = some session)
    (hsdp : session.sdpDescription = some sdp)
    (hlen : (cstr sdp).length + (rtspURL env srv session).length < U32) :
    ∃ s1, handleRequest env srv x s mem totalBytes = some s1
      ∧ s1.fSessionIsActive = s.fSessionIsActive
      ∧ ((env.bufferSize - 200 < (cstr sdp).length + (rtspURL env srv session).length
          ∧ s1.fBuffer = bytes "RTSP/1.0 500 Internal Server Error\r\nCSeq: "
              ++ cstr r.resultCSeq ++ bytes "\r\n\r\n")
        ∨ ((cstr sdp).length + (rtspURL env srv session).length ≤ env.bufferSize - 200
          ∧ s1.fBuffer = bytes "RTSP/1.0 200 OK\r\nCSeq: " ++ cstr r.resultCSeq
              ++ bytes "\r\nContent-Base: " ++ rtspURL env srv session
              ++ bytes "/\r\nContent-Type: application/sdp\r\nContent-Length: "
              ++ decimal (cstr sdp).length ++ bytes "\r\n\r\n" ++ cstr sdp
          ∧ s1.fBuffer.length + 1 ≤ env.bufferSize)) := by
  have hc := parseRequestString_cseq_length mem totalBytes r hp hok
  have h1 : handleRequest env srv x s mem totalBytes
      = handleCmd_DESCRIBE env srv x s (cstr r.resultCSeq) (cstr r.resultURLSuffix) mem := by
    unfold handleRequest
    have hne : bytes "DESCRIBE" ≠ bytes "OPTIONS" := by decide
    simp only [hp, hok, hcmd, hne, Bool.true_eq_false, if_false, if_true]
  rw [h1]
  exact handleCmd_DESCRIBE_length env srv x s s0 _ _ mem session sdp hB hB2 hc ha hl hsdp hlen

/-! ## The registry of media sessions -/

theorem Lookup_cons {α : Type} (table : List (List Nat × α)) (k key : List Nat) (v : α) :
    Lookup ((k, v) :: table) key = if k = key then some v else Lookup table key := by
  unfold Lookup
  rw [List.find?_cons]
  by_cases h : k = key
  · simp [h]
  · have : (k == key) = false := by simpa using h
    simp [this, h]

theorem Lookup_filter {α : Type} (table : List (List Nat × α)) (key other : List Nat)
    (h : other ≠ key) :
    Lookup (table.filter (fun e => !(e.1 == key))) other = Lookup table other := by
  induction table with
  | nil => rfl
  | cons e t ih =>
    obtain ⟨k, v⟩ := e
    rw [List.filter_cons]
    by_cases hk : k = key
    · have hne : k ≠ other := fun e => h (e.symm.trans hk)
      simp only [hk, beq_self_eq_true, Bool.not_true, Bool.false_eq_true, if_false]
      rw [ih, ← hk, Lookup_cons, if_neg hne]
    · have : (k == key) = false := by simpa using hk
      simp only [this, Bool.not_false, if_true]
      rw [Lookup_cons, Lookup_cons, ih]

theorem Add_entries {α : Type} (table : List (List Nat × α)) (key : List Nat) (value : α) :
    (Add table key value).1.filter (fun e => e.1 == key) = [(key, value)] := by
  simp only [Add, List.filter_cons, beq_self_eq_true, if_true, List.filter_filter]
  congr 1
  rw [List.filter_eq_nil_iff]
  intro e _
  cases h : e.1 == key <;> simp [h]

theorem Add_Lookup {α : Type} (table : List (List Nat × α)) (key other : List Nat) (value : α) :
    Lookup (Add table key value).1 other
      = if key = other then some value else Lookup table other := by
  simp only [Add]
  rw [Lookup_cons]
  by_cases h : key = other
  · rw [if_pos h, if_pos h]
  · rw [if_neg h, if_neg h, Lookup_filter _ _ _ (fun e => h e.symm)]

/-- C17.  After `addServerMediaSession(a)` and `addServerMediaSession(b)`
for two media sessions with the same stream name, neither of which the
registry held under that name before: the registry has one entry under the
name, and it is `b`; of the objects the two calls deleted, one is `a` and
none is `b`; the entries under other names are as before.  A session whose
stream name is `NULL` is registered under the empty name. -/
theorem addServerMediaSession_overwrite (srv : Server) (a b : ServerMediaSession)
    (name : List Nat) (hab : a ≠ b)
    (ha : Lookup srv.fServerMediaSessions (cstr name) ≠ some a)
    (hb : Lookup srv.fServerMediaSessions (cstr name) ≠ some b) :
    (addServerMediaSession (addServerMediaSession srv a (some name)).1 b
        (some name)).1.fServerMediaSessions.filter (fun e => e.1 == cstr name)
      = [(cstr name, b)]
    ∧ Lookup (addServerMediaSession (addServerMediaSession srv a (some name)).1 b
        (some name)).1.fServerMediaSessions (cstr name) = some b
    ∧ ((addServerMediaSession srv a (some name)).2
        ++ (addServerMediaSession (addServerMediaSession srv a (some name)).1 b
          (some name)).2).count a = 1
    ∧ ((addServerMediaSession srv a (some name)).2
        ++ (addServerMediaSession (addServerMediaSession srv a (some name)).1 b
          (some name)).2).count b = 0
    ∧ (∀ other, other ≠ cstr name →
        Lookup (addServerMediaSession (addServerMediaSession srv a (some name)).1 b
          (some name)).1.fServerMediaSessions other = Lookup srv.fServerMediaSessions other)
    ∧ Lookup (addServerMediaSession srv a none).1.fServerMediaSessions [] = some a := by
  have h2 : (Add (Add srv.fServerMediaSessions (cstr name) a).1 (cstr name) b).2 = some a := by
    show Lookup (Add srv.fServerMediaSessions (cstr name) a).1 (cstr name) = some a
    rw [Add_Lookup, if_pos rfl]
  have h1 : (Add srv.fServerMediaSessions (cstr name) a).2
      = Lookup srv.fServerMediaSessions (cstr name) := rfl
  refine ⟨?_, ?_, ?_, ?_, ?_, ?_⟩
  · exact Add_entries _ _ _
  · simp only [addServerMediaSession]
    rw [Add_Lookup, if_pos rfl]
  · simp only [addServerMediaSession, h2, h1, Option.toList_some]
    cases hl : Lookup srv.fServerMediaSessions (cstr name) with
    | none => simp
    | some c =>
      have : c ≠ a := fun e => ha (by rw [hl, e])
      simp [this]
  · simp only [addServerMediaSession, h2, h1, Option.toList_some]
    cases hl : Lookup srv.fServerMediaSessions (cstr name) with
    | none =>
      rw [List.count_eq_zero]
      simpa using fun e => hab e.symm
    | some c =>
      have : c ≠ b := fun e => hb (by rw [hl, e])
      rw [List.count_eq_zero]
      simpa using ⟨fun e => this e.symm, fun e => hab e.symm⟩
  · intro other ho
    simp only [addServerMediaSession]
    rw [Add_Lookup, if_neg (fun e => ho e.symm), Add_Lookup, if_neg (fun e => ho e.symm)]
  · simp only [addServerMediaSession]
    rw [Add_Lookup, if_pos rfl]

/-! ## The OPTIONS request -/

theorem findFrom_none (r : List Nat) (pat : List (Nat → Bool)) :
    ∀ (n j : Nat), (∀ t, t < n → matchAt r pat (j + t) = some false) →
      findFrom r pat n j = some none := by
  intro n
  induction n with
  | zero => intro j _; rfl
  | succ n ih =>
    intro j h
    have h0 := h 0 (by omega)
    simp only [Nat.add_zero] at h0
    simp only [findFrom, h0]
    apply ih
    intro t ht
    have := h (t + 1) (by omega)
    rwa [show j + (t + 1) = j + 1 + t by omega] at this

theorem rd_prefix (P rest : List Nat) (k : Nat) (h : k < P.length) :
    rd (P ++ rest) k = P[k]? := by
  simp [rd, List.getElem?_append_left h]

theorem At_mid (A S B : List Nat) : At (A ++ (S ++ B)) A.length S := by
  intro t ht
  simp only [rd]
  rw [List.getElem?_append_right (by omega)]
  simp [List.getElem?_append_left ht]

theorem bytes_options_head :
    bytes "OPTIONS * RTSP/1.0\r\nCSeq: "
      = [79, 80, 84, 73, 79, 78, 83, 32, 42, 32, 82, 84, 83, 80, 47, 49, 46, 48, 13, 10, 67, 83,
          101, 113, 58, 32] := by decide

/-- The run of `parseRequestString` on `OPTIONS * RTSP/1.0` with a `CSeq`
header of at most 98 digits: the URL `*` is the URL suffix, and the URL
pre-suffix is empty. -/
theorem parseRequestString_OPTIONS (C rest : List Nat) (hC1 : C.length ≤ 98)
    (hCd : ∀ c ∈ C, isDigit c) :
    parseRequestString (bytes "OPTIONS * RTSP/1.0\r\nCSeq: " ++ (C ++ (bytes "\r\n\r\n" ++ rest)))
        (30 + C.length) 100 100 100 100
      = some ⟨true, bytes "OPTIONS" ++ [0], [] ++ [0], [42] ++ [0], C ++ [0]⟩ := by
  have hU : U32 = 4294967296 := rfl
  have e99 : sub32 100 1 = 99 := by decide
  rw [bytes_options_head, bytes_end]
  generalize hr : [79, 80, 84, 73, 79, 78, 83, 32, 42, 32, 82, 84, 83, 80, 47, 49, 46, 48, 13, 10,
    67, 83, 101, 113, 58, 32] ++ (C ++ ([13, 10, 13, 10] ++ rest)) = r
  have hsize : 30 + C.length < U32 := by omega
  -- the layout
  have hk : ∀ k, k < 26 → rd r k = [79, 80, 84, 73, 79, 78, 83, 32, 42, 32, 82, 84, 83, 80, 47,
      49, 46, 48, 13, 10, 67, 83, 101, 113, 58, 32][k]? := by
    intro k hk
    rw [← hr]; exact rd_prefix _ _ _ (by simpa using hk)
  have aC : At r 26 C := by
    rw [← hr]; exact At_mid _ C _
  have aEnd : rd r (26 + C.length) = some 13 := by
    have h := At_mid ([79, 80, 84, 73, 79, 78, 83, 32, 42, 32, 82, 84, 83, 80, 47, 49, 46, 48, 13,
      10, 67, 83, 101, 113, 58, 32] ++ C) [13] ([10, 13, 10] ++ rest) 0 (by simp)
    have e : ([79, 80, 84, 73, 79, 78, 83, 32, 42, 32, 82, 84, 83, 80, 47, 49, 46, 48, 13,
        10, 67, 83, 101, 113, 58, 32] ++ C) ++ ([13] ++ ([10, 13, 10] ++ rest)) = r := by
      rw [← hr]; simp
    have e2 : ([79, 80, 84, 73, 79, 78, 83, 32, 42, 32, 82, 84, 83, 80, 47, 49, 46, 48, 13,
        10, 67, 83, 101, 113, 58, 32] ++ C).length + 0 = 26 + C.length := by
      simp only [List.length_append, List.length_cons, List.length_nil]; omega
    rw [e, e2] at h
    exact h
  have at0 : ∀ (off : Nat) (S : List Nat), off + S.length ≤ 26 →
      S = ([79, 80, 84, 73, 79, 78, 83, 32, 42, 32, 82, 84, 83, 80, 47, 49, 46, 48, 13, 10, 67,
        83, 101, 113, 58, 32].drop off).take S.length → At r off S := by
    intro off S hle hS t ht
    rw [hk _ (by omega)]
    rw [hS, List.getElem?_take_of_lt ht, List.getElem?_drop]
  have hCc : ∀ c ∈ C, c ≠ 13 ∧ c ≠ 10 := by
    intro c hc
    have := hCd c hc
    unfold isDigit at this
    omega
  -- the method
  have ph1 : scanCmdName r (min (sub32 100 1) (30 + C.length)) 0 []
      = some (true, 7, [79, 80, 84, 73, 79, 78, 83]) := by
    have := scanCmdName_at r [79, 80, 84, 73, 79, 78, 83] (by decide)
      (min (sub32 100 1) (30 + C.length)) 0 [] (at0 0 _ (by decide) (by decide))
      (by rw [hk _ (by decide)]; rfl) (by rw [e99]; simp; omega)
    simpa using this
  -- no `rtsp://` follows
  have ph2 : skipRtspPrefix r (30 + C.length) 7 = some 7 := by
    have ea : add32 7 1 = 8 := by decide
    have e8 : sub32 (30 + C.length) 8 = 30 + C.length - 8 := sub32_of_le (by omega) hsize
    have w1 : skipWhile r (fun c => c == 32) (30 + C.length - 8) 8 = some 8 := by
      have := skipWhile_at r [] (fun c => c == 32) (by simp) (30 + C.length - 8) 8 42
        (At_nil _ _) (by rw [hk _ (by decide)]; rfl) (by decide) (by simp; omega)
      simpa using this
    have f1 : findFrom r rtspUrlPat (30 + C.length - 8 - 8) 8 = some none := by
      apply findFrom_none
      intro t ht
      have hmod : (8 + t) % U32 = 8 + t := Nat.mod_eq_of_lt (by omega)
      by_cases h26 : 8 + t < 26
      · have ht18 : t < 18 := by omega
        interval_cases t <;> simp [matchAt, rtspUrlPat, hU, hk]
      · obtain ⟨u, hu⟩ : ∃ u, 8 + t = 26 + u := ⟨8 + t - 26, by omega⟩
        have hul : u < C.length := by omega
        have hrd : rd r (8 + t) = some C[u] := by
          rw [hu, aC u hul]; simp [hul]
        have hd := hCd _ (List.getElem_mem hul)
        unfold isDigit at hd
        have hp : (C[u] == 114 || C[u] == 82) = false := by
          have h1 : C[u] ≠ 114 := by omega
          have h2 : C[u] ≠ 82 := by omega
          simp [h1, h2]
        simp only [rtspUrlPat, matchAt, hmod, hrd, hp, Bool.false_eq_true, if_false]
    unfold skipRtspPrefix
    rw [ea, e8, w1]
    simp only []
    rw [f1]
  -- the protocol version
  have e5 : sub32 (30 + C.length) 5 = 30 + C.length - 5 := sub32_of_le (by omega) hsize
  have ph3 : findFrom r rtspVerPat (30 + C.length - 5 - add32 7 1) (add32 7 1)
      = some (some 10) := by
    have ea : add32 7 1 = 8 := by decide
    have m1 : matchAt r rtspVerPat 10 = some true :=
      matchAt_at r rtspVerPat [82, 84, 83, 80, 47] 10 (at0 10 _ (by decide) (by decide))
        (by simp [rtspVerPat]) (by simp; omega)
    have := findFrom_at r [42, 32] (fun c => c == 82) rtspVerPat.tail (by decide)
      (30 + C.length - 5 - 8) 8 (at0 8 _ (by decide) (by decide)) m1 (by simp; omega)
      (by simp; omega)
    rw [ea]
    exact this
  have ph4 : backSpaces r 7 U32 10 = some 8 := by
    have := backSpaces_two r 7 4294967294 10 42 (by decide) (by decide)
      (by rw [hk _ (by decide)]; rfl) (by rw [hk _ (by decide)]; rfl) (by decide) (by decide)
    have hU2 : U32 = 4294967294 + 2 := rfl
    rw [hU2]
    exact this
  -- the URL suffix `*`
  have ph5 : backToSep r (8 - 7) 8 = some 7 :=
    backToSep_at r [42] (by decide) 1 7 (at0 8 _ (by decide) (by decide)) (Or.inl rfl)
  have c5 : ¬ (100 < add32 (sub32 8 7) 1) := by decide
  have cp5 : copyRange r (add32 7 1) 8 = some [42] := by
    have ea : add32 7 1 = 8 := by decide
    unfold copyRange
    rw [if_neg (by decide), ea]
    exact copyBytes_at r [42] 8 (at0 8 _ (by decide) (by decide))
  -- the empty URL pre-suffix
  have eq1 : sub32 7 1 = 6 := by decide
  have ph6 : backToSep r (6 - 7) 6 = some 6 := rfl
  have c6 : ¬ (100 < add32 (sub32 6 6) 1) := by decide
  have cp6 : copyRange r (add32 6 1) 6 = some [] := by
    unfold copyRange
    rw [if_neg (by decide)]
    rfl
  -- the CSeq header
  have ph7 : parseCSeq r (30 + C.length) 100 (add32 8 7) = some (true, C ++ [0]) := by
    have e1 : add32 8 7 = 15 := by decide
    have e6 : sub32 (30 + C.length) 6 = 30 + C.length - 6 := sub32_of_le (by omega) hsize
    have m1 : matchAt r cseqPat 20 = some true :=
      matchAt_at r cseqPat [67, 83, 101, 113, 58, 32] 20 (at0 20 _ (by decide) (by decide))
        (by simp [cseqPat]) (by simp; omega)
    have f1 : findFrom r cseqPat (30 + C.length - 6 - 15) 15 = some (some 20) :=
      findFrom_at r [49, 46, 48, 13, 10] (fun c => c == 67) cseqPat.tail (by decide)
        (30 + C.length - 6 - 15) 15 (at0 15 _ (by decide) (by decide)) m1 (by simp; omega)
        (by simp; omega)
    have e2 : add32 20 6 = 26 := by decide
    have sc : scanCSeq r (min (sub32 100 1) (30 + C.length - 26)) 26 [] = some (true, C) := by
      have := scanCSeq_at r C hCc (min (sub32 100 1) (30 + C.length - 26)) 26 [] 13 aC aEnd
        (Or.inl rfl) (by rw [e99]; simp; omega)
      simpa using this
    rw [e1, parseCSeq, e6, f1]
    simp only []
    rw [e2, sc]
  have hM : bytes "OPTIONS" = [79, 80, 84, 73, 79, 78, 83] := by decide
  rw [hM]
  unfold parseRequestString
  rw [e5, ph1]
  simp only []
  rw [ph2]
  simp only []
  rw [ph3]
  simp only []
  rw [ph4]
  simp only []
  rw [ph5]
  simp only []
  rw [if_neg c5, cp5]
  simp only []
  rw [eq1, ph6]
  simp only []
  rw [if_neg c6, cp6, ph7]
/-- C20.  For a `CSeq` value `C` of at most 98 decimal digits, the request
`OPTIONS * RTSP/1.0` with the header `CSeq: C`, whatever follows it in the
buffer, is parsed with success and answered with `RTSP/1.0 200 OK`, the
header `CSeq: C` and the header `Public: ` with the six command names.  The
handler makes no call and changes nothing else in the session: the active
flag, the bound media session, the stream states and the authenticator are
as before, and an active session goes on with the next request. -/
theorem handleRequest_OPTIONS (env : Env) (srv : Server) (x : External)
    (s : RTSPClientSession) (C rest : List Nat) (hC1 : C.length ≤ 98)
    (hCd : ∀ c ∈ C, isDigit c) :
    (bytes "OPTIONS * RTSP/1.0\r\nCSeq: " ++ (C ++ bytes "\r\n\r\n")).length = 30 + C.length
    ∧ parseRequestString
        (bytes "OPTIONS * RTSP/1.0\r\nCSeq: " ++ (C ++ (bytes "\r\n\r\n" ++ rest)))
        (30 + C.length) PARAM_STRING_MAX PARAM_STRING_MAX PARAM_STRING_MAX PARAM_STRING_MAX
      = some ⟨true, bytes "OPTIONS" ++ [0], [0], [42, 0], C ++ [0]⟩
    ∧ ∃ s1, handleRequest env srv x s
          (bytes "OPTIONS * RTSP/1.0\r\nCSeq: " ++ (C ++ (bytes "\r\n\r\n" ++ rest)))
          (30 + C.length) = some s1
      ∧ s1.fBuffer = bytes "RTSP/1.0 200 OK\r\nCSeq: " ++ C
          ++ bytes "\r\nPublic: OPTIONS, DESCRIBE, SETUP, TEARDOWN, PLAY, PAUSE\r\n\r\n"
      ∧ s1.fSessionIsActive = s.fSessionIsActive
      ∧ s1.fOurServerMediaSession = s.fOurServerMediaSession
      ∧ s1.fStreamStates = s.fStreamStates
      ∧ s1.fCurrentAuthenticator = s.fCurrentAuthenticator
      ∧ s1.log = s.log
      ∧ (s.fSessionIsActive = true → ∀ later : List Request,
          runSession env srv
            (⟨bytes "OPTIONS * RTSP/1.0\r\nCSeq: " ++ (C ++ (bytes "\r\n\r\n" ++ rest)),
              30 + C.length, x⟩ :: later) s
          = runSession env srv later s1) := by
  have hp : parseRequestString
      (bytes "OPTIONS * RTSP/1.0\r\nCSeq: " ++ (C ++ (bytes "\r\n\r\n" ++ rest)))
      (30 + C.length) PARAM_STRING_MAX PARAM_STRING_MAX PARAM_STRING_MAX PARAM_STRING_MAX
      = some ⟨true, bytes "OPTIONS" ++ [0], [0], [42, 0], C ++ [0]⟩ :=
    parseRequestString_OPTIONS C rest hC1 hCd
  have hC0 : ∀ c ∈ C, c ≠ 0 := by
    intro c hc
    have := hCd c hc
    unfold isDigit at this
    omega
  have hcseq : cstr (C ++ [0]) = C := by
    rw [cstr_append _ _ hC0]
    simp [cstr]
  have hcmd : cstr (bytes "OPTIONS" ++ [0]) = bytes "OPTIONS" := by decide
  have hr : handleRequest env srv x s
      (bytes "OPTIONS * RTSP/1.0\r\nCSeq: " ++ (C ++ (bytes "\r\n\r\n" ++ rest)))
      (30 + C.length) = some (handleCmd_OPTIONS s C) := by
    unfold handleRequest
    rw [hp]
    simp only [hcmd, hcseq, Bool.true_eq_false, if_false, if_true]
  refine ⟨?_, hp, handleCmd_OPTIONS s C, hr, ?_, rfl, rfl, rfl, rfl, rfl, ?_⟩
  · rw [bytes_options_head, bytes_end]
    simp only [List.length_append, List.length_cons, List.length_nil]
    omega
  · have : bytes "\r\nPublic: OPTIONS, DESCRIBE, SETUP, TEARDOWN, PLAY, PAUSE\r\n\r\n"
        = bytes "\r\nPublic: " ++ allowedCommandNames ++ bytes "\r\n\r\n" := by decide
    rw [this]
    simp only [handleCmd_OPTIONS, List.append_assoc]
  · intro ha later
    have hact : (handleCmd_OPTIONS s C).fSessionIsActive = true := ha
    simp only [runSession, hr, hact, if_true]

/-! ## Methods the server does not know -/

/-- C21.  For every request that `parseRequestString` accepts and whose
method is none of `OPTIONS`, `DESCRIBE`, `SETUP`, `TEARDOWN`, `PLAY`, `PAUSE`
(compared byte by byte), the response is `RTSP/1.0 405 Method Not Allowed`,
the `CSeq` header with the parsed value, the `Allow` header with the six
names and the empty line; the session is left inactive, so it is destroyed
once the response has been sent and no later request of the connection is
handled. -/
theorem handleRequest_unknown_method (env : Env) (srv : Server) (x : External)
    (s : RTSPClientSession) (mem : List Nat) (totalBytes : Nat) (r : ParseResult)
    (hp : parseRequestString mem totalBytes PARAM_STRING_MAX PARAM_STRING_MAX PARAM_STRING_MAX
      PARAM_STRING_MAX = some r)
    (hok : r.success = true)
    (hcmd : cstr r.resultCmdName ∉ [bytes "OPTIONS", bytes "DESCRIBE", bytes "SETUP",
      bytes "TEARDOWN", bytes "PLAY", bytes "PAUSE"]) :
    ∃ s1, handleRequest env srv x s mem totalBytes = some s1
      ∧ s1.fBuffer = bytes "RTSP/1.0 405 Method Not Allowed\r\nCSeq: " ++ cstr r.resultCSeq
          ++ bytes "\r\nAllow: OPTIONS, DESCRIBE, SETUP, TEARDOWN, PLAY, PAUSE\r\n\r\n"
      ∧ s1.fSessionIsActive = false
      ∧ ∀ later : List Request,
          runSession env srv (⟨mem, totalBytes, x⟩ :: later) s = some (destroy s1) := by
  simp only [List.mem_cons, List.mem_singleton, List.not_mem_nil, or_false, not_or] at hcmd
  obtain ⟨h1, h2, h3, h4, h5, h6⟩ := hcmd
  have hr : handleRequest env srv x s mem totalBytes
      = some (handleCmd_notSupported s (cstr r.resultCSeq)) := by
    unfold handleRequest
    simp only [hp, hok, h1, h2, h3, h4, h5, h6, Bool.true_eq_false, if_false, or_self]
  refine ⟨_, hr, ?_, rfl, ?_⟩
  · have : bytes "\r\nAllow: OPTIONS, DESCRIBE, SETUP, TEARDOWN, PLAY, PAUSE\r\n\r\n"
        = bytes "\r\nAllow: " ++ allowedCommandNames ++ bytes "\r\n\r\n" := by decide
    rw [this]
    simp only [handleCmd_notSupported, List.append_assoc]
  · intro later
    simp only [runSession, hr]
    rfl

/-! ## The defaults of `parseTransportHeader` -/

theorem findHeader_none (pat s : List Nat)
    (h : ∀ i, i < s.length → strncasecmpEq (s.drop i) pat = false) :
    findHeader pat s = none := by
  have := findHeader_skip pat s [] (by simpa using h)
  simpa [findHeader] using this

/-- A field whose first byte is not the first byte of a field the `if`
chain knows changes nothing. -/
theorem transportField_other (p : TransportParams) (c : Nat) (tail : List Nat)
    (hc : c ≠ 82 ∧ c ≠ 100 ∧ c ≠ 68 ∧ c ≠ 116 ∧ c ≠ 99 ∧ c ≠ 105) :
    transportField p (c :: tail) = p := by
  obtain ⟨h1, h2, h3, h4, h5, h6⟩ := hc
  have e1 : scanLiteral (bytes "ttl") (c :: tail) = none := by
    rw [bytes_ttl]; exact scanLiteral_head _ _ _ _ (fun e => h4 e.symm)
  have e2 : scanLiteral (bytes "client_port=") (c :: tail) = none := by
    rw [bytes_client_port]; exact scanLiteral_head _ _ _ _ (fun e => h5 e.symm)
  have e3 : scanLiteral (bytes "interleaved=") (c :: tail) = none := by
    rw [bytes_interleaved]; exact scanLiteral_head _ _ _ _ (fun e => h6 e.symm)
  have e4 : strncasecmpEq (c :: tail) (bytes "destination=") = false := by
    have hl : toLowerC c ≠ 100 := by
      unfold toLowerC
      split <;> omega
    have hp : (bytes "destination=").map toLowerC
        = 100 :: [101, 115, 116, 105, 110, 97, 116, 105, 111, 110, 61] := by decide
    have hn : (bytes "destination=").length = 11 + 1 := by decide
    unfold strncasecmpEq
    rw [hp, hn, List.take_succ_cons, List.map_cons]
    simp [hl]
  have e5 : c :: tail ≠ bytes "RTP/AVP/TCP" := by
    rw [bytes_tcp]
    intro h
    exact h1 (List.cons.inj h).1
  simp only [transportField, scanTTL, scanPair, e1, e2, e3, e4, e5, if_false,
    Bool.false_eq_true]

theorem bytes_unicast_line :
    bytes "RTP/AVP;unicast\r\n" = bytes "RTP/AVP" ++ 59 :: 117 :: (bytes "nicast" ++ [13, 10]) := by
  decide

set_option maxRecDepth 100000 in
/-- C22, the failing run, and what holds.  A request without a
`Transport: ` header (in any case of the letters) gives the seven defaults,
and so does a request whose first `Transport: ` header is
`Transport: RTP/AVP;unicast` when no `;` follows the line.  When the header
line `X: a;RTP/AVP/TCP;q=1` follows it, the loop goes on over the CR LF with
the fields of that line, and TCP is requested although no field of the
`Transport` line is one of the known fields.  (`pre` is the request before
the header; it holds no NUL and no earlier header name.) -/
theorem parseTransportHeader_defaults (buf pre rest : List Nat)
    (h0 : ∀ c ∈ pre, c ≠ 0)
    (hpre : ∀ i, i < pre.length →
      strncasecmpEq ((pre ++ bytes "Transport: ").drop i) (bytes "Transport: ") = false)
    (hrest : ∀ c ∈ rest, c ≠ 59) :
    ((∀ i, i < (cstr buf).length →
        strncasecmpEq ((cstr buf).drop i) (bytes "Transport: ") = false) →
      parseTransportHeader buf = ⟨false, none, 255, 0, 1, 255, 255⟩)
    ∧ parseTransportHeader (pre ++ (bytes "Transport: " ++ (bytes "RTP/AVP;unicast\r\n" ++ rest)))
      = ⟨false, none, 255, 0, 1, 255, 255⟩
    ∧ parseTransportHeader (pre ++ (bytes "Transport: " ++ (bytes "RTP/AVP;unicast\r\n"
        ++ (bytes "X: a;RTP/AVP/TCP;q=1\r\n\r\n" ++ [0]))))
      = ⟨true, none, 255, 0, 1, 255, 255⟩ := by
  refine ⟨?_, ?_, ?_⟩
  · intro h
    unfold parseTransportHeader
    rw [findHeader_none _ _ h]
    rfl
  · have hr : ∀ c ∈ cstr rest, c ≠ 59 := fun c hc => hrest c (cstr_mem _ _ hc)
    rw [parseTransportHeader_fields _ _ _ h0 hpre (by decide), bytes_unicast_line]
    simp only [List.append_assoc, List.cons_append, List.nil_append]
    rw [show (bytes "RTP/AVP" ++ 59 :: 117 :: (bytes "nicast" ++ 13 :: 10 :: cstr rest)).length
      = ((cstr rest).length + 15) + 1 + 1 by simp [bytes]]
    rw [transportFields_next _ _ _ _ _ (by decide) (by decide) (by decide),
      transportFields_last _ _ _ (by simp), transportField_other _ _ _ (by decide)]
    · decide
    · intro c hc
      simp only [List.mem_cons, List.mem_append] at hc
      rcases hc with rfl | hc | rfl | rfl | hc
      · decide
      · revert c; decide
      · decide
      · decide
      · exact hr c hc
  · rw [parseTransportHeader_fields _ _ _ h0 hpre (by decide)]
    decide

/-! ## The session ids -/

theorem incomingConnections_from (conns : List (Int × Nat)) (c : Nat) :
    (incomingConnections c conns).1 = (if (accepted conns).length = 0 then c
        else (c + (accepted conns).length) % U32)
    ∧ (incomingConnections c conns).2.map (fun s => s.fOurSessionId)
      = (List.range (accepted conns).length).map (fun i => (c + i + 1) % U32)
    ∧ (incomingConnections c conns).2.map (fun s => (s.fClientSocket, s.fClientAddr))
      = accepted conns := by
  induction conns generalizing c with
  | nil => simp [incomingConnections, accepted]
  | cons conn rest ih =>
    obtain ⟨sock, addr⟩ := conn
    by_cases hs : sock < 0
    · have hn : ¬ (0 ≤ sock) := by omega
      have ha : accepted ((sock, addr) :: rest) = accepted rest := by
        simp [accepted, hn]
      have := ih c
      simp only [incomingConnections, incomingConnectionHandler1, hs, if_true, ha,
        Option.toList, List.nil_append]
      exact this
    · have hn : 0 ≤ sock := by omega
      have ha : accepted ((sock, addr) :: rest) = (sock, addr) :: accepted rest := by
        simp [accepted, hn]
      obtain ⟨i1, i2, i3⟩ := ih (add32 c 1)
      simp only [incomingConnections, incomingConnectionHandler1, hs, if_false, ha,
        Option.toList, List.cons_append, List.nil_append, List.map_cons, List.length_cons]
      refine ⟨?_, ?_, ?_⟩
      · rw [i1]
        by_cases h0 : (accepted rest).length = 0
        · simp [h0, add32]
        · simp only [h0, if_false, Nat.succ_ne_zero, add32]
          rw [Nat.mod_add_mod]
          congr 1; omega
      · rw [i2, List.range_succ_eq_map, List.map_cons, List.map_map]
        refine congrArg₂ _ rfl ?_
        apply List.map_congr_left
        intro i _
        simp only [Function.comp, add32, Nat.succ_eq_add_one]
        rw [Nat.add_assoc, Nat.mod_add_mod]
        congr 1; omega
      · rw [i3]; rfl

/-- C23, amended.  From the counter 0 and for fewer than `2^32` accepted
connections: the counter ends at the number of accepted connections, the
k-th session created has the id k (the first has 1) and belongs to the k-th
accepted connection, the ids of the sessions are pairwise different, and
the counter did not decrease on the way. -/
theorem incomingConnections_ids (conns : List (Int × Nat))
    (h : (accepted conns).length < U32) :
    (incomingConnections 0 conns).1 = (accepted conns).length
    ∧ (incomingConnections 0 conns).2.map (fun s => s.fOurSessionId)
      = (List.range (accepted conns).length).map (fun i => i + 1)
    ∧ (incomingConnections 0 conns).2.map (fun s => (s.fClientSocket, s.fClientAddr))
      = accepted conns
    ∧ ((incomingConnections 0 conns).2.map (fun s => s.fOurSessionId)).Nodup
    ∧ ∀ before after, conns = before ++ after →
        (incomingConnections 0 before).1 ≤ (incomingConnections 0 conns).1 := by
  obtain ⟨h1, h2, h3⟩ := incomingConnections_from conns 0
  have e2 : (incomingConnections 0 conns).2.map (fun s => s.fOurSessionId)
      = (List.range (accepted conns).length).map (fun i => i + 1) := by
    rw [h2]
    apply List.map_congr_left
    intro i hi
    rw [List.mem_range] at hi
    rw [Nat.zero_add]
    exact Nat.mod_eq_of_lt (by omega)
  have e1 : ∀ l : List (Int × Nat), (accepted l).length < U32 →
      (incomingConnections 0 l).1 = (accepted l).length := by
    intro l hl
    rw [(incomingConnections_from l 0).1]
    split
    · omega
    · rw [Nat.zero_add]; exact Nat.mod_eq_of_lt hl
  refine ⟨e1 conns h, e2, h3, ?_, ?_⟩
  · rw [e2]
    exact (List.nodup_range _).map (fun a b hab => by simpa using hab)
  · intro before after hc
    have hl : (accepted conns).length = (accepted before).length + (accepted after).length := by
      rw [hc]; simp [accepted]
    rw [e1 conns h, e1 before (by omega)]
    omega

theorem incomingConnections_replicate (n c : Nat) (sock : Int) (addr : Nat) (hs : 0 ≤ sock) :
    (incomingConnections c (List.replicate n (sock, addr))).1
      = (if n = 0 then c else (c + n) % U32)
    ∧ (incomingConnections c (List.replicate n (sock, addr))).2.map (fun s => s.fOurSessionId)
      = (List.range n).map (fun i => (c + i + 1) % U32) := by
  have ha : accepted (List.replicate n (sock, addr)) = List.replicate n (sock, addr) := by
    unfold accepted
    rw [List.filter_eq_self]
    intro a ha
    rw [List.eq_of_mem_replicate ha]
    simpa using hs
  obtain ⟨h1, h2, _⟩ := incomingConnections_from (List.replicate n (sock, addr)) c
  rw [ha, List.length_replicate] at h1 h2
  exact ⟨h1, h2⟩

/-! ## The calls of PLAY and PAUSE -/

/-- The aggregated loop makes one call for each stream state, in order. -/
theorem streamCalls_aggregated (mk : Nat → Nat → Option Nat → Event) (id : Nat) :
    ∀ (l : List StreamState) (subs : List ServerMediaSubsession),
      l.map (fun st => st.subsession) = subs.map some →
      streamCalls mk id none l
        = some (List.zipWith (fun sub st => mk sub.ident id st.streamToken) subs l) := by
  intro l
  induction l with
  | nil => intro subs _; cases subs <;> rfl
  | cons st rest ih =>
    intro subs h
    cases subs with
    | nil => simp at h
    | cons sub subs =>
      simp only [List.map_cons, List.cons.injEq] at h
      unfold streamCalls
      rw [if_pos (Or.inl rfl), h.1, ih subs h.2]
      rfl

/-- The loop for a subsession that is not among the stream states makes no
call. -/
theorem streamCalls_absent (mk : Nat → Nat → Option Nat → Event) (id : Nat)
    (sub : ServerMediaSubsession) :
    ∀ (l : List StreamState), (∀ st ∈ l, st.subsession ≠ some sub) →
      streamCalls mk id (some sub) l = some [] := by
  intro l
  induction l with
  | nil => intro _; rfl
  | cons st rest ih =>
    intro h
    unfold streamCalls
    have h1 : ¬ (some sub = none ∨ some sub = st.subsession) := by
      rintro (h1 | h1)
      · cases h1
      · exact h st (List.mem_cons_self _ _) h1.symm
    rw [if_neg h1]
    exact ih (fun t ht => h t (List.mem_cons_of_mem _ ht))

/-- The loop for one subsession makes one call, for the stream state of
this subsession. -/
theorem streamCalls_single (mk : Nat → Nat → Option Nat → Event) (id : Nat)
    (sub : ServerMediaSubsession) :
    ∀ (l : List StreamState) (subs : List ServerMediaSubsession),
      l.map (fun st => st.subsession) = subs.map some → subs.Nodup → sub ∈ subs →
      ∃ st, st ∈ l ∧ st.subsession = some sub
        ∧ streamCalls mk id (some sub) l = some [mk sub.ident id st.streamToken] := by
  intro l
  induction l with
  | nil => intro subs h _ hm; cases subs <;> simp at h hm
  | cons st rest ih =>
    intro subs h hn hm
    cases subs with
    | nil => simp at h
    | cons sub0 subs =>
      simp only [List.map_cons, List.cons.injEq] at h
      rw [List.nodup_cons] at hn
      unfold streamCalls
      by_cases he : sub = sub0
      · subst he
        have hr : ∀ t ∈ rest, t.subsession ≠ some sub := by
          intro t ht e
          have : some sub ∈ rest.map (fun st => st.subsession) :=
            List.mem_map.mpr ⟨t, ht, e⟩
          rw [h.2, List.mem_map] at this
          obtain ⟨a, ha, e2⟩ := this
          rw [Option.some.inj e2] at ha
          exact hn.1 ha
        refine ⟨st, List.mem_cons_self _ _, h.1, ?_⟩
        rw [if_pos (Or.inr h.1.symm), h.1, streamCalls_absent mk id sub rest hr]
        rfl
      · have hm2 : sub ∈ subs := by
          rcases List.mem_cons.mp hm with e | e
          · exact absurd e he
          · exact e
        obtain ⟨t, ht, e1, e2⟩ := ih subs h.2 hn.2 hm2
        have h1 : ¬ (some sub = none ∨ some sub = st.subsession) := by
          rintro (h1 | h1)
          · cases h1
          · rw [h.1] at h1; exact he (Option.some.inj h1)
        rw [if_neg h1]
        exact ⟨t, List.mem_cons_of_mem _ ht, e1, e2⟩

/-- C24.  In a session bound to `ms` whose stream states are those of the
subsessions of `ms` (distinct objects), and with `mk` the call
`startStream` for `PLAY` and `pauseStream` for `PAUSE`: the aggregated
command makes one call for each stream state, in the order of the list and
with the id of the session and the stored token; the command for the track
`urlSuffix` of the bound stream makes one call, for the one stream state of
this subsession.  Both leave the response `RTSP/1.0 200 OK`, `CSeq`,
`Session` with the id as `%d` prints it, and change nothing else of the
session. -/
theorem handleCmd_withinSession_PLAY (s : RTSPClientSession) (ms : ServerMediaSession)
    (urlPreSuffix urlSuffix cseq : List Nat)
    (hb : s.fOurServerMediaSession = some ms)
    (hst : s.fStreamStates.map (fun st => st.subsession) = ms.subsessions.map some)
    (hnd : ms.subsessions.Nodup) :
    (¬ (urlSuffix ≠ [] ∧ cstr ms.streamName = urlPreSuffix) →
      (cstr ms.streamName = urlSuffix ∨ cstr ms.streamName = urlPreSuffix) →
      handleCmd_withinSession s (bytes "PLAY") urlPreSuffix urlSuffix cseq
        = some { s with
            log := s.log ++ List.zipWith
              (fun sub st => Event.startStream sub.ident s.fOurSessionId st.streamToken)
              ms.subsessions s.fStreamStates,
            fBuffer := bytes "RTSP/1.0 200 OK\r\nCSeq: " ++ cseq ++ bytes "\r\nSession: "
              ++ fmtD (toInt32 s.fOurSessionId) ++ bytes "\r\n\r\n" }
      ∧ handleCmd_withinSession s (bytes "PAUSE") urlPreSuffix urlSuffix cseq
        = some { s with
            log := s.log ++ List.zipWith
              (fun sub st => Event.pauseStream sub.ident s.fOurSessionId st.streamToken)
              ms.subsessions s.fStreamStates,
            fBuffer := bytes "RTSP/1.0 200 OK\r\nCSeq: " ++ cseq ++ bytes "\r\nSession: "
              ++ fmtD (toInt32 s.fOurSessionId) ++ bytes "\r\n\r\n" }
      ∧ (List.zipWith
          (fun sub st => Event.startStream sub.ident s.fOurSessionId st.streamToken)
          ms.subsessions s.fStreamStates).length = s.fStreamStates.length)
    ∧ (∀ sub, urlSuffix ≠ [] → cstr ms.streamName = urlPreSuffix →
        ms.subsessions.find? (fun t => cstr t.trackId == urlSuffix) = some sub →
        ∃ st, st ∈ s.fStreamStates ∧ st.subsession = some sub
          ∧ (∀ t ∈ s.fStreamStates, t.subsession = some sub → t = st)
          ∧ handleCmd_withinSession s (bytes "PLAY") urlPreSuffix urlSuffix cseq
            = some { s with
                log := s.log ++ [Event.startStream sub.ident s.fOurSessionId st.streamToken],
                fBuffer := bytes "RTSP/1.0 200 OK\r\nCSeq: " ++ cseq ++ bytes "\r\nSession: "
                  ++ fmtD (toInt32 s.fOurSessionId) ++ bytes "\r\n\r\n" }
          ∧ handleCmd_withinSession s (bytes "PAUSE") urlPreSuffix urlSuffix cseq
            = some { s with
                log := s.log ++ [Event.pauseStream sub.ident s.fOurSessionId st.streamToken],
                fBuffer := bytes "RTSP/1.0 200 OK\r\nCSeq: " ++ cseq ++ bytes "\r\nSession: "
                  ++ fmtD (toInt32 s.fOurSessionId) ++ bytes "\r\n\r\n" }) := by
  have c1 : bytes "PLAY" ≠ bytes "TEARDOWN" := by decide
  have c2 : bytes "PAUSE" ≠ bytes "TEARDOWN" := by decide
  have c3 : bytes "PAUSE" ≠ bytes "PLAY" := by decide
  refine ⟨?_, ?_⟩
  · intro h1 h2
    refine ⟨?_, ?_, ?_⟩
    · simp only [handleCmd_withinSession, hb, if_neg h1, if_pos h2, withinSessionCmd, if_neg c1,
        if_true, handleCmd_PLAY, streamCalls_aggregated _ _ _ _ hst, Option.map_some',
        sessionResponse]
    · simp only [handleCmd_withinSession, hb, if_neg h1, if_pos h2, withinSessionCmd, if_neg c2,
        if_neg c3, if_true, handleCmd_PAUSE, streamCalls_aggregated _ _ _ _ hst,
        Option.map_some', sessionResponse]
    · have := congrArg List.length hst
      simp only [List.length_map] at this
      rw [List.length_zipWith, this, Nat.min_self]
  · intro sub h1 h2 hf
    have hm : sub ∈ ms.subsessions := List.mem_of_find?_eq_some hf
    have hmap : (s.fStreamStates.map (fun st => st.subsession)).Nodup := by
      rw [hst]
      exact hnd.map (fun a b hab => Option.some.inj hab)
    obtain ⟨st, hs1, hs2, hs3⟩ :=
      streamCalls_single Event.startStream s.fOurSessionId sub _ _ hst hnd hm
    obtain ⟨st2, ht1, ht2, ht3⟩ :=
      streamCalls_single Event.pauseStream s.fOurSessionId sub _ _ hst hnd hm
    have e : st2 = st :=
      List.inj_on_of_nodup_map hmap ht1 hs1 (by rw [ht2, hs2])
    subst e
    refine ⟨st2, hs1, hs2, ?_, ?_, ?_⟩
    · intro t ht e
      exact List.inj_on_of_nodup_map hmap ht hs1 (by rw [e, hs2])
    · simp only [handleCmd_withinSession, hb, if_pos (And.intro h1 h2), hf, withinSessionCmd,
        if_neg c1, if_true, handleCmd_PLAY, hs3, Option.map_some', sessionResponse]
    · simp only [handleCmd_withinSession, hb, if_pos (And.intro h1 h2), hf, withinSessionCmd,
        if_neg c2, if_neg c3, if_true, handleCmd_PAUSE, ht3, Option.map_some', sessionResponse]

/-! ## The token `RTSP/` inside the path -/

set_option maxRecDepth 100000 in
/-- C26, the failing runs.  The search of lines 844-846 stops at the first
`RTSP/` after the host, so a first path segment that ends in `RTSP` is
taken for the protocol version: for the stream `RTSP` both results are
empty, for the stream `myRTSP` the URL suffix is `my` and the URL pre-suffix
is empty, where `RTSP`, `t0` and `myRTSP`, `t0` were to be returned.  A
last segment `RTSP` and segments with letters of both cases that do not end
in `RTSP` are returned as they are. -/
theorem parseRequestString_rtsp_in_path :
    parseRequestString (demoStreamRTSP ++ [0]) demoStreamRTSP.length
        PARAM_STRING_MAX PARAM_STRING_MAX PARAM_STRING_MAX PARAM_STRING_MAX
      = some ⟨true, bytes "DESCRIBE" ++ [0], [0], [0], bytes "1" ++ [0]⟩
    ∧ parseRequestString (demoStreamMyRTSP ++ [0]) demoStreamMyRTSP.length
        PARAM_STRING_MAX PARAM_STRING_MAX PARAM_STRING_MAX PARAM_STRING_MAX
      = some ⟨true, bytes "DESCRIBE" ++ [0], [0], bytes "my" ++ [0], bytes "1" ++ [0]⟩
    ∧ parseRequestString (demoTrackRTSP ++ [0]) demoTrackRTSP.length
        PARAM_STRING_MAX PARAM_STRING_MAX PARAM_STRING_MAX PARAM_STRING_MAX
      = some ⟨true, bytes "DESCRIBE" ++ [0], bytes "s" ++ [0], bytes "RTSP" ++ [0],
          bytes "1" ++ [0]⟩
    ∧ parseRequestString (demoMixedCase ++ [0]) demoMixedCase.length
        PARAM_STRING_MAX PARAM_STRING_MAX PARAM_STRING_MAX PARAM_STRING_MAX
      = some ⟨true, bytes "SETUP" ++ [0], bytes "Movie" ++ [0], bytes "Track1" ++ [0],
          bytes "1" ++ [0]⟩ := by
  refine ⟨?_, ?_, ?_, ?_⟩ <;> decide

/-! ## Reads outside the request -/

set_option maxRecDepth 100000 in
/-- C27, the failing runs.  When the memory ends with the request, so that
every index from `reqStrSize` on is outside it, the call has no defined
result for the six bytes `A \r\n\r\n` (the bound `reqStrSize-8` wraps and
the search reads `reqStr[6]`), for a request that starts with a space and
`RTSP/` (`--k >= i` wraps at `i = 0` and `reqStr[4294967295]` is read) and
for ` x RTSP/1.0` (`k3 = --k1` wraps); a request of the usual form is
parsed within its bytes. -/
theorem parseRequestString_reads_outside :
    parseRequestString (bytes "A \r\n\r\n") 6
        PARAM_STRING_MAX PARAM_STRING_MAX PARAM_STRING_MAX PARAM_STRING_MAX = none
    ∧ parseRequestString (bytes " RTSP/1.0\r\nCSeq: 1\r\n\r\n") 22
        PARAM_STRING_MAX PARAM_STRING_MAX PARAM_STRING_MAX PARAM_STRING_MAX = none
    ∧ parseRequestString (bytes " x RTSP/1.0\r\nCSeq: 1\r\n\r\n") 24
        PARAM_STRING_MAX PARAM_STRING_MAX PARAM_STRING_MAX PARAM_STRING_MAX = none
    ∧ (bytes "A \r\n\r\n").length = 6
    ∧ (bytes " RTSP/1.0\r\nCSeq: 1\r\n\r\n").length = 22
    ∧ (bytes " x RTSP/1.0\r\nCSeq: 1\r\n\r\n").length = 24
    ∧ parseRequestString (bytes "SETUP rtsp://host/s/t0 RTSP/1.0\r\nCSeq: 3\r\n\r\n") 44
        PARAM_STRING_MAX PARAM_STRING_MAX PARAM_STRING_MAX PARAM_STRING_MAX
      = some ⟨true, bytes "SETUP" ++ [0], bytes "s" ++ [0], bytes "t0" ++ [0], bytes "3" ++ [0]⟩ := by
  refine ⟨?_, ?_, ?_, ?_, ?_, ?_, ?_⟩ <;> decide

/-! ## The NUL after the request -/

theorem containsEnd_suffix (pre : List Nat) : containsEnd (pre ++ [13, 10, 13, 10]) := by
  refine ⟨pre.length, ⟨?_, ?_⟩, ⟨?_, ?_⟩⟩
  · rw [List.getElem?_append_right (by omega), Nat.sub_self]; rfl
  · rw [List.getElem?_append_right (by omega), Nat.add_sub_cancel_left]; rfl
  · rw [List.getElem?_append_right (by omega), Nat.add_sub_cancel_left]; rfl
  · rw [List.getElem?_append_right (by omega),
      show pre.length + 2 + 1 - pre.length = 3 by omega]; rfl

/-- C28, the failing run.  When the reads fill the buffer of `B` bytes
exactly and the last of them completes the first `\r\n\r\n`, the loop ends
with `endOfMsg` and `totalBytes = B`: the store `fBuffer[totalBytes] = 0` of
line 296 is one byte behind the buffer.  (`bytesLeft` is tested before a
read only, and a read may take all of `bytesLeft`.) -/
theorem readLoop_fills_buffer (B : Nat) (chunks : List (List Nat))
    (hne : ∀ c ∈ chunks, c ≠ []) (hlen : chunks.flatten.length = B)
    (hend : containsEnd chunks.flatten)
    (hfirst : ¬ containsEnd (chunks.take (chunks.length - 1)).flatten) :
    ∃ st, readLoop chunks (ReadState.init B) = ReadResult.endOfMsg st
      ∧ st.buf = chunks.flatten ∧ st.totalBytes = B ∧ terminateRequest B st = none := by
  have hpos : 1 ≤ chunks.length := by
    cases chunks with
    | nil =>
      obtain ⟨u, h1, _⟩ := hend
      simp [crlfAt] at h1
    | cons c cs => simp
  have h := readLoop_spec B chunks (ReadState.init B) chunks.length hne rfl
    (by simp [ReadState.init]) (by simp [ReadState.init, hlen])
    (by
      refine ⟨fun u hu => ?_, Or.inl ⟨rfl, fun p hp => ?_⟩⟩
      · simp [ReadState.init] at hu
      · simp [ReadState.init] at hp)
  simp only [ReadState.init, List.nil_append, List.take_length] at h
  obtain ⟨st, h1, _, h3, h4⟩ := h.2 ⟨hpos, Nat.le_refl _, hend, hfirst⟩
  have ht : st.totalBytes = B := by rw [h4, h3, hlen]
  exact ⟨st, h1, h3, ht, by simp [terminateRequest, ht]⟩

/-! ## The cursor of `parseAuthorizationHeader` -/

theorem bytes_username_open :
    bytes "username=\"" = [117, 115, 101, 114, 110, 97, 109, 101, 61, 34] := by decide

theorem cstrAt_of_drop (mem A : List Nat) (q : Nat) (tail : List Nat)
    (hq : mem.drop q = A ++ 0 :: tail) (hA : ∀ c ∈ A, c ≠ 0) : cstrAt mem q = some A := by
  unfold cstrAt
  rw [hq, cstr_append _ _ hA]
  simp [cstr]

/-- A parameter whose value has an opening quote and no closing quote before
the NUL that ends the memory: the cursor is moved one byte behind the NUL,
and the byte there is read. -/
theorem authFields_unterminated (mem v : List Nat) (cap n q : Nat) (f : AuthFields)
    (hq : mem.drop q = bytes "username=\"" ++ (v ++ [0]))
    (hv : ∀ c ∈ v, c ≠ 0 ∧ c ≠ 34) :
    authFields mem cap (n + 1) q f = none := by
  have hlen : mem.length = q + (10 + (v.length + 1)) := by
    have := congrArg List.length hq
    rw [List.length_drop, List.length_append, List.length_append, bytes_username_open] at this
    simp only [List.length_cons, List.length_nil] at this
    have hpos : q < mem.length := by omega
    omega
  have hU : ∀ c ∈ bytes "username=\"" ++ v, c ≠ 0 := by
    intro c hc
    rcases List.mem_append.1 hc with h | h
    · exact (by decide : ∀ c ∈ bytes "username=\"", c ≠ 0) c h
    · exact (hv c h).1
  have hc : cstrAt mem q = some (bytes "username=\"" ++ v) :=
    cstrAt_of_drop mem _ q [] (by rw [hq, List.append_assoc]) hU
  have hp : (bytes "username=\"" ++ v).takeWhile (fun c => c != 61) = bytes "username" := by
    rw [bytes_username_open]
    simp [List.takeWhile, bytes]
  have hval : (v.takeWhile (fun c => c != 34)) = v := by
    rw [List.takeWhile_eq_self_iff]
    intro c hc
    simpa using (hv c hc).2
  have hs : scanLiteral [61, 34] ((bytes "username=\"" ++ v).drop 8) = some v := by
    rw [bytes_username_open]
    simp [scanLiteral, bytes]
  have hb : (bytes "username").length = 8 := by decide
  have hcap : ¬ (cap < 8 + 1 ∨ cap < v.length + 1) →
      skipSeparators mem (mem.length + 1) (q + (8 + 2 + v.length + 1)) = none := by
    intro _
    have : mem[q + (8 + 2 + v.length + 1)]? = none := by
      rw [List.getElem?_eq_none_iff]; omega
    rw [skipSeparators, this]
  rw [authFields, hc]
  simp only [hp, hb, hs, hval]
  rw [if_neg (by decide)]
  split
  · rfl
  · rename_i h
    rw [hcap h]

/-- C29, the failing run.  The request ends, behind its first
`Authorization: Digest ` header, with `username="` and a value `v` that has
no closing quote (`pre` holds no NUL and no earlier header name).  `%[^"]`
reads `v` up to the NUL, and `fields` is moved by
`strlen(parameter) + 2 + strlen(value) + 1`, one byte behind the NUL; the
byte there is read.  When the memory ends with the NUL the call has no
defined result; when older bytes follow the NUL they are parsed as further
parameters of the header.  With the closing quote the value is returned. -/
theorem parseAuthorizationHeader_unterminated (pre v : List Nat)
    (h0 : ∀ c ∈ pre, c ≠ 0)
    (hpre : ∀ i, i < pre.length →
      strncasecmpEq ((pre ++ bytes "Authorization: Digest ").drop i)
        (bytes "Authorization: Digest ") = false)
    (hv : ∀ c ∈ v, c ≠ 0 ∧ c ≠ 34) :
    parseAuthorizationHeader
        (pre ++ (bytes "Authorization: Digest " ++ (bytes "username=\"" ++ (v ++ [0])))) = none
    ∧ parseAuthorizationHeader (demoDescribeHead
        ++ bytes "Authorization: Digest username=\"alice\r\n\r\n" ++ [0]
        ++ bytes "response=\"stale\"" ++ [0])
      = some (true, ⟨some (bytes "alice\r\n\r\n"), none, none, none, some (bytes "stale")⟩)
    ∧ parseAuthorizationHeader (demoDescribeHead
        ++ bytes "Authorization: Digest username=\"alice\"\r\n\r\n" ++ [0])
      = some (true, ⟨some (bytes "alice"), none, none, none, none⟩) := by
  refine ⟨?_, by decide, by decide⟩
  have hA : ∀ c ∈ bytes "Authorization: Digest ", c ≠ 0 := by decide
  have hU : ∀ c ∈ bytes "username=\"" ++ v, c ≠ 0 := by
    intro c hc
    rcases List.mem_append.1 hc with h | h
    · exact (by decide : ∀ c ∈ bytes "username=\"", c ≠ 0) c h
    · exact (hv c h).1
  obtain ⟨mem, hm⟩ : ∃ mem, mem
      = pre ++ (bytes "Authorization: Digest " ++ (bytes "username=\"" ++ (v ++ [0]))) := ⟨_, rfl⟩
  have hc : cstrAt mem 0
      = some (pre ++ (bytes "Authorization: Digest " ++ (bytes "username=\"" ++ v))) := by
    apply cstrAt_of_drop mem _ 0 []
    · rw [List.drop_zero, hm]; simp only [List.append_assoc]
    · intro c hc
      rcases List.mem_append.1 hc with h | h
      · exact h0 c h
      · rcases List.mem_append.1 h with h | h
        · exact hA c h
        · exact hU c h
  have hd : (bytes "username=\"" ++ v).dropWhile (fun c => c == 32) = bytes "username=\"" ++ v := by
    rw [bytes_username_open]; rfl
  have hq : mem.drop (pre.length + 22) = bytes "username=\"" ++ (v ++ [0]) := by
    rw [hm, ← List.append_assoc]
    exact List.drop_left' (by rw [List.length_append]; rfl)
  have hi : (pre ++ (bytes "Authorization: Digest " ++ (bytes "username=\"" ++ v))).length
      - (bytes "username=\"" ++ v).length = pre.length + 22 := by
    simp only [List.length_append]
    have : (bytes "Authorization: Digest ").length = 22 := by decide
    omega
  rw [← hm, parseAuthorizationHeader, hc]
  simp only []
  rw [findHeader_after _ _ _ hpre, findHeader_here _ _ (by decide)]
  simp only [hd, hi]
  rw [authFields_unterminated mem v _ _ _ _ hq hv]

/-! ## TEARDOWN of one track -/

/-- The calls of `reclaimStreamStates` for the stream states of the
subsessions `subs`: one call of `deleteStream` for each stream state, in
order, with the id of the session and the token the state holds. -/
theorem reclaimEvents_zipWith (id : Nat) :
    ∀ (l : List StreamState) (subs : List ServerMediaSubsession),
      l.map (fun st => st.subsession) = subs.map some →
      reclaimEvents id l
        = List.zipWith (fun sub st => Event.deleteStream sub.ident id st.streamToken) subs l := by
  intro l
  induction l with
  | nil => intro subs _; cases subs <;> rfl
  | cons st rest ih =>
    intro subs h
    cases subs with
    | nil => simp at h
    | cons sub subs =>
      simp only [List.map_cons, List.cons.injEq] at h
      rw [reclaimEvents, h.1, List.zipWith_cons_cons, ih subs h.2]

/-- C25, as amended.  A TEARDOWN for the track `urlSuffix` of the bound
stream ends the whole session, as an aggregated TEARDOWN does:
`handleCmd_TEARDOWN` is given the subsession found and does not use it, the
response is `RTSP/1.0 200 OK` with the `CSeq` header, the session is
inactive, so that it is destroyed after the response, and its destruction
calls `deleteStream` once for every stream state of the session, in the
order of the list and with the token the state holds. -/
theorem handleCmd_withinSession_TEARDOWN (s : RTSPClientSession) (ms : ServerMediaSession)
    (urlPreSuffix urlSuffix cseq : List Nat) (sub : ServerMediaSubsession)
    (hb : s.fOurServerMediaSession = some ms)
    (hst : s.fStreamStates.map (fun st => st.subsession) = ms.subsessions.map some)
    (h1 : urlSuffix ≠ []) (h2 : cstr ms.streamName = urlPreSuffix)
    (hf : ms.subsessions.find? (fun t => cstr t.trackId == urlSuffix) = some sub) :
    handleCmd_withinSession s (bytes "TEARDOWN") urlPreSuffix urlSuffix cseq
      = some { s with
          fBuffer := bytes "RTSP/1.0 200 OK\r\nCSeq: " ++ cseq ++ bytes "\r\n\r\n",
          fSessionIsActive := false }
    ∧ handleCmd_withinSession s (bytes "TEARDOWN") urlPreSuffix urlSuffix cseq
      = handleCmd_withinSession s (bytes "TEARDOWN") [] (cstr ms.streamName) cseq
    ∧ destroy { s with
          fBuffer := bytes "RTSP/1.0 200 OK\r\nCSeq: " ++ cseq ++ bytes "\r\n\r\n",
          fSessionIsActive := false }
      = { s with
          fBuffer := bytes "RTSP/1.0 200 OK\r\nCSeq: " ++ cseq ++ bytes "\r\n\r\n",
          fSessionIsActive := false,
          fStreamStates := [],
          log := s.log ++ List.zipWith
            (fun t st => Event.deleteStream t.ident s.fOurSessionId st.streamToken)
            ms.subsessions s.fStreamStates }
    ∧ (List.zipWith (fun t st => Event.deleteStream t.ident s.fOurSessionId st.streamToken)
        ms.subsessions s.fStreamStates).length = s.fStreamStates.length := by
  have e1 : handleCmd_withinSession s (bytes "TEARDOWN") urlPreSuffix urlSuffix cseq
      = some (handleCmd_TEARDOWN s cseq) := by
    simp only [handleCmd_withinSession, hb, if_pos (And.intro h1 h2), hf, withinSessionCmd,
      if_true]
  have e2 : handleCmd_withinSession s (bytes "TEARDOWN") [] (cstr ms.streamName) cseq
      = some (handleCmd_TEARDOWN s cseq) := by
    by_cases hn : cstr ms.streamName ≠ [] ∧ cstr ms.streamName = []
    · exact absurd hn.2 hn.1
    · simp only [handleCmd_withinSession, hb, if_neg hn, true_or, if_true, withinSessionCmd]
  refine ⟨e1, by rw [e1, e2], ?_, ?_⟩
  · simp only [destroy, reclaimStreamStates, reclaimEvents_zipWith _ _ _ hst]
  · have := congrArg List.length hst
    simp only [List.length_map] at this
    rw [List.length_zipWith, this, Nat.min_self]

/-! ## Authentication with bytes behind the request -/

set_option maxRecDepth 100000 in
/-- C5, the failing run.  The request `demoUsernameOnly` supplies a username
and no realm, nonce, uri or response.  The parameter `algorithm-MD5` has no
`=`, so `%[^=]` reads it up to the NUL, and line 730, which takes every
parameter to have the form `name="value"`, moves `fields` three bytes
behind the NUL (the defect of C29).  In the session `demoChallenged`
(nonce `N` outstanding) the call of `authenticationOK` returns true and the
DESCRIBE is answered with `200 OK` when the bytes behind the NUL hold a
realm, the nonce, a uri and the digest, and returns false, with the 401
response, when they are zero: the result is not a function of the request,
and a request without the five values is accepted. -/
theorem authenticationOK_stale_bytes :
    cstr demoStaleMemory = demoUsernameOnly
    ∧ cstr demoZeroMemory = demoUsernameOnly
    ∧ parseAuthorizationHeader demoZeroMemory
      = some (true, ⟨some (bytes "alice"), none, none, none, none⟩)
    ∧ parseAuthorizationHeader demoStaleMemory
      = some (true, ⟨some (bytes "alice"), some (bytes "R"), some (bytes "N"),
          some (bytes "rtsp://host/s"), some (bytes "aliceRpwNDESCRIBErtsp://host/s")⟩)
    ∧ (authenticationOK demoEnv demoAuthServer demoExternal demoChallenged (bytes "DESCRIBE")
        (bytes "2") demoStaleMemory).map (fun r => r.1) = some true
    ∧ (authenticationOK demoEnv demoAuthServer demoExternal demoChallenged (bytes "DESCRIBE")
        (bytes "2") demoZeroMemory).map (fun r => r.1) = some false
    ∧ (handleRequest demoEnv demoAuthServer demoExternal demoChallenged demoStaleMemory
        demoUsernameOnly.length).map (fun s1 => s1.fBuffer.take 24)
      = some (bytes "RTSP/1.0 200 OK\r\nCSeq: 2")
    ∧ (handleRequest demoEnv demoAuthServer demoExternal demoChallenged demoZeroMemory
        demoUsernameOnly.length).map (fun s1 => s1.fBuffer.take 34)
      = some (bytes "RTSP/1.0 401 Unauthorized\r\nCSeq: 2") := by
  refine ⟨?_, ?_, ?_, ?_, ?_, ?_, ?_, ?_⟩ <;> decide

/-! ## The nonce of the 401 response -/

/-- C6. Every failed call of `authenticationOK` (made by the DESCRIBE
handler), with or without an outstanding nonce, goes through
`setRealmAndRandomNonce` before the response is written: the nonce
generated by this call is the authenticator's nonce afterwards, with the
realm of the database, and the response is `RTSP/1.0 401 Unauthorized`,
`CSeq: <cseq>`, `WWW-Authenticate: Digest realm="<R>", nonce="<N>"` with `N`
that new nonce.  As the generated nonce is fresh, `N` is not the nonce that
was outstanding during the call, and the response does not carry that one.
`handleCmd_DESCRIBE` then returns at once: it makes no call (no registry
lookup, no SDP generation) and leaves the session's active flag as it
was. -/
theorem authenticationOK_failure (env : Env) (srv : Server) (x : External)
    (s : RTSPClientSession) (cseq urlSuffix mem : List Nat) (s1 : RTSPClientSession)
    (h : authenticationOK env srv x s (bytes "DESCRIBE") cseq mem = some (false, s1))
    (hfresh : FreshNonce s.fCurrentAuthenticator.nonce x.randomNonce) :
    (∃ db N, srv.fAuthDB = some db
      ∧ s1.fCurrentAuthenticator.nonce = some N
      ∧ N = x.randomNonce
      ∧ s1.fCurrentAuthenticator.realm = some db.fRealm
      ∧ s1.fBuffer = bytes "RTSP/1.0 401 Unauthorized\r\nCSeq: " ++ cseq
          ++ bytes "\r\nWWW-Authenticate: Digest realm=\"" ++ db.fRealm
          ++ bytes "\", nonce=\"" ++ N ++ bytes "\"\r\n\r\n"
      ∧ ∀ rejected, s.fCurrentAuthenticator.nonce = some rejected →
          N ≠ rejected
          ∧ s1.fBuffer ≠ bytes "RTSP/1.0 401 Unauthorized\r\nCSeq: " ++ cseq
              ++ bytes "\r\nWWW-Authenticate: Digest realm=\"" ++ db.fRealm
              ++ bytes "\", nonce=\"" ++ rejected ++ bytes "\"\r\n\r\n")
    ∧ s1.fCurrentAuthenticator.nonce ≠ s.fCurrentAuthenticator.nonce
    ∧ handleCmd_DESCRIBE env srv x s cseq urlSuffix mem = some s1
    ∧ s1.log = s.log
    ∧ s1.fSessionIsActive = s.fSessionIsActive := by
  obtain ⟨db, s0, hdb, hs1, hlog, hact⟩ :=
    authenticationOK_failed_form env srv x s (bytes "DESCRIBE") cseq mem s1 h
  have hn : s1.fCurrentAuthenticator.nonce = some x.randomNonce := by rw [hs1]; rfl
  have hbuf : s1.fBuffer = bytes "RTSP/1.0 401 Unauthorized\r\nCSeq: " ++ cseq
      ++ bytes "\r\nWWW-Authenticate: Digest realm=\"" ++ db.fRealm
      ++ bytes "\", nonce=\"" ++ x.randomNonce ++ bytes "\"\r\n\r\n" := by rw [hs1]; rfl
  refine ⟨⟨db, x.randomNonce, hdb, hn, rfl, ?_, hbuf, ?_⟩, ?_, ?_, ?_, ?_⟩
  · rw [hs1]; rfl
  · intro rejected hr
    have hne : x.randomNonce ≠ rejected := by
      intro e
      apply hfresh
      rw [hr, e]
    refine ⟨hne, ?_⟩
    rw [hbuf]
    intro e
    simp only [List.append_assoc, List.append_cancel_left_eq] at e
    exact hne (List.append_cancel_right e)
  · rw [hn]; exact fun e => hfresh e.symm
  · simp only [handleCmd_DESCRIBE, h]
  · rw [hs1]; exact hlog
  · rw [hs1]; exact hact

/-! ## The reclamation of the stream states -/

set_option maxRecDepth 100000 in
/-- The credentials of `alice` are accepted when the response is the digest
of the stand-in function, and rejected when one character of it differs;
the header name is matched without regard to case. -/
theorem authenticationOK_examples :
    (authenticationOK demoEnv demoAuthServer demoExternal demoChallenged (bytes "DESCRIBE")
        (bytes "2") (demoDescribeAuth "aliceRpwNDESCRIBErtsp://host/s")).map (fun r => r.1)
      = some true
    ∧ (authenticationOK demoEnv demoAuthServer demoExternal demoChallenged (bytes "DESCRIBE")
        (bytes "2") (demoDescribeAuth "aliceRpwNDESCRIBErtsp://host/t")).map (fun r => r.1)
      = some false := by
  decide

/-- The two SETUP requests of C9, inputs of `handleCmd_SETUP_response`: the
UDP request is answered with `client_port=6000-6001`, the TCP request with
`interleaved=0-1`. -/
theorem handleCmd_SETUP_response_witness :
    (handleCmd_SETUP demoEnv demoServer demoExternal (RTSPClientSession.new 1 5 99) (bytes "3")
        (bytes "s") (bytes "t0") demoSetupUDP).fBuffer
      = bytes "RTSP/1.0 200 OK\r\nCSeq: 3\r\nTransport: RTP/AVP;unicast;destination=10.0.0.1;client_port=6000-6001;server_port=6970-6971\r\nSession: 1\r\n\r\n"
    ∧ (handleCmd_SETUP demoEnv demoServer demoExternal (RTSPClientSession.new 1 5 99) (bytes "3")
        (bytes "s") (bytes "t0") demoSetupTCP).fBuffer
      = bytes "RTSP/1.0 200 OK\r\nCSeq: 3\r\nTransport: RTP/AVP/TCP;unicast;destination=10.0.0.1;interleaved=0-1\r\nSession: 1\r\n\r\n" :=
  ⟨(handleCmd_SETUP_response demoEnv demoServer demoExternal (RTSPClientSession.new 1 5 99)
      (bindSession demoServer (RTSPClientSession.new 1 5 99) (bytes "s")).1 (bytes "3")
      (bytes "s") (bytes "t0") demoSetupUDP 0 ⟨10, bytes "t0"⟩ (by decide) (by decide)).trans
      (by decide),
   (handleCmd_SETUP_response demoEnv demoServer demoExternal (RTSPClientSession.new 1 5 99)
      (bindSession demoServer (RTSPClientSession.new 1 5 99) (bytes "s")).1 (bytes "3")
      (bytes "s") (bytes "t0") demoSetupTCP 0 ⟨10, bytes "t0"⟩ (by decide) (by decide)).trans
      (by decide)⟩

/-- A SETUP request that names the destination `1.2.3.4` and the TTL 5, an
input of `handleCmd_SETUP_destination`: the call of `getStreamParameters`
is made, with the destination address 0 and the TTL 255. -/
theorem handleCmd_SETUP_destination_witness :
    (handleCmd_SETUP demoEnv demoServer demoExternal (RTSPClientSession.new 1 5 99) (bytes "3")
        (bytes "s") (bytes "t0") demoSetupUDP).log
      = [Event.lookup (bytes "s"), Event.newStreamStates 2,
          Event.getStreamParameters ⟨10, 1, 99, 6000, 6001, -1, 255, 255, 0, 255, some 77⟩]
    ∧ ∃ evs, (handleCmd_SETUP demoEnv demoServer demoExternal (RTSPClientSession.new 1 5 99)
          (bytes "3") (bytes "s") (bytes "t0") demoSetupUDP).log
        = (RTSPClientSession.new 1 5 99).log ++ evs
      ∧ ∀ c, Event.getStreamParameters c ∈ evs →
          c.destinationAddress = 0 ∧ c.destinationTTL = 255
          ∧ c.tcpSocketNum
            = if (parseTransportHeader demoSetupUDP).tcpStreamingRequested then
                (RTSPClientSession.new 1 5 99).fClientSocket else -1 :=
  ⟨by decide,
   handleCmd_SETUP_destination demoEnv demoServer demoExternal (RTSPClientSession.new 1 5 99)
     (bytes "3") (bytes "s") (bytes "t0") demoSetupUDP rfl⟩

/-- The first SETUP of a session on the two-track stream `s`, an input of
`handleCmd_SETUP_binding`: both stream states are allocated, and only the
one of `t0` holds a token. -/
theorem handleCmd_SETUP_binding_witness :
    (handleCmd_SETUP demoEnv demoServer demoExternal (RTSPClientSession.new 1 5 99) (bytes "3")
        (bytes "s") (bytes "t0") demoSetupUDP).fOurServerMediaSession = some demoSession
    ∧ (handleCmd_SETUP demoEnv demoServer demoExternal (RTSPClientSession.new 1 5 99) (bytes "3")
        (bytes "s") (bytes "t0") demoSetupUDP).fStreamStates
      = [⟨some ⟨10, bytes "t0"⟩, some 77⟩, ⟨some ⟨11, bytes "t1"⟩, none⟩] :=
  ⟨(handleCmd_SETUP_binding demoEnv demoServer demoExternal (RTSPClientSession.new 1 5 99)
      (bytes "3") (bytes "s") (bytes "t0") demoSetupUDP demoSession (Or.inl rfl)
      (by decide)).2.1,
   by decide⟩

set_option maxRecDepth 100000 in
/-- The SETUP requests whose only header after `CSeq` is
`Transport: RTP/AVP/TCP`, or `Transport: unicast;RTP/AVP/TCP`: inputs of
`parseTransportHeader_last_field`. -/
theorem parseTransportHeader_last_field_witness :
    (parseTransportHeader
        (demoSetupHead ++ (bytes "Transport: RTP/AVP/TCP\r\n" ++ (bytes "\r\n" ++ [0])))
        = TransportParams.default
      ∧ parseTransportHeader
        (demoSetupHead ++ (bytes "Transport: unicast;RTP/AVP/TCP\r\n" ++ (bytes "\r\n" ++ [0])))
        = TransportParams.default)
    ∧ TransportParams.default.tcpStreamingRequested = false :=
  parseTransportHeader_last_field demoSetupHead (bytes "\r\n" ++ [0]) (by decide) (by decide)
    (by decide)

set_option maxRecDepth 100000 in
/-- The two SETUP requests `demoSetupPlain` and `demoSetupLater`, which
have the head `demoSetupHead`: inputs of
`parseTransportHeader_later_lines`. -/
theorem parseTransportHeader_later_lines_witness :
    demoSetupPlain = demoTransportLine ++ bytes "\r\n" ++ [0]
    ∧ demoSetupLater
      = demoTransportLine ++ bytes "X: a;RTP/AVP/TCP;client_port=1-2\r\n\r\n" ++ [0]
    ∧ parseTransportHeader demoSetupPlain = ⟨false, none, 255, 6000, 6001, 255, 255⟩
    ∧ parseTransportHeader demoSetupLater = ⟨true, none, 255, 1, 2, 255, 255⟩ := by
  have h := parseTransportHeader_later_lines demoSetupHead (by decide) (by decide)
  have e1 : demoSetupPlain = demoSetupHead ++ (bytes "Transport: "
      ++ (bytes "RTP/AVP;unicast;client_port=6000-6001\r\n" ++ (bytes "\r\n" ++ [0]))) := by
    decide
  have e2 : demoSetupLater = demoSetupHead ++ (bytes "Transport: "
      ++ (bytes "RTP/AVP;unicast;client_port=6000-6001\r\n"
        ++ (bytes "X: a;RTP/AVP/TCP;client_port=1-2\r\n\r\n" ++ [0]))) := by
    decide
  refine ⟨rfl, rfl, ?_, ?_⟩
  · rw [e1]; exact h.1
  · rw [e2]; exact h.2
set_option maxRecDepth 100000 in
/-- The classification of the specification on the media session `s` with
the tracks `t0` and `t1`. -/
theorem classifySpec_examples :
    classifySpec none (bytes "s") (bytes "t1") = Classification.methodNotAllowed
    ∧ classifySpec (some demoSession) (bytes "s") (bytes "t1")
      = Classification.nonAggregated ⟨11, bytes "t1"⟩
    ∧ classifySpec (some demoSession) (bytes "s") (bytes "t2") = Classification.notFound
    ∧ classifySpec (some demoSession) (bytes "host") (bytes "s") = Classification.aggregated
    ∧ classifySpec (some demoSession) (bytes "s") [] = Classification.aggregated
    ∧ classifySpec (some demoSession) (bytes "a") (bytes "b") = Classification.notFound := by
  decide

set_option maxRecDepth 100000 in
/-- C16, the counterexample.  A session that has set up a track sends
`TEARDOWN rtsp://host/s RTSP/1.0` with `CSeq: 4`: the response is
`RTSP/1.0 200 OK`, `CSeq: 4` and the empty line; the text `Session: ` does
not occur in it. -/
theorem handleCmd_TEARDOWN_counterexample :
    (handleRequest demoEnv demoServer demoTeardownRequest.x demoBound demoTeardownRequest.mem
        demoTeardownRequest.totalBytes).map (fun s1 => s1.fBuffer)
      = some (bytes "RTSP/1.0 200 OK\r\nCSeq: 4\r\n\r\n")
    ∧ ¬ (bytes "Session: " <:+: bytes "RTSP/1.0 200 OK\r\nCSeq: 4\r\n\r\n") := by
  decide

set_option maxRecDepth 100000 in
/-- An aggregated PLAY with `CSeq: 5` in the session 1 that has set up a
track: an input of `handleCmd_PLAY_response`. -/
theorem handleCmd_PLAY_response_witness :
    (∀ st ∈ demoBound.fStreamStates, st.subsession ≠ none)
    ∧ ∃ s1, handleCmd_PLAY demoBound none (bytes "5") = some s1
      ∧ s1.fBuffer = bytes "RTSP/1.0 200 OK\r\nCSeq: 5\r\nSession: 1\r\n\r\n" :=
  ⟨by decide, by
    obtain ⟨s1, h1, h2⟩ := (handleCmd_PLAY_response demoBound none (bytes "5") (by decide)).1
    exact ⟨s1, h1, by rw [h2]; decide⟩⟩

set_option maxRecDepth 100000 in
/-- The request `GET / HTTP/1.0`, which `parseRequestString` rejects: an
input of `handleRequest_bad`. -/
theorem handleRequest_bad_witness :
    parseRequestString demoBadRequest.mem demoBadRequest.totalBytes PARAM_STRING_MAX
        PARAM_STRING_MAX PARAM_STRING_MAX PARAM_STRING_MAX
      = some ⟨false, bytes "GET" ++ [0], [], [], []⟩
    ∧ ∃ s1, handleRequest demoEnv demoServer demoExternal (RTSPClientSession.new 1 5 99)
          demoBadRequest.mem demoBadRequest.totalBytes = some s1
      ∧ s1.fBuffer = bytes
          "RTSP/1.0 400 Bad Request\r\nAllow: OPTIONS, DESCRIBE, SETUP, TEARDOWN, PLAY, PAUSE\r\n\r\n"
      ∧ s1.fSessionIsActive = false :=
  ⟨by decide, by
    obtain ⟨s1, h1, h2, _, h4, _⟩ := handleRequest_bad demoEnv demoServer demoExternal
      (RTSPClientSession.new 1 5 99) demoBadRequest.mem demoBadRequest.totalBytes
      ⟨false, bytes "GET" ++ [0], [], [], []⟩ (by decide) rfl
    exact ⟨s1, h1, h2, h4⟩⟩

set_option maxRecDepth 100000 in
/-- C15, the counterexample.  A DESCRIBE for a stream the server does not
have is answered with `404 Stream Not Found`, and a SETUP that asks for TCP
on a multicast stream with `461 Unsupported Transport`; the session, active
before, is inactive afterwards. -/
theorem handleRequest_notFound_counterexample :
    (handleRequest demoEnv demoServer demoExternal (RTSPClientSession.new 1 5 99)
        demoDescribeNone.mem demoDescribeNone.totalBytes).map
      (fun s1 => (s1.fBuffer, s1.fSessionIsActive))
      = some (bytes "RTSP/1.0 404 Stream Not Found\r\nCSeq: 2\r\n\r\n", false)
    ∧ (handleRequest demoEnv demoServer demoMulticast (RTSPClientSession.new 1 5 99)
        demoSetupTCP 92).map (fun s1 => (s1.fBuffer, s1.fSessionIsActive))
      = some (bytes "RTSP/1.0 461 Unsupported Transport\r\nCSeq: 3\r\n\r\n", false)
    ∧ (RTSPClientSession.new 1 5 99).fSessionIsActive = true := by
  decide

set_option maxRecDepth 100000 in
/-- The DESCRIBE for a stream the server does not have, followed by another
request on the same connection: an input of
`handleRequest_notFound_closes`.  The session is destroyed after the
response and the second request is not handled. -/
theorem handleRequest_notFound_closes_witness :
    handleRequest demoEnv demoServer demoExternal (RTSPClientSession.new 1 5 99)
        demoDescribeNone.mem demoDescribeNone.totalBytes = some demoNotFound
    ∧ bytes "RTSP/1.0 404 Stream Not Found" <+: demoNotFound.fBuffer
    ∧ demoNotFound.fSessionIsActive = false
    ∧ runSession demoEnv demoServer
        [⟨demoDescribeNone.mem, demoDescribeNone.totalBytes, demoExternal⟩, demoSetupRequest]
        (RTSPClientSession.new 1 5 99) = some (destroy demoNotFound) :=
  ⟨by decide, by decide,
   ((handleRequest_notFound_closes demoEnv demoServer demoExternal
      (RTSPClientSession.new 1 5 99) demoNotFound demoDescribeNone.mem
      demoDescribeNone.totalBytes (by decide)).1 (Or.inl (by decide))).1,
   ((handleRequest_notFound_closes demoEnv demoServer demoExternal
      (RTSPClientSession.new 1 5 99) demoNotFound demoDescribeNone.mem
      demoDescribeNone.totalBytes (by decide)).1 (Or.inl (by decide))).2 [demoSetupRequest]⟩

/-- C14, the counterexample.  With a buffer of `10^9` bytes, a `CSeq` value
of 98 digits, the URL `rtsp://10.0.0.1/s` of 17 bytes and an SDP description
of 999999783 bytes, the two lengths have the sum `10^9 - 200`, so the 200
response is written; it has `10^9` bytes, and its terminating NUL is the
byte `10^9 + 1`.  With the buffer of 10000 bytes and an SDP description of
`2^32` bytes, `sdpDescriptionSize` is 0, and the 200 response is written with
`Content-Length: 0` and the whole description. -/
theorem handleCmd_DESCRIBE_fits_counterexample :
    (bigEnv.bufferSize = 1000000000
      ∧ (List.replicate 98 49).length = 98
      ∧ ∃ s1, handleCmd_DESCRIBE bigEnv bigServer demoExternal (RTSPClientSession.new 1 5 99)
            (List.replicate 98 49) (bytes "s") [] = some s1
        ∧ bytes "RTSP/1.0 200 OK\r\n" <+: s1.fBuffer
        ∧ s1.fBuffer.length + 1 = 1000000001)
    ∧ (demoEnv.bufferSize = 10000
      ∧ ∃ s1, handleCmd_DESCRIBE demoEnv hugeServer demoExternal (RTSPClientSession.new 1 5 99)
            (bytes "2") (bytes "s") [] = some s1
        ∧ bytes "RTSP/1.0 200 OK\r\n" <+: s1.fBuffer
        ∧ s1.fBuffer.length + 1 = 4294967409) := by
  have hurl : rtspURL bigEnv bigServer bigSession = bytes "rtsp://10.0.0.1/s" := by decide
  have hurl2 : rtspURL demoEnv hugeServer hugeSession = bytes "rtsp://10.0.0.1/s" := by decide
  have hc : cstr (List.replicate 999999783 97) = List.replicate 999999783 97 :=
    cstr_replicate _ _ (by decide)
  have hc2 : cstr (List.replicate 4294967296 97) = List.replicate 4294967296 97 :=
    cstr_replicate _ _ (by decide)
  have hpre : bytes "RTSP/1.0 200 OK\r\nCSeq: " = bytes "RTSP/1.0 200 OK\r\n" ++ bytes "CSeq: " := by
    decide
  have l1 : (bytes "RTSP/1.0 200 OK\r\nCSeq: ").length = 23 := by decide
  have l2 : (bytes "\r\nContent-Base: ").length = 16 := by decide
  have l3 : (bytes "/\r\nContent-Type: application/sdp\r\nContent-Length: ").length = 50 := by
    decide
  have l4 : (bytes "\r\n\r\n").length = 4 := by decide
  have l5 : (bytes "rtsp://10.0.0.1/s").length = 17 := by decide
  refine ⟨?_, ?_⟩
  · obtain ⟨s1, h1, h2⟩ := handleCmd_DESCRIBE_ok bigEnv bigServer demoExternal
      (RTSPClientSession.new 1 5 99) (RTSPClientSession.new 1 5 99) (List.replicate 98 49)
      (bytes "s") [] bigSession (List.replicate 999999783 97) rfl rfl rfl
      (by rw [hc, List.length_replicate, hurl]; decide)
    refine ⟨rfl, List.length_replicate _ _, s1, h1, ?_, ?_⟩
    · rw [h2, hpre]
      simp only [List.append_assoc]
      exact List.prefix_append _ _
    · rw [h2, hc, hurl]
      simp only [List.length_append, List.length_replicate]
      have hd : (fmtD (toInt32 999999783)).length = 9 := by decide
      rw [hd, l1, l2, l3, l4, l5]
  · obtain ⟨s1, h1, h2⟩ := handleCmd_DESCRIBE_ok demoEnv hugeServer demoExternal
      (RTSPClientSession.new 1 5 99) (RTSPClientSession.new 1 5 99) (bytes "2")
      (bytes "s") [] hugeSession (List.replicate 4294967296 97) rfl rfl rfl
      (by rw [hc2, List.length_replicate, hurl2]; decide)
    refine ⟨rfl, s1, h1, ?_, ?_⟩
    · rw [h2, hpre]
      simp only [List.append_assoc]
      exact List.prefix_append _ _
    · rw [h2, hc2, hurl2]
      simp only [List.length_append, List.length_replicate]
      have hd : (fmtD (toInt32 4294967296)).length = 1 := by decide
      have l6 : (bytes "2").length = 1 := by decide
      rw [hd, l1, l2, l3, l4, l5, l6]

set_option maxRecDepth 100000 in
/-- The DESCRIBE of the stream `s` of `demoServer`, whose SDP description
has 5 bytes, with the buffer of 10000 bytes: an input of
`handleRequest_DESCRIBE_fits`.  The 200 response is written. -/
theorem handleRequest_DESCRIBE_fits_witness :
    demoEnv.bufferSize = 10000
    ∧ ∃ s1, handleRequest demoEnv demoServer demoExternal (RTSPClientSession.new 1 5 99)
        demoDescribe 44 = some s1
      ∧ s1.fSessionIsActive = true
      ∧ s1.fBuffer = bytes
          "RTSP/1.0 200 OK\r\nCSeq: 2\r\nContent-Base: rtsp://10.0.0.1/s/\r\nContent-Type: application/sdp\r\nContent-Length: 5\r\n\r\nv=0\r\n"
      ∧ s1.fBuffer.length + 1 ≤ 10000 := by
  obtain ⟨s1, h1, h2, h3⟩ := handleRequest_DESCRIBE_fits demoEnv demoServer demoExternal
    (RTSPClientSession.new 1 5 99) (RTSPClientSession.new 1 5 99) demoDescribe 44
    ⟨true, bytes "DESCRIBE" ++ [0], [0], bytes "s" ++ [0], bytes "2" ++ [0]⟩
    demoSession (bytes "v=0\r\n") (by decide) (by decide) (by decide) rfl (by decide)
    (by decide) (by decide) rfl (by decide)
  refine ⟨rfl, s1, h1, h2, ?_⟩
  rcases h3 with ⟨hbig, _⟩ | ⟨_, hb, hl⟩
  · exact absurd hbig (by decide)
  · exact ⟨by rw [hb]; decide, hl⟩

set_option maxRecDepth 100000 in
/-- The media sessions `demoSession` and `demoSessionB`, both with the
stream name `s`, are added to a registry that holds `demoOther` under the
name `o`: an input of `addServerMediaSession_overwrite`.  The second call
deletes `demoSession`. -/
theorem addServerMediaSession_overwrite_witness :
    demoSession ≠ demoSessionB
    ∧ (addServerMediaSession (addServerMediaSession demoRegistry demoSession
        (some (bytes "s"))).1 demoSessionB (some (bytes "s"))).1.fServerMediaSessions
      = [(bytes "s", demoSessionB), (bytes "o", demoOther)]
    ∧ (addServerMediaSession demoRegistry demoSession (some (bytes "s"))).2 = []
    ∧ (addServerMediaSession (addServerMediaSession demoRegistry demoSession
        (some (bytes "s"))).1 demoSessionB (some (bytes "s"))).2 = [demoSession]
    ∧ ((addServerMediaSession demoRegistry demoSession (some (bytes "s"))).2
        ++ (addServerMediaSession (addServerMediaSession demoRegistry demoSession
          (some (bytes "s"))).1 demoSessionB (some (bytes "s"))).2).count demoSession = 1 :=
  ⟨by decide, by decide, by decide, by decide,
   (addServerMediaSession_overwrite demoRegistry demoSession demoSessionB (bytes "s")
      (by decide) (by decide) (by decide)).2.2.1⟩

set_option maxRecDepth 100000 in
/-- The request `OPTIONS * RTSP/1.0` with `CSeq: 1`, followed by the NUL
that the reader stores: an input of `handleRequest_OPTIONS`. -/
theorem handleRequest_OPTIONS_witness :
    (∀ c ∈ bytes "1", isDigit c)
    ∧ bytes "OPTIONS * RTSP/1.0\r\nCSeq: 1\r\n\r\n" ++ [0]
      = bytes "OPTIONS * RTSP/1.0\r\nCSeq: " ++ (bytes "1" ++ (bytes "\r\n\r\n" ++ [0]))
    ∧ ∃ s1, handleRequest demoEnv demoServer demoExternal demoBound
          (bytes "OPTIONS * RTSP/1.0\r\nCSeq: " ++ (bytes "1" ++ (bytes "\r\n\r\n" ++ [0])))
          (30 + (bytes "1").length) = some s1
      ∧ s1.fBuffer = bytes
          "RTSP/1.0 200 OK\r\nCSeq: 1\r\nPublic: OPTIONS, DESCRIBE, SETUP, TEARDOWN, PLAY, PAUSE\r\n\r\n"
      ∧ s1.fSessionIsActive = true
      ∧ s1.fStreamStates = demoBound.fStreamStates := by
  obtain ⟨_, _, s1, h1, h2, h3, _, h5, _⟩ := handleRequest_OPTIONS demoEnv demoServer
    demoExternal demoBound (bytes "1") [0] (by decide) (by decide)
  exact ⟨by decide, by decide, s1, h1, by rw [h2]; decide, by rw [h3]; decide, h5⟩

set_option maxRecDepth 100000 in
/-- The requests with the methods `RECORD` and `options` and with the empty
method, sent to a session that has set up a track: inputs of
`handleRequest_unknown_method`. -/
theorem handleRequest_unknown_method_witness :
    (∀ q ∈ [demoRecord, demoLowerOptions, demoNoMethod],
      ∃ s1, handleRequest demoEnv demoServer demoExternal demoBound q.mem q.totalBytes = some s1
        ∧ s1.fBuffer = bytes
          "RTSP/1.0 405 Method Not Allowed\r\nCSeq: 7\r\nAllow: OPTIONS, DESCRIBE, SETUP, TEARDOWN, PLAY, PAUSE\r\n\r\n"
        ∧ s1.fSessionIsActive = false)
    ∧ demoBound.fSessionIsActive = true := by
  refine ⟨?_, by decide⟩
  intro q hq
  simp only [List.mem_cons, List.mem_singleton, List.not_mem_nil, or_false] at hq
  rcases hq with rfl | rfl | rfl
  · obtain ⟨s1, h1, h2, h3, _⟩ := handleRequest_unknown_method demoEnv demoServer demoExternal
      demoBound demoRecord.mem demoRecord.totalBytes
      ⟨true, bytes "RECORD" ++ [0], [0], bytes "s" ++ [0], bytes "7" ++ [0]⟩
      (by decide) rfl (by decide)
    exact ⟨s1, h1, by rw [h2]; decide, h3⟩
  · obtain ⟨s1, h1, h2, h3, _⟩ := handleRequest_unknown_method demoEnv demoServer demoExternal
      demoBound demoLowerOptions.mem demoLowerOptions.totalBytes
      ⟨true, bytes "options" ++ [0], [0], bytes "*" ++ [0], bytes "7" ++ [0]⟩
      (by decide) rfl (by decide)
    exact ⟨s1, h1, by rw [h2]; decide, h3⟩
  · obtain ⟨s1, h1, h2, h3, _⟩ := handleRequest_unknown_method demoEnv demoServer demoExternal
      demoBound demoNoMethod.mem demoNoMethod.totalBytes
      ⟨true, [0], [0], bytes "s" ++ [0], bytes "7" ++ [0]⟩
      (by decide) rfl (by decide)
    exact ⟨s1, h1, by rw [h2]; decide, h3⟩

set_option maxRecDepth 100000 in
/-- Three SETUP requests with the head `demoSetupHead`: without a
`Transport: ` header, with `Transport: RTP/AVP;unicast` as the last header,
and with the header `X: a;RTP/AVP/TCP;q=1` after it; inputs of
`parseTransportHeader_defaults`. -/
theorem parseTransportHeader_defaults_witness :
    parseTransportHeader (demoSetupHead ++ bytes "\r\n" ++ [0])
      = ⟨false, none, 255, 0, 1, 255, 255⟩
    ∧ parseTransportHeader (demoSetupHead ++ (bytes "Transport: "
        ++ (bytes "RTP/AVP;unicast\r\n" ++ (bytes "\r\n" ++ [0]))))
      = ⟨false, none, 255, 0, 1, 255, 255⟩
    ∧ parseTransportHeader (demoSetupHead ++ (bytes "Transport: " ++ (bytes "RTP/AVP;unicast\r\n"
        ++ (bytes "X: a;RTP/AVP/TCP;q=1\r\n\r\n" ++ [0]))))
      = ⟨true, none, 255, 0, 1, 255, 255⟩ :=
  ⟨(parseTransportHeader_defaults (demoSetupHead ++ bytes "\r\n" ++ [0]) demoSetupHead
      (bytes "\r\n" ++ [0]) (by decide) (by decide) (by decide)).1 (by decide),
   (parseTransportHeader_defaults [] demoSetupHead (bytes "\r\n" ++ [0]) (by decide)
      (by decide) (by decide)).2.1,
   (parseTransportHeader_defaults [] demoSetupHead [] (by decide) (by decide)
      (by decide)).2.2⟩

/-- Two accepted connections with a failed `accept` between them; an input
of `incomingConnections_ids`. -/
theorem incomingConnections_ids_witness :
    (incomingConnections 0 [(4, 7), (-1, 0), (5, 9)]).1 = 2
    ∧ (incomingConnections 0 [(4, 7), (-1, 0), (5, 9)]).2.map (fun s => s.fOurSessionId) = [1, 2]
    ∧ (incomingConnections 0 [(4, 7), (-1, 0), (5, 9)]).2.map
        (fun s => (s.fClientSocket, s.fClientAddr)) = [(4, 7), (5, 9)] := by
  obtain ⟨h1, h2, h3, _, _⟩ := incomingConnections_ids [(4, 7), (-1, 0), (5, 9)] (by decide)
  exact ⟨h1, h2, h3⟩

/-- C23, the counterexample.  Of `2^32 + 1` accepted connections the first
and the last get the same session id 1, and after `2^32` of them the counter
is 0 again, below its value 1 after the first. -/
theorem incomingConnections_counterexample :
    ((incomingConnections 0 (List.replicate 4294967297 (3, 0))).2.map
        (fun s => s.fOurSessionId))[0]? = some 1
    ∧ ((incomingConnections 0 (List.replicate 4294967297 (3, 0))).2.map
        (fun s => s.fOurSessionId))[4294967296]? = some 1
    ∧ (incomingConnections 0 (List.replicate 1 (3, 0))).1 = 1
    ∧ (incomingConnections 0 (List.replicate 4294967296 (3, 0))).1 = 0 := by
  have hr := (incomingConnections_replicate 4294967297 0 3 0 (by decide)).2
  refine ⟨?_, ?_, ?_, ?_⟩
  · rw [hr, List.getElem?_map, List.getElem?_range (by norm_num)]; rfl
  · rw [hr, List.getElem?_map, List.getElem?_range (by norm_num)]; rfl
  · rfl
  · rw [(incomingConnections_replicate 4294967296 0 3 0 (by decide)).1]; rfl

set_option maxRecDepth 100000 in
/-- The session `demoBound`, which holds the stream states of the tracks
`t0` (token 77) and `t1` (no token): `PLAY rtsp://host/s` starts both,
`PAUSE rtsp://host/s/t1` pauses the second only; inputs of
`handleCmd_withinSession_PLAY`. -/
theorem handleCmd_withinSession_PLAY_witness :
    (handleCmd_withinSession demoBound (bytes "PLAY") [] (bytes "s") (bytes "5")).map
        (fun s1 => s1.log.drop demoBound.log.length)
      = some [Event.startStream 10 1 (some 77), Event.startStream 11 1 none]
    ∧ (handleCmd_withinSession demoBound (bytes "PAUSE") (bytes "s") (bytes "t1") (bytes "5")).map
        (fun s1 => s1.log.drop demoBound.log.length)
      = some [Event.pauseStream 11 1 none] := by
  refine ⟨?_, ?_⟩
  · rw [((handleCmd_withinSession_PLAY demoBound demoSession [] (bytes "s") (bytes "5")
      (by decide) (by decide) (by decide)).1 (by decide) (by decide)).1]
    decide
  · obtain ⟨st, _, _, hu, _, h⟩ := (handleCmd_withinSession_PLAY demoBound demoSession (bytes "s")
      (bytes "t1") (bytes "5") (by decide) (by decide) (by decide)).2 ⟨11, bytes "t1"⟩
      (by decide) (by decide) (by decide)
    have e := hu ⟨some ⟨11, bytes "t1"⟩, none⟩ (by decide) rfl
    subst e
    rw [h]
    decide

/-- One read that fills a buffer of 10000 bytes and ends with `\r\n\r\n`;
an input of `readLoop_fills_buffer`. -/
theorem readLoop_fills_buffer_witness :
    ∃ st, readLoop [demoFullRead] (ReadState.init 10000) = ReadResult.endOfMsg st
      ∧ st.buf = [demoFullRead].flatten ∧ st.totalBytes = 10000
      ∧ terminateRequest 10000 st = none :=
  have hb : bytes "\r\n\r\n" = [13, 10, 13, 10] := by decide
  have hf : [demoFullRead].flatten = List.replicate 9996 97 ++ [13, 10, 13, 10] := by
    rw [List.flatten_cons, List.flatten_nil, List.append_nil, demoFullRead, hb]
  readLoop_fills_buffer 10000 [demoFullRead]
    (by
      intro c hc
      rw [List.mem_singleton] at hc
      rw [hc, demoFullRead, hb]
      intro h
      have := congrArg List.length h
      rw [List.length_append, List.length_replicate] at this
      exact absurd this (by decide))
    (by rw [hf, List.length_append, List.length_replicate]; rfl)
    (by rw [hf]; exact containsEnd_suffix _)
    (by
      rintro ⟨u, h1, _⟩
      simp [crlfAt] at h1)

set_option maxRecDepth 100000 in
/-- The request of C29: `username="alice` without the closing quote, at the
end of the request; an input of `parseAuthorizationHeader_unterminated`. -/
theorem parseAuthorizationHeader_unterminated_witness :
    parseAuthorizationHeader (demoDescribeHead ++ (bytes "Authorization: Digest "
      ++ (bytes "username=\"" ++ (bytes "alice\r\n\r\n" ++ [0])))) = none :=
  (parseAuthorizationHeader_unterminated demoDescribeHead (bytes "alice\r\n\r\n")
    (by decide) (by decide) (by decide)).1

set_option maxRecDepth 100000 in
/-- The session `demoBoth` and the request `TEARDOWN rtsp://host/s/t0`; an
input of `handleCmd_withinSession_TEARDOWN`. -/
theorem handleCmd_withinSession_TEARDOWN_witness :
    handleCmd_withinSession demoBoth (bytes "TEARDOWN") (bytes "s") (bytes "t0") (bytes "5")
      = some { demoBoth with
          fBuffer := bytes "RTSP/1.0 200 OK\r\nCSeq: " ++ bytes "5" ++ bytes "\r\n\r\n",
          fSessionIsActive := false }
    ∧ handleRequest demoEnv demoServer demoTeardownT0.x demoBoth demoTeardownT0.mem
        demoTeardownT0.totalBytes
      = handleCmd_withinSession demoBoth (bytes "TEARDOWN") (bytes "s") (bytes "t0") (bytes "5") :=
  ⟨(handleCmd_withinSession_TEARDOWN demoBoth demoSession (bytes "s") (bytes "t0") (bytes "5")
      ⟨10, bytes "t0"⟩ (by decide) (by decide) (by decide) (by decide) (by decide)).1,
   by decide⟩

set_option maxRecDepth 100000 in
/-- C25, the counterexample.  The session `demoBoth` holds the streams of
`t0` (token 77) and `t1` (token 78).  The request
`TEARDOWN rtsp://host/s/t0` ends the session, and `deleteStream` is called
for the stream of `t1` as well. -/
theorem runSession_TEARDOWN_counterexample :
    demoBoth.fStreamStates = [⟨some ⟨10, bytes "t0"⟩, some 77⟩, ⟨some ⟨11, bytes "t1"⟩, some 78⟩]
    ∧ (runSession demoEnv demoServer [demoTeardownT0] demoBoth).map
        (fun s1 => s1.log.drop demoBoth.log.length)
      = some [Event.deleteStream 10 1 (some 77), Event.deleteStream 11 1 (some 78)] := by
  decide

set_option maxRecDepth 100000 in
/-- Two rejected DESCRIBE requests on a server with a user database, inputs
of `authenticationOK_failure`: one with a response that is not the digest,
in the session `demoChallenged` whose nonce `N` is outstanding, and one
without credentials in a new session.  Both are answered with the nonce
`N2` generated during the call. -/
theorem authenticationOK_failure_witness :
    demoChallenged.fCurrentAuthenticator.nonce = some (bytes "N")
    ∧ (∃ s1, authenticationOK demoEnv demoAuthServer demoExternal demoChallenged
          (bytes "DESCRIBE") (bytes "2") (demoDescribeAuth "aliceRpwNDESCRIBErtsp://host/t")
        = some (false, s1)
      ∧ s1.fCurrentAuthenticator.nonce = some (bytes "N2")
      ∧ s1.fBuffer = bytes "RTSP/1.0 401 Unauthorized\r\nCSeq: 2\r\nWWW-Authenticate: Digest realm=\"R\", nonce=\"N2\"\r\n\r\n"
      ∧ s1.fCurrentAuthenticator.nonce ≠ demoChallenged.fCurrentAuthenticator.nonce)
    ∧ (∃ s1, authenticationOK demoEnv demoAuthServer demoExternal (RTSPClientSession.new 1 5 99)
          (bytes "DESCRIBE") (bytes "2") demoDescribe = some (false, s1)
      ∧ s1.fCurrentAuthenticator.nonce = some (bytes "N2")
      ∧ s1.fCurrentAuthenticator.nonce
          ≠ (RTSPClientSession.new 1 5 99).fCurrentAuthenticator.nonce) :=
  ⟨by decide,
   ⟨authenticationFailed demoDB demoExternal
      (setUsernameAndPassword demoDB demoChallenged (bytes "alice") (bytes "pw")) (bytes "2"),
     by decide, by decide, by decide,
     (authenticationOK_failure demoEnv demoAuthServer demoExternal demoChallenged (bytes "2")
      (bytes "s") (demoDescribeAuth "aliceRpwNDESCRIBErtsp://host/t") _ (by decide)
      (by decide)).2.1⟩,
   ⟨authenticationFailed demoDB demoExternal (RTSPClientSession.new 1 5 99) (bytes "2"),
     by decide, by decide,
     (authenticationOK_failure demoEnv demoAuthServer demoExternal (RTSPClientSession.new 1 5 99)
      (bytes "2") (bytes "s") demoDescribe _ (by decide) (by decide)).2.1⟩⟩

end RTSPServer
